import Mathlib

/-!
# libxkbcommon: compat-map compiler (`src/xkbcomp/compat.c`)

A shallow embedding of the merge and copy routines of the compat compiler,
followed by the properties proved about them.

Conventions of the embedding:

* C structures become Lean structures with the same field names (`match` and
  `repeat` are Lean keywords and are written `match_` and `repeat_`).
* Dynamic arrays (`darray`) become lists; a pointer into a dynamic array is
  the index of the element together with the element it points to.
* `info->keymap` is a pointer to the keymap under construction; the embedding
  stores the keymap inside the compat-info, and a function that writes through
  the pointer returns the updated compat-info.
* Bit masks and enumerations used as bit sets are natural numbers, tested and
  combined with `&&&` and `|||`.
* Log calls append an entry to the log sink of the context.
-/

namespace Xkb

/-! ## Data model -/

/-- Modelled from the spec: the enumeration `enum merge_mode`, whose declaration
is not among the sources; the four merge modes of the spec. -/
inductive merge_mode where
  | MERGE_DEFAULT
  | MERGE_AUGMENT
  | MERGE_OVERRIDE
  | MERGE_REPLACE
  deriving DecidableEq, Repr

/-- Modelled from the spec: the enumeration `enum xkb_match_operation`, whose
declaration is not among the sources; the five matching operations an interpret
may carry (spec section 3; documentation of the section, compat.c lines 90-98). -/
inductive xkb_match_operation where
  | MATCH_NONE
  | MATCH_ANY_OR_NONE
  | MATCH_ANY
  | MATCH_ALL
  | MATCH_EXACTLY
  deriving DecidableEq, Repr

open merge_mode xkb_match_operation

/-- Modelled from the spec: the keysym `XKB_KEY_NoSymbol`, the absence of a
keysym; its declaration is not among the sources. -/
def XKB_KEY_NoSymbol : Nat := 0

/-- Modelled from the spec: the atom `XKB_ATOM_NONE`, the sentinel that denotes
absence; its declaration is not among the sources. -/
def XKB_ATOM_NONE : Nat := 0

/-- Modelled from the spec: the modifier index `XKB_MOD_INVALID`; its
declaration is not among the sources. -/
def XKB_MOD_INVALID : Nat := 0xffffffff

/-- Modelled from the spec: the constant `XKB_MAX_LEDS`, whose declaration is
not among the sources; the indicator table holds at most 32 slots. -/
def XKB_MAX_LEDS : Nat := 32

/-- Modelled from the spec: the state component `XKB_STATE_MODS_EFFECTIVE`, a
nonzero component mask whose declaration is not among the sources. -/
def XKB_STATE_MODS_EFFECTIVE : Nat := 8

/-- Modelled from the spec: the state component `XKB_STATE_LAYOUT_EFFECTIVE`, a
nonzero component mask whose declaration is not among the sources. -/
def XKB_STATE_LAYOUT_EFFECTIVE : Nat := 128

/-- Modelled from the spec: the structure `struct xkb_mods`, whose declaration
is not among the sources; the sources use its `mods` member only. -/
structure xkb_mods where
  mods : Nat
  deriving DecidableEq, Repr

/-- Modelled from the spec: the union `union xkb_action`, whose declaration is
not among the sources. Every view of the union starts with the action type;
the members the sources read through the views are kept side by side: `data`
for the private view (`priv.data`), `flags` for the flags of whichever view the
type selects, `mods` (`mods.mods`), `group` (`group.group`), `x` and `y`
(`ptr.x`, `ptr.y`), `button` and `count` (`btn.button`, `btn.count`), `value`
(`dflt.value`), `screen` (`screen.screen`) and `ctrls` (`ctrls.ctrls`). The
compat compiler copies actions whole and never looks inside. -/
structure xkb_action where
  type : Nat
  data : List Nat
  flags : Nat := 0
  mods : xkb_mods := { mods := 0 }
  group : Int := 0
  x : Int := 0
  y : Int := 0
  button : Nat := 0
  count : Nat := 0
  value : Int := 0
  screen : Int := 0
  ctrls : Nat := 0
  deriving DecidableEq, Repr

/-- Modelled from the spec: the structure `struct xkb_sym_interpret`
(SymInterpret in spec section 3), whose declaration is not among the sources. -/
structure xkb_sym_interpret where
  sym : Nat
  match_ : xkb_match_operation
  mods : Nat
  virtual_mod : Nat
  action : xkb_action
  level_one_only : Bool
  repeat_ : Bool
  deriving DecidableEq, Repr

/-- Modelled from the spec: the structure `struct xkb_indicator_map`
(IndicatorMap in spec section 3), whose declaration is not among the sources. -/
structure xkb_indicator_map where
  name : Nat
  which_groups : Nat
  groups : Nat
  which_mods : Nat
  mods : xkb_mods
  ctrls : Nat
  deriving DecidableEq, Repr

/-- Bit `SI_FIELD_VIRTUAL_MOD` of `enum si_field`. -/
def SI_FIELD_VIRTUAL_MOD : Nat := 1
/-- Bit `SI_FIELD_ACTION` of `enum si_field`. -/
def SI_FIELD_ACTION : Nat := 2
/-- Bit `SI_FIELD_AUTO_REPEAT` of `enum si_field`. -/
def SI_FIELD_AUTO_REPEAT : Nat := 4
/-- Bit `SI_FIELD_LEVEL_ONE_ONLY` of `enum si_field`. -/
def SI_FIELD_LEVEL_ONE_ONLY : Nat := 8

/-- The structure `SymInterpInfo`. -/
structure SymInterpInfo where
  defined : Nat
  file_id : Nat
  merge : merge_mode
  interp : xkb_sym_interpret
  deriving DecidableEq, Repr

/-- Bit `LED_FIELD_MODS` of `enum led_field`. -/
def LED_FIELD_MODS : Nat := 1
/-- Bit `LED_FIELD_GROUPS` of `enum led_field`. -/
def LED_FIELD_GROUPS : Nat := 2
/-- Bit `LED_FIELD_CTRLS` of `enum led_field`. -/
def LED_FIELD_CTRLS : Nat := 4

/-- The structure `LEDInfo`. -/
structure LEDInfo where
  defined : Nat
  file_id : Nat
  merge : merge_mode
  im : xkb_indicator_map
  deriving DecidableEq, Repr

/-- One diagnostic written by the compat compiler to the log sink. -/
inductive log_entry where
  /-- Warning "Multiple definitions for ...; Earlier interpretation ignored". -/
  | interp_replaced (new : SymInterpInfo)
  /-- Warning "Multiple interpretations of ...; Using (last|first) definition for
  duplicate fields"; `last` is `new->merge != MERGE_AUGMENT`. -/
  | interp_collision (new : SymInterpInfo) (last : Bool)
  /-- Warning "Map for indicator ... redefined; Earlier definition ignored". -/
  | led_replaced (name : Nat)
  /-- Warning "Map for indicator ... redefined; Using (first|last) definition for
  duplicate fields"; `first` is `new->merge == MERGE_AUGMENT`. -/
  | led_collision (name : Nat) (first : Bool)
  /-- Debug message "Indicator name ... was not declared in the keycodes
  section; Adding new indicator". -/
  | led_not_declared (name : Nat)
  /-- Error "Too many indicators (maximum is 32); Indicator name ... ignored". -/
  | led_too_many (name : Nat)
  /-- Any other diagnostic of the compat compiler or of the serializer, by its
  level ("err", "warn", "dbg") and the start of its text. -/
  | msg (level : String) (text : String)
  deriving DecidableEq, Repr

/-- Modelled from the spec: the part of `struct xkb_context` the compat compiler
and the serializer use, the log verbosity, the log sink and the atom table
(atom n, for n at least 1, is the n-th interned string); its declaration is not
among the sources. -/
structure xkb_context where
  log_verbosity : Int
  log : List log_entry
  atom_table : List String := []
  deriving DecidableEq, Repr

/-- Modelled from the spec: the enumeration `enum mod_type` (a modifier is real
or virtual; `MOD_BOTH` selects both namespaces in a lookup); its declaration is
not among the sources. -/
inductive mod_type where
  | MOD_REAL
  | MOD_VIRT
  | MOD_BOTH
  deriving DecidableEq, Repr

/-- Modelled from the spec: the structure `struct xkb_mod` (Modifier in spec
section 3), whose declaration is not among the sources. -/
structure xkb_mod where
  name : Nat
  type : mod_type
  deriving DecidableEq, Repr

/-- Modelled from the spec: the structure `struct xkb_kt_map_entry` (map entry
of a key type in spec section 3), whose declaration is not among the sources. -/
structure xkb_kt_map_entry where
  level : Nat
  mods : xkb_mods
  preserve : xkb_mods
  deriving DecidableEq, Repr

/-- Modelled from the spec: the structure `struct xkb_key_type` (KeyType in spec
section 3), whose declaration is not among the sources. `num_entries` is the
length of `map`; `level_names` is absent (NULL) or an array of `num_levels`
atoms. -/
structure xkb_key_type where
  name : Nat
  mods : xkb_mods
  num_levels : Nat
  map : List xkb_kt_map_entry
  level_names : Option (List Nat)
  deriving DecidableEq, Repr

/-- Modelled from the spec: the structure `struct xkb_level` (Level in spec
section 3), whose declaration is not among the sources. -/
structure xkb_level where
  syms : List Nat
  action : xkb_action
  deriving DecidableEq, Repr

/-- Modelled from the spec: the structure `struct xkb_group` (Group in spec
section 3), whose declaration is not among the sources. The pointer `type` into
the type table of the keymap is the index of the type. -/
structure xkb_group where
  explicit_type : Bool
  type : Nat
  levels : List xkb_level
  deriving DecidableEq, Repr

/-- Modelled from the spec: the enumeration `enum xkb_range_exceed_type`
(out-of-range group action of a key), whose declaration is not among the
sources. -/
inductive xkb_range_exceed_type where
  | RANGE_WRAP
  | RANGE_SATURATE
  | RANGE_REDIRECT
  deriving DecidableEq, Repr

/-- Modelled from the spec: the structure `struct xkb_key` (Key in spec section
3), whose declaration is not among the sources. `num_groups` is the length of
`groups`. -/
structure xkb_key where
  keycode : Nat
  name : Nat
  explicit : Nat
  modmap : Nat
  vmodmap : Nat
  repeats : Bool
  out_of_range_group_action : xkb_range_exceed_type
  out_of_range_group_number : Nat
  groups : List xkb_group
  deriving DecidableEq, Repr

/-- Modelled from the spec: the structure `struct xkb_key_alias`, whose
declaration is not among the sources (`alias` is written `alias_`). -/
structure xkb_key_alias where
  real : Nat
  alias_ : Nat
  deriving DecidableEq, Repr

/-- Modelled from the spec: the members of `struct xkb_keymap` the compat
compiler and the serializer read and write; its declaration is not among the
sources. `keys` lists the keys in the order of `xkb_foreach_key`; `num_types`
and `num_group_names` are the lengths of `types` and `group_names`. -/
structure xkb_keymap where
  ctx : xkb_context
  sym_interprets : List xkb_sym_interpret
  indicators : List xkb_indicator_map
  compat_section_name : Option String
  format : Int := 1
  keys : List xkb_key := []
  key_aliases : List xkb_key_alias := []
  mods : List xkb_mod := []
  types : List xkb_key_type := []
  group_names : List Nat := []
  keycodes_section_name : Option String := none
  types_section_name : Option String := none
  symbols_section_name : Option String := none
  deriving DecidableEq, Repr

/-- Modelled from the spec: the actions-info context `ActionsInfo` (the default
values of the action fields), whose declaration is not among the sources; the
compat compiler only hands it to the action-field setter and to the action
parser. -/
structure ActionsInfo where
  data : List Nat
  deriving DecidableEq, Repr

/-- The structure `CompatInfo`. The pointers `actions` and `keymap` are shared
by the compat-info of a file and those of the files it includes; the embedding
stores what they point to and hands it on from one compat-info to the next. -/
structure CompatInfo where
  name : Option String
  file_id : Nat
  errorCount : Int
  dflt : SymInterpInfo
  interps : List SymInterpInfo
  ledDflt : LEDInfo
  leds : List LEDInfo
  keymap : xkb_keymap
  actions : ActionsInfo := { data := [] }
  deriving DecidableEq, Repr

/-- The call `log_*(info->keymap->ctx, ...)`: append entries to the log sink. -/
def CompatInfo.log (info : CompatInfo) (msgs : List log_entry) : CompatInfo :=
  { info with keymap := { info.keymap with
      ctx := { info.keymap.ctx with log := info.keymap.ctx.log ++ msgs } } }

/-! ## Interprets: `FindMatchingInterp`, `UseNewInterpField`, `AddInterp` -/

/-- The test of `FindMatchingInterp`: same `sym`, `mods` and `match`. -/
def SameInterpKey (old new : SymInterpInfo) : Bool :=
  old.interp.sym == new.interp.sym &&
  old.interp.mods == new.interp.mods &&
  old.interp.match_ == new.interp.match_

/-- The loop of `FindMatchingInterp` over the interprets: the first element
with the key of `new`, as its index and value. -/
def FindMatchingInterp.scan (new : SymInterpInfo) :
    List SymInterpInfo → Option (Nat × SymInterpInfo)
  | [] => none
  | old :: rest =>
    if SameInterpKey old new then some (0, old)
    else (FindMatchingInterp.scan new rest).map (fun r => (r.1 + 1, r.2))

/-- The function `FindMatchingInterp` (compat.c lines 342-354). -/
def FindMatchingInterp (info : CompatInfo) (new : SymInterpInfo) :
    Option (Nat × SymInterpInfo) :=
  FindMatchingInterp.scan new info.interps

/-- The function `UseNewInterpField` (compat.c lines 356-372): the result and
the updated `*collide`. -/
def UseNewInterpField (field : Nat) (old new : SymInterpInfo) (report : Bool)
    (collide : Nat) : Bool × Nat :=
  if old.defined &&& field = 0 then (true, collide)
  else if new.defined &&& field ≠ 0 then
    let collide := if report then collide ||| field else collide
    if new.merge ≠ MERGE_AUGMENT then (true, collide) else (false, collide)
  else (false, collide)

/-- The field-by-field merge of `AddInterp` (compat.c lines 396-415): the
updated `*old` and the final `collide`. -/
def AddInterp.mergeFields (old new : SymInterpInfo) (report : Bool) :
    SymInterpInfo × Nat :=
  let collide := 0
  let u := UseNewInterpField SI_FIELD_VIRTUAL_MOD old new report collide
  let collide := u.2
  let old := if u.1 then
      { old with interp := { old.interp with virtual_mod := new.interp.virtual_mod },
                 defined := old.defined ||| SI_FIELD_VIRTUAL_MOD }
    else old
  let u := UseNewInterpField SI_FIELD_ACTION old new report collide
  let collide := u.2
  let old := if u.1 then
      { old with interp := { old.interp with action := new.interp.action },
                 defined := old.defined ||| SI_FIELD_ACTION }
    else old
  let u := UseNewInterpField SI_FIELD_AUTO_REPEAT old new report collide
  let collide := u.2
  let old := if u.1 then
      { old with interp := { old.interp with repeat_ := new.interp.repeat_ },
                 defined := old.defined ||| SI_FIELD_AUTO_REPEAT }
    else old
  let u := UseNewInterpField SI_FIELD_LEVEL_ONE_ONLY old new report collide
  let collide := u.2
  let old := if u.1 then
      { old with interp := { old.interp with level_one_only := new.interp.level_one_only },
                 defined := old.defined ||| SI_FIELD_LEVEL_ONE_ONLY }
    else old
  (old, collide)

/-- The function `AddInterp` (compat.c lines 374-430). -/
def AddInterp (info : CompatInfo) (new : SymInterpInfo) : Bool × CompatInfo :=
  match FindMatchingInterp info new with
  | some (i, old) =>
    let verbosity := info.keymap.ctx.log_verbosity
    let report : Bool :=
      (old.file_id == new.file_id && decide (verbosity > 0)) || decide (verbosity > 9)
    if new.merge = MERGE_REPLACE then
      let info := if report then info.log [log_entry.interp_replaced new] else info
      (true, { info with interps := info.interps.set i new })
    else
      let r := AddInterp.mergeFields old new report
      let info := { info with interps := info.interps.set i r.1 }
      let info := if r.2 ≠ 0 then
          info.log [log_entry.interp_collision new (decide (new.merge ≠ MERGE_AUGMENT))]
        else info
      (true, info)
  | none => (true, { info with interps := info.interps ++ [new] })

/-! ## Indicator maps: `UseNewLEDField`, `AddIndicatorMap` -/

/-- The function `UseNewLEDField` (compat.c lines 471-487): the result and the
updated `*collide`. -/
def UseNewLEDField (field : Nat) (old new : LEDInfo) (report : Bool)
    (collide : Nat) : Bool × Nat :=
  if old.defined &&& field = 0 then (true, collide)
  else if new.defined &&& field ≠ 0 then
    let collide := if report then collide ||| field else collide
    if new.merge ≠ MERGE_AUGMENT then (true, collide) else (false, collide)
  else (false, collide)

/-- The field-by-field merge of `AddIndicatorMap` (compat.c lines 525-539): the
updated `*old` and the final `collide`. -/
def AddIndicatorMap.mergeFields (old new : LEDInfo) (report : Bool) :
    LEDInfo × Nat :=
  let collide := 0
  let u := UseNewLEDField LED_FIELD_MODS old new report collide
  let collide := u.2
  let old := if u.1 then
      { old with im := { old.im with which_mods := new.im.which_mods, mods := new.im.mods },
                 defined := old.defined ||| LED_FIELD_MODS }
    else old
  let u := UseNewLEDField LED_FIELD_GROUPS old new report collide
  let collide := u.2
  let old := if u.1 then
      { old with im := { old.im with which_groups := new.im.which_groups,
                                     groups := new.im.groups },
                 defined := old.defined ||| LED_FIELD_GROUPS }
    else old
  let u := UseNewLEDField LED_FIELD_CTRLS old new report collide
  let collide := u.2
  let old := if u.1 then
      { old with im := { old.im with ctrls := new.im.ctrls },
                 defined := old.defined ||| LED_FIELD_CTRLS }
    else old
  (old, collide)

/-- The test of the fast path of `AddIndicatorMap` (compat.c lines 503-507). -/
def SameLEDFields (old new : LEDInfo) : Bool :=
  old.im.mods.mods == new.im.mods.mods &&
  old.im.groups == new.im.groups &&
  old.im.ctrls == new.im.ctrls &&
  old.im.which_mods == new.im.which_mods &&
  old.im.which_groups == new.im.which_groups

/-- The loop of `AddIndicatorMap` (compat.c lines 497-550) over the LEDs of
the compat-info: `none` when the loop ends without returning, otherwise the
updated LEDs and the warnings logged. -/
def AddIndicatorMap.loop (verbosity : Int) (new : LEDInfo) :
    List LEDInfo → Option (List LEDInfo × List log_entry)
  | [] => none
  | old :: rest =>
    if old.im.name ≠ new.im.name then
      (AddIndicatorMap.loop verbosity new rest).map (fun r => (old :: r.1, r.2))
    else if SameLEDFields old new then
      some ({ old with defined := old.defined ||| new.defined } :: rest, [])
    else
      let report : Bool :=
        (old.file_id == new.file_id && decide (verbosity > 0)) || decide (verbosity > 9)
      if new.merge = MERGE_REPLACE then
        some (new :: rest, if report then [log_entry.led_replaced old.im.name] else [])
      else
        let r := AddIndicatorMap.mergeFields old new report
        some (r.1 :: rest,
          if r.2 ≠ 0 then
            [log_entry.led_collision old.im.name (decide (new.merge = MERGE_AUGMENT))]
          else [])

/-- The function `AddIndicatorMap` (compat.c lines 489-554). -/
def AddIndicatorMap (info : CompatInfo) (new : LEDInfo) : Bool × CompatInfo :=
  match AddIndicatorMap.loop info.keymap.ctx.log_verbosity new info.leds with
  | some r => (true, ({ info with leds := r.1 }).log r.2)
  | none => (true, { info with leds := info.leds ++ [new] })

/-! ## Copy to the keymap: `CopyInterps`, `CopyIndicatorMapDefs`, `CopyCompatToKeymap` -/

/-- The function `CopyInterps` (compat.c lines 983-992): walk the interprets in
order and append to the keymap those of the requested bucket. -/
def CopyInterps (info : CompatInfo) (needSymbol : Bool) (pred : xkb_match_operation) :
    CompatInfo :=
  info.interps.foldl
    (fun (acc : CompatInfo) (si : SymInterpInfo) =>
      if si.interp.match_ = pred ∧ (decide (si.interp.sym ≠ XKB_KEY_NoSymbol)) = needSymbol then
        { acc with keymap := { acc.keymap with
            sym_interprets := acc.keymap.sym_interprets ++ [si.interp] } }
      else acc)
    info

/-- The defaulting at the end of the body of the loop of `CopyIndicatorMapDefs`
(compat.c lines 1038-1042): the value stored in the slot for `led->im`. -/
def CopyIndicatorMapDefs.stored (im : xkb_indicator_map) : xkb_indicator_map :=
  let im := if im.groups ≠ 0 ∧ im.which_groups = 0 then
      { im with which_groups := XKB_STATE_LAYOUT_EFFECTIVE } else im
  let im := if im.mods.mods ≠ 0 ∧ im.which_mods = 0 then
      { im with which_mods := XKB_STATE_MODS_EFFECTIVE } else im
  im

/-- One iteration of the loop of `CopyIndicatorMapDefs` (compat.c lines 1002-1043). -/
def CopyIndicatorMapDefs.step (keymap : xkb_keymap) (led : LEDInfo) : xkb_keymap :=
  let i := keymap.indicators.findIdx (fun im => im.name == led.im.name)
  if i ≥ keymap.indicators.length then
    let keymap := { keymap with ctx := { keymap.ctx with
      log := keymap.ctx.log ++ [log_entry.led_not_declared led.im.name] } }
    let i := keymap.indicators.findIdx (fun im => im.name == XKB_ATOM_NONE)
    if i ≥ keymap.indicators.length then
      if i ≥ XKB_MAX_LEDS then
        { keymap with ctx := { keymap.ctx with
            log := keymap.ctx.log ++ [log_entry.led_too_many led.im.name] } }
      else
        { keymap with
            indicators := keymap.indicators ++ [CopyIndicatorMapDefs.stored led.im] }
    else
      { keymap with
          indicators := keymap.indicators.set i (CopyIndicatorMapDefs.stored led.im) }
  else
    { keymap with
        indicators := keymap.indicators.set i (CopyIndicatorMapDefs.stored led.im) }

/-- The function `CopyIndicatorMapDefs` (compat.c lines 994-1044). -/
def CopyIndicatorMapDefs (info : CompatInfo) : CompatInfo :=
  { info with keymap := info.leds.foldl CopyIndicatorMapDefs.step info.keymap }

/-- The function `CopyCompatToKeymap` (compat.c lines 1046-1068). Its `keymap`
argument is the keymap `info->keymap` points to. -/
def CopyCompatToKeymap (info : CompatInfo) : Bool × CompatInfo :=
  let info := { info with keymap := { info.keymap with compat_section_name := info.name } }
  let info :=
    if ¬ info.interps.isEmpty then
      let info := CopyInterps info true MATCH_EXACTLY
      let info := CopyInterps info true MATCH_ALL
      let info := CopyInterps info true MATCH_NONE
      let info := CopyInterps info true MATCH_ANY
      let info := CopyInterps info true MATCH_ANY_OR_NONE
      let info := CopyInterps info false MATCH_EXACTLY
      let info := CopyInterps info false MATCH_ALL
      let info := CopyInterps info false MATCH_NONE
      let info := CopyInterps info false MATCH_ANY
      let info := CopyInterps info false MATCH_ANY_OR_NONE
      info
    else info
  (true, CopyIndicatorMapDefs info)

/-! ## The statement tree and the external collaborators of the compat compiler -/

/-- Modelled from the spec: a node `ExprDef` of the pre-parsed expression tree,
whose declaration is not among the sources. The compat compiler itself looks at
the node kinds `EXPR_IDENT` (an atom), `EXPR_FIELD_REF` and `EXPR_ACTION_DECL` (a
name and its arguments, possibly none); every other kind (literals, arithmetic,
set operations) is passed on to the expression evaluator as it is. -/
inductive ExprDef where
  | EXPR_IDENT (str : Nat)
  | EXPR_FIELD_REF (element : Nat) (field : Nat)
  | EXPR_ACTION_DECL (name : Nat) (args : Option ExprDef)
  | EXPR_OTHER (op : Nat) (args : List ExprDef)

/-- Modelled from the spec: the statement `VarDef` (`name = value;`), whose
declaration is not among the sources. -/
structure VarDef where
  merge : merge_mode
  name : Option ExprDef
  value : Option ExprDef

/-- Modelled from the spec: the statement `InterpDef`
(`interpret sym+match { def }`), whose declaration is not among the sources
(`match` and `def` are written `match_` and `def_`). -/
structure InterpDef where
  merge : merge_mode
  sym : Option String
  match_ : Option ExprDef
  def_ : List VarDef

/-- Modelled from the spec: the statement `IndicatorMapDef`
(`indicator "name" { body }`), whose declaration is not among the sources. -/
structure IndicatorMapDef where
  merge : merge_mode
  name : Nat
  body : List VarDef

/-- Modelled from the spec: the statement `VModDef` (`virtual_modifiers name`),
whose declaration is not among the sources. -/
structure VModDef where
  merge : merge_mode
  name : Nat
  value : Option ExprDef

/-- Modelled from the spec: one element of the chain of an include statement
(`IncludeStmt`, linked by `next_incl`), whose declaration is not among the
sources. -/
structure IncludeStmt where
  merge : merge_mode
  stmt : Option String
  file : Option String
  map : Option String
  modifier : Option String

/-- Modelled from the spec: a statement of a file (`ParseCommon` with its
`type`), whose declaration is not among the sources. An include statement is
the first element of its chain and the elements that follow it. -/
inductive Stmt where
  | STMT_INCLUDE (stmt : IncludeStmt) (next_incl : List IncludeStmt)
  | STMT_INTERP (d : InterpDef)
  | STMT_GROUP_COMPAT
  | STMT_INDICATOR_MAP (d : IndicatorMapDef)
  | STMT_VAR (d : VarDef)
  | STMT_VMOD (d : VModDef)
  | STMT_OTHER (type : Nat)

/-- Modelled from the spec: the parsed file `XkbFile`, whose declaration is not
among the sources. -/
structure XkbFile where
  id : Nat
  name : Option String
  topName : Option String
  defs : List Stmt

/-- The tables of names the compat compiler hands to `ExprResolveMask` and
`ExprResolveEnum`. -/
inductive lookup_table where
  | groupMaskNames
  | ctrlMaskNames
  | modComponentMaskNames
  | groupComponentMaskNames
  | useModMapValueNames
  deriving DecidableEq, Repr

/-- The external collaborators of the compat compiler: the expression
evaluator, the keysym lookup, the action parser and field setter, the virtual
modifier declaration, the include processor and the allocation of the actions
context. None of them is among the sources; each is a parameter, a function of
the arguments the compat compiler hands over that returns what the compat
compiler reads back (`none`, or `false`, for a failure). Their own diagnostics
are not recorded in the log sink. -/
structure Externals where
  ExprResolveModMask : xkb_keymap → Option ExprDef → mod_type → Option Nat
  ExprResolveMod : xkb_keymap → Option ExprDef → mod_type → Option Nat
  ExprResolveBoolean : xkb_context → Option ExprDef → Option Bool
  ExprResolveEnum : xkb_context → Option ExprDef → lookup_table → Option Nat
  ExprResolveMask : xkb_context → Option ExprDef → lookup_table → Option Nat
  ExprResolveLhs : xkb_context → Option ExprDef →
    Option (Option String × String × Option ExprDef)
  LookupKeysym : Option String → Option Nat
  HandleActionDef : Option ExprDef → xkb_keymap → xkb_action → ActionsInfo →
    Bool × xkb_action
  SetActionField : xkb_keymap → Option String → String → Option ExprDef →
    Option ExprDef → ActionsInfo → Bool × ActionsInfo
  HandleVModDef : xkb_keymap → VModDef → Bool × List xkb_mod
  ProcessIncludeFile : xkb_context → IncludeStmt → Option (XkbFile × merge_mode)
  NewActionsInfo : Option ActionsInfo

/-- Modelled from the spec: the mask `MOD_REAL_MASK_ALL` of all real modifiers
(the eight low bits), whose declaration is not among the sources. -/
def MOD_REAL_MASK_ALL : Nat := 0xff

/-- Modelled from the spec: the function `xkb_atom_text`, which is not among
the sources: the string an atom was interned from, and NULL (`none`) for the
atom NONE and for an atom that is not in the table. -/
def xkb_atom_text (ctx : xkb_context) (atom : Nat) : Option String :=
  if atom = XKB_ATOM_NONE then none else ctx.atom_table.get? (atom - 1)

/-- Modelled from the spec: the comparison `istreq`, which is not among the
sources: equality of two strings up to the case of the letters A to Z. -/
def istreq (a b : String) : Bool :=
  a.data.map Char.toLower == b.data.map Char.toLower

/-- Modelled from the spec: the table `symInterpretMatchMaskNames`, which is not
among the sources: the names of the five matching operations (documentation of
the section, compat.c lines 90-98). -/
def symInterpretMatchMaskNames : List (String × xkb_match_operation) :=
  [("NoneOf", MATCH_NONE), ("AnyOfOrNone", MATCH_ANY_OR_NONE), ("AnyOf", MATCH_ANY),
   ("AllOf", MATCH_ALL), ("Exactly", MATCH_EXACTLY)]

/-- Modelled from the spec: the function `LookupString`, which is not among the
sources: the value of the first entry of the table whose name is the string up
to case, and a failure for NULL and for a string that is not in the table. -/
def LookupString (tab : List (String × xkb_match_operation)) (string : Option String) :
    Option xkb_match_operation :=
  match string with
  | none => none
  | some str => (tab.find? (fun entry => istreq entry.1 str)).map (fun entry => entry.2)

/-! ## `ResolveStateAndPredicate` -/

/-- The function `ResolveStateAndPredicate` (compat.c lines 435-467): `none` when
it returns false, otherwise the values of `*pred_rtrn` and `*mods_rtrn`; and the
compat-info, whose log sink may have received an error. -/
def ResolveStateAndPredicate (ext : Externals) (expr : Option ExprDef) (info : CompatInfo) :
    Option (xkb_match_operation × Nat) × CompatInfo :=
  match expr with
  | none => (some (MATCH_ANY_OR_NONE, MOD_REAL_MASK_ALL), info)
  | some (ExprDef.EXPR_ACTION_DECL name args) =>
    let pred_txt := xkb_atom_text info.keymap.ctx name
    match LookupString symInterpretMatchMaskNames pred_txt with
    | none => (none, info.log [log_entry.msg "err" "Illegal modifier predicate"])
    | some pred =>
      ((ext.ExprResolveModMask info.keymap args mod_type.MOD_REAL).map
        (fun mods => (pred, mods)), info)
  | some (ExprDef.EXPR_IDENT str) =>
    let pred_txt := xkb_atom_text info.keymap.ctx str
    if (match pred_txt with
        | some txt => istreq txt "any"
        | none => false) then
      (some (MATCH_ANY, MOD_REAL_MASK_ALL), info)
    else
      ((ext.ExprResolveModMask info.keymap (some (ExprDef.EXPR_IDENT str))
        mod_type.MOD_REAL).map (fun mods => (MATCH_EXACTLY, mods)), info)
  | some e =>
    ((ext.ExprResolveModMask info.keymap (some e) mod_type.MOD_REAL).map
      (fun mods => (MATCH_EXACTLY, mods)), info)

/-! ## Statement handlers of the compat compiler -/

/-- The function `InitCompatInfo` (compat.c lines 319-332): everything zero but
the members assigned. -/
def InitCompatInfo (keymap : xkb_keymap) (file_id : Nat) (actions : ActionsInfo) :
    CompatInfo :=
  { name := none, file_id := file_id, errorCount := 0,
    dflt := { defined := 0, file_id := file_id, merge := MERGE_OVERRIDE,
              interp := { sym := 0, match_ := MATCH_NONE, mods := 0,
                          virtual_mod := XKB_MOD_INVALID,
                          action := { type := 0, data := List.replicate 7 0 },
                          level_one_only := false, repeat_ := false } },
    interps := [],
    ledDflt := { defined := 0, file_id := file_id, merge := MERGE_OVERRIDE,
                 im := { name := 0, which_groups := 0, groups := 0, which_mods := 0,
                         mods := { mods := 0 }, ctrls := 0 } },
    leds := [],
    keymap := keymap,
    actions := actions }

/-- Modelled from the spec: the error reporters `ReportNotArray`, `ReportBadType`
and `ReportBadField`, which are not among the sources, and the wrappers of
compat.c that call them (`ReportSINotArray`, `ReportSIBadType`,
`ReportIndicatorNotArray`, `ReportIndicatorBadType`, compat.c lines 287-317):
they report the error and return false. -/
def ReportError : Bool := false

/-- The function `SetInterpField` (compat.c lines 633-697): the result, the
compat-info (whose log sink may have received a message) and the record `*si`. -/
def SetInterpField (ext : Externals) (info : CompatInfo) (si : SymInterpInfo)
    (field : String) (arrayNdx value : Option ExprDef) :
    Bool × CompatInfo × SymInterpInfo :=
  if istreq field "action" then
    if arrayNdx.isSome then (ReportError, info, si)
    else
      let r := ext.HandleActionDef value info.keymap si.interp.action info.actions
      let si := { si with interp := { si.interp with action := r.2 } }
      if ¬ r.1 then (false, info, si)
      else (true, info, { si with defined := si.defined ||| SI_FIELD_ACTION })
  else if istreq field "virtualmodifier" || istreq field "virtualmod" then
    if arrayNdx.isSome then (ReportError, info, si)
    else
      match ext.ExprResolveMod info.keymap value mod_type.MOD_VIRT with
      | none => (ReportError, info, si)
      | some ndx =>
        (true, info, { si with interp := { si.interp with virtual_mod := ndx },
                               defined := si.defined ||| SI_FIELD_VIRTUAL_MOD })
  else if istreq field "repeat" then
    if arrayNdx.isSome then (ReportError, info, si)
    else
      match ext.ExprResolveBoolean info.keymap.ctx value with
      | none => (ReportError, info, si)
      | some set =>
        (true, info, { si with interp := { si.interp with repeat_ := set },
                               defined := si.defined ||| SI_FIELD_AUTO_REPEAT })
  else if istreq field "locking" then
    (true, info.log [log_entry.msg "dbg" "The \"locking\" field in symbol interpretation"], si)
  else if istreq field "usemodmap" || istreq field "usemodmapmods" then
    if arrayNdx.isSome then (ReportError, info, si)
    else
      match ext.ExprResolveEnum info.keymap.ctx value lookup_table.useModMapValueNames with
      | none => (ReportError, info, si)
      | some val =>
        (true, info, { si with interp := { si.interp with level_one_only := decide (val ≠ 0) },
                               defined := si.defined ||| SI_FIELD_LEVEL_ONE_ONLY })
  else (ReportError, info, si)

/-- The function `SetIndicatorMapField` (compat.c lines 699-797): the result,
the compat-info (whose log sink may have received a message) and the record
`*led`. -/
def SetIndicatorMapField (ext : Externals) (info : CompatInfo) (led : LEDInfo)
    (field : String) (arrayNdx value : Option ExprDef) :
    Bool × CompatInfo × LEDInfo :=
  if istreq field "modifiers" || istreq field "mods" then
    if arrayNdx.isSome then (ReportError, info, led)
    else
      match ext.ExprResolveModMask info.keymap value mod_type.MOD_BOTH with
      | none => (ReportError, info, led)
      | some mods =>
        (true, info, { led with im := { led.im with mods := { mods := mods } },
                                defined := led.defined ||| LED_FIELD_MODS })
  else if istreq field "groups" then
    if arrayNdx.isSome then (ReportError, info, led)
    else
      match ext.ExprResolveMask info.keymap.ctx value lookup_table.groupMaskNames with
      | none => (ReportError, info, led)
      | some mask =>
        (true, info, { led with im := { led.im with groups := mask },
                                defined := led.defined ||| LED_FIELD_GROUPS })
  else if istreq field "controls" || istreq field "ctrls" then
    if arrayNdx.isSome then (ReportError, info, led)
    else
      match ext.ExprResolveMask info.keymap.ctx value lookup_table.ctrlMaskNames with
      | none => (ReportError, info, led)
      | some mask =>
        (true, info, { led with im := { led.im with ctrls := mask },
                                defined := led.defined ||| LED_FIELD_CTRLS })
  else if istreq field "allowexplicit" then
    (true, info.log [log_entry.msg "dbg" "The \"allowExplicit\" field in indicator statements"],
      led)
  else if istreq field "whichmodstate" || istreq field "whichmodifierstate" then
    if arrayNdx.isSome then (ReportError, info, led)
    else
      match ext.ExprResolveMask info.keymap.ctx value lookup_table.modComponentMaskNames with
      | none => (ReportError, info, led)
      | some mask => (true, info, { led with im := { led.im with which_mods := mask } })
  else if istreq field "whichgroupstate" then
    if arrayNdx.isSome then (ReportError, info, led)
    else
      match ext.ExprResolveMask info.keymap.ctx value lookup_table.groupComponentMaskNames with
      | none => (ReportError, info, led)
      | some mask => (true, info, { led with im := { led.im with which_groups := mask } })
  else if istreq field "driveskbd" || istreq field "driveskeyboard" ||
      istreq field "leddriveskbd" || istreq field "leddriveskeyboard" ||
      istreq field "indicatordriveskbd" || istreq field "indicatordriveskeyboard" then
    (true, info.log [log_entry.msg "dbg" "The field in indicator statements is unsupported"], led)
  else if istreq field "index" then
    (true, info.log [log_entry.msg "err" "The \"index\" field in indicator statements"], led)
  else
    (false, info.log [log_entry.msg "err" "Unknown field in map for indicator"], led)

/-- The function `HandleGlobalVar` (compat.c lines 799-817). The default
templates `info->dflt` and `info->ledDflt` are the records the field setters
write. -/
def HandleGlobalVar (ext : Externals) (info : CompatInfo) (stmt : VarDef) :
    Bool × CompatInfo :=
  match ext.ExprResolveLhs info.keymap.ctx stmt.name with
  | none => (false, info)
  | some (elem, field, ndx) =>
    if (match elem with
        | some e => istreq e "interpret"
        | none => false) then
      let r := SetInterpField ext info info.dflt field ndx stmt.value
      (r.1, { r.2.1 with dflt := r.2.2 })
    else if (match elem with
        | some e => istreq e "indicator"
        | none => false) then
      let r := SetIndicatorMapField ext info info.ledDflt field ndx stmt.value
      (r.1, { r.2.1 with ledDflt := r.2.2 })
    else
      let r := ext.SetActionField info.keymap elem field ndx stmt.value info.actions
      (r.1, { info with actions := r.2 })

/-- The loop of `HandleInterpBody` (compat.c lines 826-841) from the statement
`def` on, with the current value of `ok`. -/
def HandleInterpBody.loop (ext : Externals) :
    CompatInfo → SymInterpInfo → Bool → List VarDef → Bool × CompatInfo × SymInterpInfo
  | info, si, ok, [] => (ok, info, si)
  | info, si, _, d :: rest =>
    if (match d.name with
        | some (ExprDef.EXPR_FIELD_REF _ _) => true
        | _ => false) then
      HandleInterpBody.loop ext
        (info.log [log_entry.msg "err" "Cannot set a global default value from within"])
        si false rest
    else
      match ext.ExprResolveLhs info.keymap.ctx d.name with
      | none => HandleInterpBody.loop ext info si false rest
      | some (_, field, arrayNdx) =>
        let r := SetInterpField ext info si field arrayNdx d.value
        HandleInterpBody.loop ext r.2.1 r.2.2 r.1 rest

/-- The function `HandleInterpBody` (compat.c lines 819-844). -/
def HandleInterpBody (ext : Externals) (info : CompatInfo) (body : List VarDef)
    (si : SymInterpInfo) : Bool × CompatInfo × SymInterpInfo :=
  HandleInterpBody.loop ext info si true body

/-- The function `HandleInterpDef` (compat.c lines 846-885). -/
def HandleInterpDef (ext : Externals) (info : CompatInfo) (d : InterpDef)
    (merge : merge_mode) : Bool × CompatInfo :=
  let r := ResolveStateAndPredicate ext d.match_ info
  match r.1 with
  | none =>
    (false, r.2.log [log_entry.msg "err" "Couldn't determine matching modifiers"])
  | some (pred, mods) =>
    let info := r.2
    let merge := if d.merge = MERGE_DEFAULT then merge else d.merge
    let si := { info.dflt with merge := merge }
    match ext.LookupKeysym d.sym with
    | none => (false, info.log [log_entry.msg "err" "Could not resolve keysym"])
    | some sym =>
      let si := { si with interp := { si.interp with sym := sym, match_ := pred, mods := mods } }
      let b := HandleInterpBody ext info d.def_ si
      if ¬ b.1 then (false, { b.2.1 with errorCount := b.2.1.errorCount + 1 })
      else
        let a := AddInterp b.2.1 b.2.2
        if ¬ a.1 then (false, { a.2 with errorCount := a.2.errorCount + 1 })
        else (true, a.2)

/-- The loop of `HandleIndicatorMapDef` (compat.c lines 903-922) from the
statement `var` on, with the current value of `ok`. -/
def HandleIndicatorMapDef.loop (ext : Externals) :
    CompatInfo → LEDInfo → Bool → List VarDef → Bool × CompatInfo × LEDInfo
  | info, led, ok, [] => (ok, info, led)
  | info, led, ok, var :: rest =>
    match ext.ExprResolveLhs info.keymap.ctx var.name with
    | none => HandleIndicatorMapDef.loop ext info led false rest
    | some (elem, field, arrayNdx) =>
      if elem.isSome then
        HandleIndicatorMapDef.loop ext
          (info.log [log_entry.msg "err" "Cannot set defaults for element in indicator map"])
          led false rest
      else
        let r := SetIndicatorMapField ext info led field arrayNdx var.value
        HandleIndicatorMapDef.loop ext r.2.1 r.2.2 (r.1 && ok) rest

/-- The function `HandleIndicatorMapDef` (compat.c lines 887-928). -/
def HandleIndicatorMapDef (ext : Externals) (info : CompatInfo) (d : IndicatorMapDef)
    (merge : merge_mode) : Bool × CompatInfo :=
  let merge := if d.merge ≠ MERGE_DEFAULT then d.merge else merge
  let led := { info.ledDflt with merge := merge, im := { info.ledDflt.im with name := d.name } }
  let r := HandleIndicatorMapDef.loop ext info led true d.body
  if r.1 then AddIndicatorMap r.2.1 r.2.2
  else (false, r.2.1)

/-- The function `MergeIncludedCompatMaps` (compat.c lines 556-584): the
compat-info `*into` afterwards. What it writes into `*from` is not read again. -/
def MergeIncludedCompatMaps (into from_ : CompatInfo) (merge : merge_mode) : CompatInfo :=
  if from_.errorCount > 0 then
    { into with errorCount := into.errorCount + from_.errorCount }
  else
    let into := if into.name = none then { into with name := from_.name } else into
    let into := from_.interps.foldl
      (fun (into : CompatInfo) (si : SymInterpInfo) =>
        let si := { si with merge := if merge = MERGE_DEFAULT then si.merge else merge }
        let r := AddInterp into si
        if ¬ r.1 then { r.2 with errorCount := r.2.errorCount + 1 } else r.2)
      into
    from_.leds.foldl
      (fun (into : CompatInfo) (led : LEDInfo) =>
        let led := { led with merge := if merge = MERGE_DEFAULT then led.merge else merge }
        let r := AddIndicatorMap into led
        if ¬ r.1 then { r.2 with errorCount := r.2.errorCount + 1 } else r.2)
      into

/-- The loop of `HandleIncludeCompatMap` (compat.c lines 603-631) from the
element `stmt` of the chain on, and the end of the function. `handleFile` is
`HandleCompatMapFile`; `none` when it does not return. The keymap and the
actions context the compat-infos share are carried by `included`. -/
def HandleIncludeCompatMap.loop (ext : Externals)
    (handleFile : CompatInfo → XkbFile → merge_mode → Option CompatInfo) :
    CompatInfo → CompatInfo → merge_mode → List IncludeStmt → Option (Bool × CompatInfo)
  | info, included, merge, [] =>
    let info := MergeIncludedCompatMaps
      { info with keymap := included.keymap, actions := included.actions } included merge
    some (decide (info.errorCount = 0), info)
  | info, included, _, stmt :: rest =>
    match ext.ProcessIncludeFile included.keymap.ctx stmt with
    | none =>
      some (false, { info with errorCount := info.errorCount + 10,
                               keymap := included.keymap,
                               actions := included.actions })
    | some (rtrn, merge) =>
      let next_incl := InitCompatInfo included.keymap rtrn.id included.actions
      let next_incl :=
        { next_incl with file_id := rtrn.id,
                         dflt := { info.dflt with file_id := rtrn.id, merge := merge },
                         ledDflt := { next_incl.ledDflt with file_id := rtrn.id, merge := merge } }
      match handleFile next_incl rtrn MERGE_OVERRIDE with
      | none => none
      | some next_incl =>
        let included := MergeIncludedCompatMaps
          { included with keymap := next_incl.keymap, actions := next_incl.actions }
          next_incl merge
        HandleIncludeCompatMap.loop ext handleFile info included merge rest

/-- The function `HandleIncludeCompatMap` (compat.c lines 589-631). -/
def HandleIncludeCompatMap (ext : Externals)
    (handleFile : CompatInfo → XkbFile → merge_mode → Option CompatInfo)
    (info : CompatInfo) (stmt : IncludeStmt) (next_incl : List IncludeStmt) :
    Option (Bool × CompatInfo) :=
  let included := InitCompatInfo info.keymap info.file_id info.actions
  let included := match stmt.stmt with
    | some name => { included with name := some name }
    | none => included
  HandleIncludeCompatMap.loop ext handleFile info included MERGE_DEFAULT (stmt :: next_incl)

/-- The switch of `HandleCompatMapFile` (compat.c lines 942-970): the value of
`ok` and the compat-info after the handler of the statement. -/
def HandleCompatMapFile.stmt (ext : Externals)
    (handleFile : CompatInfo → XkbFile → merge_mode → Option CompatInfo)
    (merge : merge_mode) (info : CompatInfo) (stmt : Stmt) : Option (Bool × CompatInfo) :=
  match stmt with
  | Stmt.STMT_INCLUDE s next_incl => HandleIncludeCompatMap ext handleFile info s next_incl
  | Stmt.STMT_INTERP d => some (HandleInterpDef ext info d merge)
  | Stmt.STMT_GROUP_COMPAT =>
    some (true, info.log [log_entry.msg "dbg" "The \"group\" statement in compat is unsupported"])
  | Stmt.STMT_INDICATOR_MAP d => some (HandleIndicatorMapDef ext info d merge)
  | Stmt.STMT_VAR d => some (HandleGlobalVar ext info d)
  | Stmt.STMT_VMOD d =>
    let r := ext.HandleVModDef info.keymap d
    some (r.1, { info with keymap := { info.keymap with mods := r.2 } })
  | Stmt.STMT_OTHER _ =>
    some (false, info.log [log_entry.msg "err" "Interpretation files may not include other types"])

/-- The loop of `HandleCompatMapFile` (compat.c lines 941-980) from the
statement `stmt` on; `handle` is the switch on the type of the statement. -/
def HandleCompatMapFile.loop (handle : CompatInfo → Stmt → Option (Bool × CompatInfo)) :
    CompatInfo → List Stmt → Option CompatInfo
  | info, [] => some info
  | info, stmt :: rest =>
    match handle info stmt with
    | none => none
    | some (ok, info) =>
      let info := if ¬ ok then { info with errorCount := info.errorCount + 1 } else info
      if info.errorCount > 10 then
        some (info.log [log_entry.msg "err" "Abandoning compatibility map"])
      else HandleCompatMapFile.loop handle info rest

/-- The function `HandleCompatMapFile` (compat.c lines 930-981). It calls itself
through `HandleIncludeCompatMap` on the files the include processor returns;
`fuel` bounds the depth of these calls, and the result is `none` when the bound
is reached. -/
def HandleCompatMapFile (ext : Externals) :
    Nat → CompatInfo → XkbFile → merge_mode → Option CompatInfo
  | 0, _, _, _ => none
  | fuel + 1, info, file, merge =>
    let merge := if merge = MERGE_DEFAULT then MERGE_AUGMENT else merge
    let info := { info with name := file.name }
    HandleCompatMapFile.loop
      (HandleCompatMapFile.stmt ext (fun i f m => HandleCompatMapFile ext fuel i f m) merge)
      info file.defs

/-- The compat-info `CompileCompatMap` hands to `HandleCompatMapFile` (compat.c
lines 1081-1083). -/
def CompileCompatMap.start (file : XkbFile) (keymap : xkb_keymap) (merge : merge_mode)
    (actions : ActionsInfo) : CompatInfo :=
  let info := InitCompatInfo keymap file.id actions
  { info with dflt := { info.dflt with merge := merge },
              ledDflt := { info.ledDflt with merge := merge } }

/-- The function `CompileCompatMap` (compat.c lines 1070-1100): the result and
the keymap afterwards; `none` when `HandleCompatMapFile` does not return within
`fuel`. -/
def CompileCompatMap (ext : Externals) (fuel : Nat) (file : XkbFile) (keymap : xkb_keymap)
    (merge : merge_mode) : Option (Bool × xkb_keymap) :=
  match ext.NewActionsInfo with
  | none => some (false, keymap)
  | some actions =>
    let info := CompileCompatMap.start file keymap merge actions
    match HandleCompatMapFile ext fuel info file merge with
    | none => none
    | some info =>
      if info.errorCount ≠ 0 then some (false, info.keymap)
      else
        let r := CopyCompatToKeymap info
        if ¬ r.1 then some (false, r.2.keymap)
        else some (true, r.2.keymap)

/-! ## The serializer (`src/keymap-dump.c`): the buffer

A function of the serializer writes to the buffer through the macro `write_buf`,
which returns false from the function as soon as a write fails; nothing else in
these functions reads or writes the buffer. Such a function is embedded as the
sequence of the `write_buf` calls it makes, each with the text its format and
arguments produce, and the writes are performed in order by `run`, which stops at
the first write that fails. A call of another writing function whose result is
not looked at is one element of the sequence (`wcall.unchecked`): its writes are
performed, and the caller goes on whether they failed or not. -/

/-- The constant `BUF_CHUNK_SIZE`. -/
def BUF_CHUNK_SIZE : Nat := 4096

set_option linter.dupNamespace false in
/-- The structure `struct buf`. The member `buf` is NULL (`none`) or points to an
allocation whose first `size` bytes are the text held. `reallocs` is not in the
source: it counts the calls of `realloc`, which the allocator model is asked
about. Sizes are natural numbers (no wrap-around of `size_t`). -/
structure buf where
  buf : Option String
  size : Nat
  alloc : Nat
  reallocs : Nat := 0
  deriving DecidableEq, Repr

/-- The outcome of a function that writes to the buffer: it returns `ok` with the
buffer in the state `b`, or its behaviour is undefined because `vsnprintf` was
asked to write through the NULL pointer of a freed buffer. -/
inductive wresult where
  | done (ok : Bool) (b : buf)
  | undefined
  deriving DecidableEq, Repr

/-- The function `do_realloc` (keymap-dump.c lines 67-82). `heap n size` tells
whether the call number `n` of `realloc`, for `size` bytes, succeeds. -/
def do_realloc (heap : Nat → Nat → Bool) (b : buf) (at_least : Nat) : Bool × buf :=
  let alloc := b.alloc + BUF_CHUNK_SIZE
  let alloc := if at_least ≥ BUF_CHUNK_SIZE then alloc + at_least else alloc
  let b1 := { b with alloc := alloc, reallocs := b.reallocs + 1 }
  if ¬ heap b.reallocs alloc then (false, b1)
  else (true, { b1 with buf := some (b.buf.getD "") })

/-- The function `check_write_buf` (keymap-dump.c lines 84-120), for the text
`text` that the format and the arguments produce; `printed` is its length in
bytes, which is never negative. -/
def check_write_buf (heap : Nat → Nat → Bool) (b : buf) (text : String) : wresult :=
  let available := b.alloc - b.size
  if b.buf = none ∧ available > 0 then wresult.undefined
  else
    let printed := text.utf8ByteSize
    let r := if printed ≥ available then do_realloc heap b printed else (true, b)
    if ¬ r.1 then wresult.done false { r.2 with buf := none }
    else
      let b := r.2
      let available := b.alloc - b.size
      if printed ≥ available then wresult.done false { b with buf := none }
      else
        wresult.done true
          { b with buf := some (b.buf.getD "" ++ text), size := b.size + printed }

/-- One step of a writing function: a `write_buf` call with its text, or a call
of another writing function whose result is not looked at, with the texts of
the `write_buf` calls that function makes. -/
inductive wcall where
  | text (s : String)
  | unchecked (calls : List String)
  deriving DecidableEq, Repr

/-- The writes of a function that only makes `write_buf` calls: each text in
turn, returning false at the first write that fails. -/
def run_texts (heap : Nat → Nat → Bool) : buf → List String → wresult
  | b, [] => wresult.done true b
  | b, t :: rest =>
    match check_write_buf heap b t with
    | wresult.done true b1 => run_texts heap b1 rest
    | r => r

/-- The writes of a writing function: each step in turn, returning false at the
first `write_buf` call that fails and going on after an unchecked call. -/
def run (heap : Nat → Nat → Bool) : buf → List wcall → wresult
  | b, [] => wresult.done true b
  | b, wcall.text t :: rest =>
    match check_write_buf heap b t with
    | wresult.done true b1 => run heap b1 rest
    | r => r
  | b, wcall.unchecked ts :: rest =>
    match run_texts heap b ts with
    | wresult.done _ b1 => run heap b1 rest
    | wresult.undefined => wresult.undefined

/-- The texts of a sequence of `write_buf` calls, one after the other. -/
def texts_flat : List String → String
  | [] => ""
  | t :: rest => t ++ texts_flat rest

/-- The text a sequence of steps writes when no write fails. -/
def wcall.flat : List wcall → String
  | [] => ""
  | wcall.text t :: rest => t ++ wcall.flat rest
  | wcall.unchecked ts :: rest => texts_flat ts ++ wcall.flat rest

/-- The text held by a buffer (the empty text for a buffer without allocation). -/
def buf.content (b : Xkb.buf) : String := b.buf.getD ""

/-- A buffer on which `check_write_buf` may be called, holding the text `text`:
it has an allocation of at least `size` bytes with the text in it, or it has
no allocation, no text and no capacity left over (as `xkb_keymap_get_as_string`
sets it up). -/
def buf.holds (b : Xkb.buf) (text : String) : Prop :=
  b.size ≤ b.alloc ∧ (b.buf = none → b.alloc = b.size) ∧ b.content = text

/-- A buffer after a failed write: freed, with capacity left over. -/
def buf.failed (b : Xkb.buf) : Prop :=
  b.buf = none ∧ b.alloc > b.size

/-- An allocator that never fails. -/
def heap_ok : Nat → Nat → Bool := fun _ _ => true

/-! ### Formats of `printf` -/

/-- The conversion `%s`: the string, and "(null)" for a NULL pointer. -/
def fmt_s (s : Option String) : String := s.getD "(null)"

/-- The conversion `%d` of a value of type `int`. -/
def fmt_d (v : Int) : String := toString v

/-- The value of type `int` that `%d` reads when it is handed a 32-bit unsigned
value. -/
def int_of_u32 (v : Nat) : Int :=
  if v % 2 ^ 32 < 2 ^ 31 then ((v % 2 ^ 32 : Nat) : Int) else ((v % 2 ^ 32 : Nat) : Int) - 2 ^ 32

/-- The sum of two values of type `int` as two's-complement arithmetic of 32 bits
computes it (the values agree with the sum wherever the sum is a value of type
`int`). -/
def int_add (a b : Int) : Int := int_of_u32 ((a + b) % 2 ^ 32).toNat

/-- The conversion `%u` of a 32-bit unsigned value. -/
def fmt_u (v : Nat) : String := toString (v % 2 ^ 32)

/-- The conversion `0x%02x` of a 32-bit unsigned value. -/
def fmt_02x (v : Nat) : String :=
  let digits := Nat.toDigits 16 (v % 2 ^ 32)
  "0x" ++ String.mk (List.replicate (2 - digits.length) '0' ++ digits)

/-- The conversion `%-Ns`: the string, padded with blanks on the right to `width`
bytes. -/
def pad_right (width : Nat) (s : String) : String :=
  s ++ String.mk (List.replicate (width - s.utf8ByteSize) ' ')

/-- The conversion `%Ns`: the string, padded with blanks on the left to `width`
bytes. -/
def pad_left (width : Nat) (s : String) : String :=
  String.mk (List.replicate (width - s.utf8ByteSize) ' ') ++ s

/-- The text functions the serializer calls (`ModMaskText`, `KeyNameText`,
`ModIndexText`, `ControlMaskText`, `IndicatorStateText`, `SIMatchText`,
`ActionTypeText`, `xkb_keysym_get_name`). None of them is among the sources;
each is a parameter. -/
structure TextExternals where
  ModMaskText : xkb_keymap → Nat → String
  KeyNameText : xkb_context → Nat → String
  ModIndexText : xkb_keymap → Nat → String
  ControlMaskText : xkb_context → Nat → String
  IndicatorStateText : xkb_context → Nat → String
  SIMatchText : xkb_match_operation → String
  ActionTypeText : Nat → String
  xkb_keysym_get_name : Nat → String

/-! ### Constants of the keymap the serializer tests

Modelled from the spec: the enumerators below are declared in headers that are
not among the sources. The serializer only tests them for equality and tests
the flags bit by bit, so what matters is that the action types are distinct
values and the flags distinct bits. -/

/-- Action type `ACTION_TYPE_NONE`. -/
def ACTION_TYPE_NONE : Nat := 0
/-- Action type `ACTION_TYPE_MOD_SET`. -/
def ACTION_TYPE_MOD_SET : Nat := 1
/-- Action type `ACTION_TYPE_MOD_LATCH`. -/
def ACTION_TYPE_MOD_LATCH : Nat := 2
/-- Action type `ACTION_TYPE_MOD_LOCK`. -/
def ACTION_TYPE_MOD_LOCK : Nat := 3
/-- Action type `ACTION_TYPE_GROUP_SET`. -/
def ACTION_TYPE_GROUP_SET : Nat := 4
/-- Action type `ACTION_TYPE_GROUP_LATCH`. -/
def ACTION_TYPE_GROUP_LATCH : Nat := 5
/-- Action type `ACTION_TYPE_GROUP_LOCK`. -/
def ACTION_TYPE_GROUP_LOCK : Nat := 6
/-- Action type `ACTION_TYPE_PTR_MOVE`. -/
def ACTION_TYPE_PTR_MOVE : Nat := 7
/-- Action type `ACTION_TYPE_PTR_BUTTON`. -/
def ACTION_TYPE_PTR_BUTTON : Nat := 8
/-- Action type `ACTION_TYPE_PTR_LOCK`. -/
def ACTION_TYPE_PTR_LOCK : Nat := 9
/-- Action type `ACTION_TYPE_PTR_DEFAULT`. -/
def ACTION_TYPE_PTR_DEFAULT : Nat := 10
/-- Action type `ACTION_TYPE_TERMINATE`. -/
def ACTION_TYPE_TERMINATE : Nat := 11
/-- Action type `ACTION_TYPE_SWITCH_VT`. -/
def ACTION_TYPE_SWITCH_VT : Nat := 12
/-- Action type `ACTION_TYPE_CTRL_SET`. -/
def ACTION_TYPE_CTRL_SET : Nat := 13
/-- Action type `ACTION_TYPE_CTRL_LOCK`. -/
def ACTION_TYPE_CTRL_LOCK : Nat := 14

/-- Action flag `ACTION_LOCK_CLEAR`. -/
def ACTION_LOCK_CLEAR : Nat := 1
/-- Action flag `ACTION_LATCH_TO_LOCK`. -/
def ACTION_LATCH_TO_LOCK : Nat := 2
/-- Action flag `ACTION_LOCK_NO_LOCK`. -/
def ACTION_LOCK_NO_LOCK : Nat := 4
/-- Action flag `ACTION_LOCK_NO_UNLOCK`. -/
def ACTION_LOCK_NO_UNLOCK : Nat := 8
/-- Action flag `ACTION_MODS_LOOKUP_MODMAP`. -/
def ACTION_MODS_LOOKUP_MODMAP : Nat := 16
/-- Action flag `ACTION_ABSOLUTE_SWITCH`. -/
def ACTION_ABSOLUTE_SWITCH : Nat := 32
/-- Action flag `ACTION_ABSOLUTE_X`. -/
def ACTION_ABSOLUTE_X : Nat := 64
/-- Action flag `ACTION_ABSOLUTE_Y`. -/
def ACTION_ABSOLUTE_Y : Nat := 128
/-- Action flag `ACTION_NO_ACCEL`. -/
def ACTION_NO_ACCEL : Nat := 256
/-- Action flag `ACTION_SAME_SCREEN`. -/
def ACTION_SAME_SCREEN : Nat := 512

/-- Explicit-component flag `EXPLICIT_INTERP` of a key. -/
def EXPLICIT_INTERP : Nat := 1
/-- Explicit-component flag `EXPLICIT_VMODMAP` of a key. -/
def EXPLICIT_VMODMAP : Nat := 2
/-- Explicit-component flag `EXPLICIT_REPEAT` of a key. -/
def EXPLICIT_REPEAT : Nat := 4

/-- Modelled from the spec: the format tag `XKB_KEYMAP_FORMAT_TEXT_V1` of the
public header, which is not among the sources. -/
def XKB_KEYMAP_FORMAT_TEXT_V1 : Int := 1
/-- Modelled from the spec: the format tag `XKB_KEYMAP_USE_ORIGINAL_FORMAT` of
the public header, which is not among the sources: the request for the format
the keymap was created from, a value distinct from every format. -/
def XKB_KEYMAP_USE_ORIGINAL_FORMAT : Int := -1

/-- Modelled from the spec: the macro `XkbKeyGroupWidth`, which is not among the
sources: the number of levels of the type of the group (0 when the key has no
such group or the keymap no such type). -/
def XkbKeyGroupWidth (keymap : xkb_keymap) (key : xkb_key) (group : Nat) : Nat :=
  match key.groups.get? group with
  | none => 0
  | some g =>
    match keymap.types.get? g.type with
    | none => 0
    | some type => type.num_levels

/-- Modelled from the spec: the function `xkb_keymap_key_get_syms_by_level`,
which is not among the sources, for a key of the keymap and one of its groups:
the keysyms of the level (none when the key has no such level). -/
def xkb_keymap_key_get_syms_by_level (key : xkb_key) (group level : Nat) : List Nat :=
  match key.groups.get? group with
  | none => []
  | some g =>
    match g.levels.get? level with
    | none => []
    | some l => l.syms

/-- The name of the type a group points to (`type->name`). -/
def group_type_name (keymap : xkb_keymap) (g : xkb_group) : Nat :=
  match keymap.types.get? g.type with
  | none => XKB_ATOM_NONE
  | some type => type.name

/-! ### `write_vmods`, `write_keycodes`, `write_types` -/

/-- The loop of `write_vmods` (keymap-dump.c lines 133-146) from the modifier
`mod` on, with the current value of `num_vmods`, and the last write. -/
def write_vmods.loop (keymap : xkb_keymap) : Nat → List xkb_mod → List String
  | num_vmods, [] => if num_vmods > 0 then [";\n\n"] else []
  | num_vmods, mod :: rest =>
    if mod.type ≠ mod_type.MOD_VIRT then write_vmods.loop keymap num_vmods rest
    else
      (if num_vmods = 0 then "\t\tvirtual_modifiers " else ",") ::
      fmt_s (xkb_atom_text keymap.ctx mod.name) ::
      write_vmods.loop keymap (num_vmods + 1) rest

/-- The `write_buf` calls of `write_vmods` (keymap-dump.c lines 127-149). -/
def write_vmods.calls (keymap : xkb_keymap) : List String :=
  write_vmods.loop keymap 0 keymap.mods

/-- The function `write_vmods`. -/
def write_vmods (heap : Nat → Nat → Bool) (keymap : xkb_keymap) (b : buf) : wresult :=
  run_texts heap b (write_vmods.calls keymap)

/-- The loop over the keys of `write_keycodes` (keymap-dump.c lines 165-171). -/
def write_keycodes.keys (txt : TextExternals) (keymap : xkb_keymap) : List xkb_key → List wcall
  | [] => []
  | key :: rest =>
    if key.name = XKB_ATOM_NONE then write_keycodes.keys txt keymap rest
    else
      wcall.text ("\t\t" ++ pad_right 20 (txt.KeyNameText keymap.ctx key.name) ++ " = " ++
        fmt_d (int_of_u32 key.keycode) ++ ";\n") ::
      write_keycodes.keys txt keymap rest

/-- The loop over the indicators of `write_keycodes` (keymap-dump.c lines
173-176) from the index `i` on. -/
def write_keycodes.indicators (keymap : xkb_keymap) : Nat → List xkb_indicator_map → List wcall
  | _, [] => []
  | i, im :: rest =>
    if im.name ≠ XKB_ATOM_NONE then
      wcall.text ("\t\tindicator " ++ fmt_d (int_of_u32 (i + 1)) ++ " = \"" ++
        fmt_s (xkb_atom_text keymap.ctx im.name) ++ "\";\n") ::
      write_keycodes.indicators keymap (i + 1) rest
    else write_keycodes.indicators keymap (i + 1) rest

/-- The loop over the aliases of `write_keycodes` (keymap-dump.c lines 179-182). -/
def write_keycodes.aliases (txt : TextExternals) (keymap : xkb_keymap) :
    List xkb_key_alias → List wcall
  | [] => []
  | a :: rest =>
    wcall.text ("\t\talias " ++ pad_right 14 (txt.KeyNameText keymap.ctx a.alias_) ++ " = " ++
      txt.KeyNameText keymap.ctx a.real ++ ";\n") ::
    write_keycodes.aliases txt keymap rest

/-- The steps of `write_keycodes` (keymap-dump.c lines 151-186). -/
def write_keycodes.calls (txt : TextExternals) (keymap : xkb_keymap) : List wcall :=
  [ match keymap.keycodes_section_name with
    | some name => wcall.text ("\txkb_keycodes \"" ++ name ++ "\" \x7b\n")
    | none => wcall.text "\txkb_keycodes \x7b\n" ] ++
  write_keycodes.keys txt keymap keymap.keys ++
  write_keycodes.indicators keymap 0 keymap.indicators ++
  write_keycodes.aliases txt keymap keymap.key_aliases ++
  [ wcall.text "\t\x7d;\n\n" ]

/-- The function `write_keycodes`. -/
def write_keycodes (txt : TextExternals) (heap : Nat → Nat → Bool) (keymap : xkb_keymap)
    (b : buf) : wresult :=
  run heap b (write_keycodes.calls txt keymap)

/-- The loop over the map entries of a type in `write_types` (keymap-dump.c lines
212-233). -/
def write_types.entries (txt : TextExternals) (keymap : xkb_keymap) :
    List xkb_kt_map_entry → List wcall
  | [] => []
  | entry :: rest =>
    if entry.level = 0 ∧ entry.preserve.mods = 0 then write_types.entries txt keymap rest
    else
      let str := txt.ModMaskText keymap entry.mods.mods
      wcall.text ("\t\t\tmap[" ++ str ++ "]= Level" ++ fmt_d (int_of_u32 (entry.level + 1)) ++
        ";\n") ::
      (if entry.preserve.mods = 0 then write_types.entries txt keymap rest
       else
         wcall.text ("\t\t\tpreserve[" ++ str ++ "]= ") ::
         wcall.text (txt.ModMaskText keymap entry.preserve.mods ++ ";\n") ::
         write_types.entries txt keymap rest)

/-- The loop over the level names of a type in `write_types` (keymap-dump.c lines
236-241), for the levels `n` of the list. -/
def write_types.level_names (keymap : xkb_keymap) (names : List Nat) : List Nat → List wcall
  | [] => []
  | n :: rest =>
    if names.getD n 0 = 0 then write_types.level_names keymap names rest
    else
      wcall.text ("\t\t\tlevel_name[Level" ++ fmt_d (int_of_u32 (n + 1)) ++ "]= \"" ++
        fmt_s (xkb_atom_text keymap.ctx (names.getD n 0)) ++ "\";\n") ::
      write_types.level_names keymap names rest

/-- The body of the loop over the types in `write_types` (keymap-dump.c lines
205-243). -/
def write_types.type (txt : TextExternals) (keymap : xkb_keymap) (type : xkb_key_type) :
    List wcall :=
  [ wcall.text ("\t\ttype \"" ++ fmt_s (xkb_atom_text keymap.ctx type.name) ++ "\" \x7b\n"),
    wcall.text ("\t\t\tmodifiers= " ++ txt.ModMaskText keymap type.mods.mods ++ ";\n") ] ++
  write_types.entries txt keymap type.map ++
  (match type.level_names with
   | some names => write_types.level_names keymap names (List.range type.num_levels)
   | none => []) ++
  [ wcall.text "\t\t\x7d;\n" ]

/-- The loop over the types in `write_types` (keymap-dump.c lines 204-244). -/
def write_types.types (txt : TextExternals) (keymap : xkb_keymap) :
    List xkb_key_type → List wcall
  | [] => []
  | type :: rest => write_types.type txt keymap type ++ write_types.types txt keymap rest

/-- The steps of `write_types` (keymap-dump.c lines 188-248); the result of
`write_vmods` is not looked at. -/
def write_types.calls (txt : TextExternals) (keymap : xkb_keymap) : List wcall :=
  [ match keymap.types_section_name with
    | some name => wcall.text ("\txkb_types \"" ++ name ++ "\" \x7b\n\n")
    | none => wcall.text "\txkb_types \x7b\n\n",
    wcall.unchecked (write_vmods.calls keymap) ] ++
  write_types.types txt keymap keymap.types ++
  [ wcall.text "\t\x7d;\n\n" ]

/-- The function `write_types`. -/
def write_types (txt : TextExternals) (heap : Nat → Nat → Bool) (keymap : xkb_keymap)
    (b : buf) : wresult :=
  run heap b (write_types.calls txt keymap)

/-! ### `write_indicator_map`, `write_action`, `write_compat` -/

/-- The `write_buf` calls of `write_indicator_map` (keymap-dump.c lines 250-282). -/
def write_indicator_map.calls (txt : TextExternals) (keymap : xkb_keymap)
    (led : xkb_indicator_map) : List String :=
  [ "\t\tindicator \"" ++ fmt_s (xkb_atom_text keymap.ctx led.name) ++ "\" \x7b\n" ] ++
  (if led.which_groups ≠ 0 then
     (if led.which_groups ≠ XKB_STATE_LAYOUT_EFFECTIVE then
        [ "\t\t\twhichGroupState= " ++ txt.IndicatorStateText keymap.ctx led.which_groups ++
          ";\n" ]
      else []) ++
     [ "\t\t\tgroups= " ++ fmt_02x led.groups ++ ";\n" ]
   else []) ++
  (if led.which_mods ≠ 0 then
     (if led.which_mods ≠ XKB_STATE_MODS_EFFECTIVE then
        [ "\t\t\twhichModState= " ++ txt.IndicatorStateText keymap.ctx led.which_mods ++ ";\n" ]
      else []) ++
     [ "\t\t\tmodifiers= " ++ txt.ModMaskText keymap led.mods.mods ++ ";\n" ]
   else []) ++
  (if led.ctrls ≠ 0 then
     [ "\t\t\tcontrols= " ++ txt.ControlMaskText keymap.ctx led.ctrls ++ ";\n" ]
   else []) ++
  [ "\t\t\x7d;\n" ]

/-- The function `write_indicator_map`. -/
def write_indicator_map (txt : TextExternals) (heap : Nat → Nat → Bool) (keymap : xkb_keymap)
    (b : buf) (led : xkb_indicator_map) : wresult :=
  run_texts heap b (write_indicator_map.calls txt keymap led)

/-- The `write_buf` calls of `write_action` (keymap-dump.c lines 284-422). -/
def write_action.calls (txt : TextExternals) (keymap : xkb_keymap) (action : xkb_action)
    (pfx sfx : Option String) : List String :=
  let pfx := pfx.getD ""
  let sfx := sfx.getD ""
  let type := txt.ActionTypeText action.type
  if action.type = ACTION_TYPE_MOD_SET ∨ action.type = ACTION_TYPE_MOD_LATCH ∨
      action.type = ACTION_TYPE_MOD_LOCK then
    let args := if action.flags &&& ACTION_MODS_LOOKUP_MODMAP ≠ 0 then "modMapMods"
      else txt.ModMaskText keymap action.mods.mods
    [ pfx ++ type ++ "(modifiers=" ++ args ++
      (if action.type ≠ ACTION_TYPE_MOD_LOCK ∧ action.flags &&& ACTION_LOCK_CLEAR ≠ 0
       then ",clearLocks" else "") ++
      (if action.type ≠ ACTION_TYPE_MOD_LOCK ∧ action.flags &&& ACTION_LATCH_TO_LOCK ≠ 0
       then ",latchToLock" else "") ++
      ")" ++ sfx ]
  else if action.type = ACTION_TYPE_GROUP_SET ∨ action.type = ACTION_TYPE_GROUP_LATCH ∨
      action.type = ACTION_TYPE_GROUP_LOCK then
    [ pfx ++ type ++ "(group=" ++
      (if ¬ (action.flags &&& ACTION_ABSOLUTE_SWITCH ≠ 0) ∧ action.group > 0 then "+" else "") ++
      fmt_d (if action.flags &&& ACTION_ABSOLUTE_SWITCH ≠ 0 then int_add action.group 1
             else action.group) ++
      (if action.type ≠ ACTION_TYPE_GROUP_LOCK ∧ action.flags &&& ACTION_LOCK_CLEAR ≠ 0
       then ",clearLocks" else "") ++
      (if action.type ≠ ACTION_TYPE_GROUP_LOCK ∧ action.flags &&& ACTION_LATCH_TO_LOCK ≠ 0
       then ",latchToLock" else "") ++
      ")" ++ sfx ]
  else if action.type = ACTION_TYPE_TERMINATE then
    [ pfx ++ type ++ "()" ++ sfx ]
  else if action.type = ACTION_TYPE_PTR_MOVE then
    [ pfx ++ type ++ "(x=" ++
      (if ¬ (action.flags &&& ACTION_ABSOLUTE_X ≠ 0) ∧ action.x ≥ 0 then "+" else "") ++
      fmt_d action.x ++ ",y=" ++
      (if ¬ (action.flags &&& ACTION_ABSOLUTE_Y ≠ 0) ∧ action.y ≥ 0 then "+" else "") ++
      fmt_d action.y ++
      (if action.flags &&& ACTION_NO_ACCEL ≠ 0 then ",!accel" else "") ++
      ")" ++ sfx ]
  else if action.type = ACTION_TYPE_PTR_LOCK ∨ action.type = ACTION_TYPE_PTR_BUTTON then
    let args : Option String :=
      if action.type = ACTION_TYPE_PTR_LOCK then
        let sel := action.flags &&& (ACTION_LOCK_NO_LOCK ||| ACTION_LOCK_NO_UNLOCK)
        if sel = ACTION_LOCK_NO_UNLOCK then some ",affect=lock"
        else if sel = ACTION_LOCK_NO_LOCK then some ",affect=unlock"
        else if sel = (ACTION_LOCK_NO_LOCK ||| ACTION_LOCK_NO_UNLOCK) then some ",affect=neither"
        else some ",affect=both"
      else none
    [ pfx ++ type ++ "(button=" ] ++
    [ if action.button > 0 ∧ action.button ≤ 5 then fmt_d (action.button : Int)
      else "default" ] ++
    (if action.count ≠ 0 then [ ",count=" ++ fmt_d (action.count : Int) ] else []) ++
    (match args with
     | some a => [ a ]
     | none => []) ++
    [ ")" ++ sfx ]
  else if action.type = ACTION_TYPE_PTR_DEFAULT then
    [ pfx ++ type ++ "(",
      "affect=button,button=" ++
        (if ¬ (action.flags &&& ACTION_ABSOLUTE_SWITCH ≠ 0) ∧ action.value ≥ 0 then "+"
         else "") ++
        fmt_d action.value,
      ")" ++ sfx ]
  else if action.type = ACTION_TYPE_SWITCH_VT then
    [ pfx ++ type ++ "(screen=" ++
      (if ¬ (action.flags &&& ACTION_ABSOLUTE_SWITCH ≠ 0) ∧ action.screen ≥ 0 then "+"
       else "") ++
      fmt_d action.screen ++ "," ++
      (if action.flags &&& ACTION_SAME_SCREEN ≠ 0 then "!" else "") ++
      "same)" ++ sfx ]
  else if action.type = ACTION_TYPE_CTRL_SET ∨ action.type = ACTION_TYPE_CTRL_LOCK then
    [ pfx ++ type ++ "(controls=" ++ txt.ControlMaskText keymap.ctx action.ctrls ++ ")" ++ sfx ]
  else if action.type = ACTION_TYPE_NONE then
    [ pfx ++ "NoAction()" ++ sfx ]
  else
    [ pfx ++ type ++ "(type=" ++ fmt_02x action.type ++
      ",data[0]=" ++ fmt_02x (action.data.getD 0 0) ++
      ",data[1]=" ++ fmt_02x (action.data.getD 1 0) ++
      ",data[2]=" ++ fmt_02x (action.data.getD 2 0) ++
      ",data[3]=" ++ fmt_02x (action.data.getD 3 0) ++
      ",data[4]=" ++ fmt_02x (action.data.getD 4 0) ++
      ",data[5]=" ++ fmt_02x (action.data.getD 5 0) ++
      ",data[6]=" ++ fmt_02x (action.data.getD 6 0) ++
      ")" ++ sfx ]

/-- The function `write_action`. -/
def write_action (txt : TextExternals) (heap : Nat → Nat → Bool) (keymap : xkb_keymap)
    (b : buf) (action : xkb_action) (pfx sfx : Option String) : wresult :=
  run_texts heap b (write_action.calls txt keymap action pfx sfx)

/-- The loop over the interprets of `write_compat` (keymap-dump.c lines 441-465);
the result of `write_action` is not looked at. -/
def write_compat.interps (txt : TextExternals) (keymap : xkb_keymap) :
    List xkb_sym_interpret → List wcall
  | [] => []
  | interp :: rest =>
    let keysym_name :=
      if interp.sym = XKB_KEY_NoSymbol then "Any" else txt.xkb_keysym_get_name interp.sym
    [ wcall.text ("\t\tinterpret " ++ keysym_name ++ "+" ++ txt.SIMatchText interp.match_ ++
        "(" ++ txt.ModMaskText keymap interp.mods ++ ") \x7b\n") ] ++
    (if interp.virtual_mod ≠ XKB_MOD_INVALID then
       [ wcall.text ("\t\t\tvirtualModifier= " ++ txt.ModIndexText keymap interp.virtual_mod ++
           ";\n") ]
     else []) ++
    (if interp.level_one_only then [ wcall.text "\t\t\tuseModMapMods=level1;\n" ] else []) ++
    (if interp.repeat_ then [ wcall.text "\t\t\trepeat= True;\n" ] else []) ++
    [ wcall.unchecked
        (write_action.calls txt keymap interp.action (some "\t\t\taction= ") (some ";\n")),
      wcall.text "\t\t\x7d;\n" ] ++
    write_compat.interps txt keymap rest

/-- The loop over the indicators of `write_compat` (keymap-dump.c lines 467-470);
the result of `write_indicator_map` is not looked at. -/
def write_compat.leds (txt : TextExternals) (keymap : xkb_keymap) :
    List xkb_indicator_map → List wcall
  | [] => []
  | led :: rest =>
    if led.which_groups ≠ 0 ∨ led.groups ≠ 0 ∨ led.which_mods ≠ 0 ∨ led.mods.mods ≠ 0 ∨
        led.ctrls ≠ 0 then
      wcall.unchecked (write_indicator_map.calls txt keymap led) ::
      write_compat.leds txt keymap rest
    else write_compat.leds txt keymap rest

/-- The steps of `write_compat` (keymap-dump.c lines 424-475); the result of
`write_vmods` is not looked at. -/
def write_compat.calls (txt : TextExternals) (keymap : xkb_keymap) : List wcall :=
  [ match keymap.compat_section_name with
    | some name => wcall.text ("\txkb_compatibility \"" ++ name ++ "\" \x7b\n\n")
    | none => wcall.text "\txkb_compatibility \x7b\n\n",
    wcall.unchecked (write_vmods.calls keymap),
    wcall.text "\t\tinterpret.useModMapMods= AnyLevel;\n",
    wcall.text "\t\tinterpret.repeat= False;\n" ] ++
  write_compat.interps txt keymap keymap.sym_interprets ++
  write_compat.leds txt keymap keymap.indicators ++
  [ wcall.text "\t\x7d;\n\n" ]

/-- The function `write_compat`. -/
def write_compat (txt : TextExternals) (heap : Nat → Nat → Bool) (keymap : xkb_keymap)
    (b : buf) : wresult :=
  run heap b (write_compat.calls txt keymap)

/-! ### `write_keysyms`, `write_symbols`, `xkb_keymap_get_as_string` -/

/-- The inner loop of `write_keysyms` (keymap-dump.c lines 502-507) over the
keysyms of a level, from the index `s` on. -/
def write_keysyms.syms (txt : TextExternals) : Nat → List Nat → List wcall
  | _, [] => []
  | s, sym :: rest =>
    (if s ≠ 0 then [ wcall.text ", " ] else []) ++
    [ wcall.text (txt.xkb_keysym_get_name sym) ] ++
    write_keysyms.syms txt (s + 1) rest

/-- The loop of `write_keysyms` (keymap-dump.c lines 487-510) for the levels of
the list. -/
def write_keysyms.levels (txt : TextExternals) (key : xkb_key) (group : Nat) :
    List Nat → List wcall
  | [] => []
  | level :: rest =>
    (if level ≠ 0 then [ wcall.text ", " ] else []) ++
    (match xkb_keymap_key_get_syms_by_level key group level with
     | [] => [ wcall.text (pad_left 15 "NoSymbol") ]
     | [sym] => [ wcall.text (pad_left 15 (txt.xkb_keysym_get_name sym)) ]
     | syms =>
       [ wcall.text "\x7b " ] ++ write_keysyms.syms txt 0 syms ++ [ wcall.text " \x7d" ]) ++
    write_keysyms.levels txt key group rest

/-- The steps of `write_keysyms` (keymap-dump.c lines 477-514). -/
def write_keysyms.calls (txt : TextExternals) (keymap : xkb_keymap) (key : xkb_key)
    (group : Nat) : List wcall :=
  write_keysyms.levels txt key group (List.range (XkbKeyGroupWidth keymap key group))

/-- The function `write_keysyms`. -/
def write_keysyms (txt : TextExternals) (heap : Nat → Nat → Bool) (keymap : xkb_keymap)
    (b : buf) (key : xkb_key) (group : Nat) : wresult :=
  run heap b (write_keysyms.calls txt keymap key group)

/-- The loop over the group names of `write_symbols` (keymap-dump.c lines
529-533) from the index `group` on. -/
def write_symbols.group_names (keymap : xkb_keymap) : Nat → List Nat → List wcall
  | _, [] => []
  | group, name :: rest =>
    (if name ≠ 0 then
       [ wcall.text ("\t\tname[group" ++ fmt_d (int_of_u32 (group + 1)) ++ "]=\"" ++
           fmt_s (xkb_atom_text keymap.ctx name) ++ "\";\n") ]
     else []) ++
    write_symbols.group_names keymap (group + 1) rest

/-- The loop over the groups of a key that writes the explicit types
(keymap-dump.c lines 560-568), from the index `group` on. -/
def write_symbols.types (keymap : xkb_keymap) : Nat → List xkb_group → List wcall
  | _, [] => []
  | group, g :: rest =>
    (if ¬ g.explicit_type then []
     else
       [ wcall.text ("\n\t\t\ttype[group" ++ fmt_u (group + 1) ++ "]= \"" ++
           fmt_s (xkb_atom_text keymap.ctx (group_type_name keymap g)) ++ "\",") ]) ++
    write_symbols.types keymap (group + 1) rest

/-- The loop over the levels of a group that writes the actions (keymap-dump.c
lines 627-634), for the levels of the list; the result of `write_action` is not
looked at. -/
def write_symbols.actions (txt : TextExternals) (keymap : xkb_keymap) (g : xkb_group) :
    List Nat → List wcall
  | [] => []
  | level :: rest =>
    (if level ≠ 0 then [ wcall.text ", " ] else []) ++
    [ wcall.unchecked
        (write_action.calls txt keymap
          (match g.levels.get? level with
           | some l => l.action
           | none => { type := 0, data := [] })
          none none) ] ++
    write_symbols.actions txt keymap g rest

/-- The loop over the groups of a key that writes the symbols and the actions
(keymap-dump.c lines 617-637), from the index `group` on. -/
def write_symbols.groups (txt : TextExternals) (keymap : xkb_keymap) (key : xkb_key)
    (showActions : Bool) : Nat → List xkb_group → List wcall
  | _, [] => []
  | group, g :: rest =>
    (if group ≠ 0 then [ wcall.text "," ] else []) ++
    [ wcall.text ("\n\t\t\tsymbols[Group" ++ fmt_u (group + 1) ++ "]= [ ") ] ++
    write_keysyms.calls txt keymap key group ++
    [ wcall.text " ]" ] ++
    (if showActions then
       [ wcall.text (",\n\t\t\tactions[Group" ++ fmt_u (group + 1) ++ "]= [ ") ] ++
       write_symbols.actions txt keymap g (List.range (XkbKeyGroupWidth keymap key group)) ++
       [ wcall.text " ]" ]
     else []) ++
    write_symbols.groups txt keymap key showActions (group + 1) rest

/-- The flag `explicit_types` of `write_symbols` after the loop of keymap-dump.c
lines 547-553: some group of the key has an explicit type. -/
def write_symbols.explicit_types (key : xkb_key) : Bool :=
  key.groups.any (fun g => g.explicit_type)

/-- The flag `multi_type` of `write_symbols` after the loop of keymap-dump.c lines
547-553: some group after the first has another type than the first. -/
def write_symbols.multi_type (key : xkb_key) : Bool :=
  match key.groups with
  | [] => false
  | g0 :: rest => rest.any (fun g => decide (g.type ≠ g0.type))

/-- The flag `simple` of `write_symbols` when it is tested (keymap-dump.c line
608): it starts true and is cleared for explicit types (line 557), for an
explicit repeat (line 582) and for several groups or explicit actions (line
606). -/
def write_symbols.simple (key : xkb_key) : Bool :=
  ¬ write_symbols.explicit_types key ∧
  ¬ (key.explicit &&& EXPLICIT_REPEAT ≠ 0) ∧
  ¬ (key.groups.length > 1 ∨ key.explicit &&& EXPLICIT_INTERP ≠ 0)

/-- The body of the first loop over the keys in `write_symbols` (keymap-dump.c
lines 538-639). -/
def write_symbols.key (txt : TextExternals) (keymap : xkb_keymap) (key : xkb_key) :
    List wcall :=
  if key.groups.length = 0 then []
  else
    [ wcall.text ("\t\tkey " ++ pad_right 20 (txt.KeyNameText keymap.ctx key.name) ++ " \x7b") ] ++
    (if write_symbols.explicit_types key then
       (if write_symbols.multi_type key then write_symbols.types keymap 0 key.groups
        else
          [ wcall.text ("\n\t\t\ttype= \"" ++
              fmt_s (xkb_atom_text keymap.ctx
                (match key.groups with
                 | g0 :: _ => group_type_name keymap g0
                 | [] => XKB_ATOM_NONE)) ++ "\",") ])
     else []) ++
    (if key.explicit &&& EXPLICIT_REPEAT ≠ 0 then
       (if key.repeats then [ wcall.text "\n\t\t\trepeat= Yes," ]
        else [ wcall.text "\n\t\t\trepeat= No," ])
     else []) ++
    (if key.vmodmap ≠ 0 ∧ key.explicit &&& EXPLICIT_VMODMAP ≠ 0 then
       [ wcall.text ("\n\t\t\tvirtualMods= " ++ txt.ModMaskText keymap key.vmodmap ++ ",") ]
     else []) ++
    (match key.out_of_range_group_action with
     | xkb_range_exceed_type.RANGE_SATURATE => [ wcall.text "\n\t\t\tgroupsClamp," ]
     | xkb_range_exceed_type.RANGE_REDIRECT =>
       [ wcall.text ("\n\t\t\tgroupsRedirect= Group" ++
           fmt_u (key.out_of_range_group_number + 1) ++ ",") ]
     | xkb_range_exceed_type.RANGE_WRAP => []) ++
    (if write_symbols.simple key then
       [ wcall.text "\t[ " ] ++ write_keysyms.calls txt keymap key 0 ++
       [ wcall.text " ] \x7d;\n" ]
     else
       write_symbols.groups txt keymap key (decide (key.explicit &&& EXPLICIT_INTERP ≠ 0)) 0
         key.groups ++
       [ wcall.text "\n\t\t\x7d;\n" ])

/-- The first loop over the keys in `write_symbols` (keymap-dump.c lines 537-640). -/
def write_symbols.keys (txt : TextExternals) (keymap : xkb_keymap) : List xkb_key → List wcall
  | [] => []
  | key :: rest => write_symbols.key txt keymap key ++ write_symbols.keys txt keymap rest

/-- The loop over the modifiers for one key in the second loop of `write_symbols`
(keymap-dump.c lines 649-656), from the index `i` on. The mask `1 << i` is
computed in 32 bits, where the shift count is taken modulo 32. -/
def write_symbols.modmap (txt : TextExternals) (keymap : xkb_keymap) (key : xkb_key) :
    Nat → List xkb_mod → List wcall
  | _, [] => []
  | i, mod :: rest =>
    (if key.modmap &&& 2 ^ (i % 32) = 0 then []
     else
       [ wcall.text ("\t\tmodifier_map " ++ fmt_s (xkb_atom_text keymap.ctx mod.name) ++ " \x7b " ++
           txt.KeyNameText keymap.ctx key.name ++ " \x7d;\n") ]) ++
    write_symbols.modmap txt keymap key (i + 1) rest

/-- The second loop over the keys in `write_symbols` (keymap-dump.c lines
642-657). -/
def write_symbols.modmaps (txt : TextExternals) (keymap : xkb_keymap) :
    List xkb_key → List wcall
  | [] => []
  | key :: rest =>
    (if key.modmap = 0 then [] else write_symbols.modmap txt keymap key 0 keymap.mods) ++
    write_symbols.modmaps txt keymap rest

/-- The steps of `write_symbols` (keymap-dump.c lines 516-661). -/
def write_symbols.calls (txt : TextExternals) (keymap : xkb_keymap) : List wcall :=
  [ match keymap.symbols_section_name with
    | some name => wcall.text ("\txkb_symbols \"" ++ name ++ "\" \x7b\n\n")
    | none => wcall.text "\txkb_symbols \x7b\n\n" ] ++
  write_symbols.group_names keymap 0 keymap.group_names ++
  (if keymap.group_names.length > 0 then [ wcall.text "\n" ] else []) ++
  write_symbols.keys txt keymap keymap.keys ++
  write_symbols.modmaps txt keymap keymap.keys ++
  [ wcall.text "\t\x7d;\n\n" ]

/-- The function `write_symbols`. -/
def write_symbols (txt : TextExternals) (heap : Nat → Nat → Bool) (keymap : xkb_keymap)
    (b : buf) : wresult :=
  run heap b (write_symbols.calls txt keymap)

/-- The operator `&&` on the results of two writing functions: the second runs
on the buffer the first leaves when the first returned true. -/
def wresult.and_then (r : wresult) (next : buf → wresult) : wresult :=
  match r with
  | wresult.done true b => next b
  | other => other

/-- What `xkb_keymap_get_as_string` returns: a text, or NULL (`none`); or its
behaviour is undefined. -/
inductive dump_result where
  | returned (text : Option String)
  | undefined
  deriving DecidableEq, Repr

/-- The function `xkb_keymap_get_as_string` (keymap-dump.c lines 663-688): what it
returns, and the keymap, whose log sink receives an error for an unsupported
format. -/
def xkb_keymap_get_as_string (txt : TextExternals) (heap : Nat → Nat → Bool)
    (keymap : xkb_keymap) (format : Int) : dump_result × xkb_keymap :=
  let b : buf := { buf := none, size := 0, alloc := 0 }
  let format := if format = XKB_KEYMAP_USE_ORIGINAL_FORMAT then keymap.format else format
  if format ≠ XKB_KEYMAP_FORMAT_TEXT_V1 then
    (dump_result.returned none,
     { keymap with ctx := { keymap.ctx with
         log := keymap.ctx.log ++
           [log_entry.msg "err" "Trying to get a keymap as a string in an unsupported format"] } })
  else
    let r :=
      (((((check_write_buf heap b "xkb_keymap \x7b\n").and_then
        (fun b => write_keycodes txt heap keymap b)).and_then
        (fun b => write_types txt heap keymap b)).and_then
        (fun b => write_compat txt heap keymap b)).and_then
        (fun b => write_symbols txt heap keymap b)).and_then
        (fun b => check_write_buf heap b "\x7d;\n")
    match r with
    | wresult.done ok b => (dump_result.returned (if ok then b.buf else none), keymap)
    | wresult.undefined => (dump_result.undefined, keymap)

/-! ## Definitions used to state the properties -/

/-- The bucket test of `CopyInterps` on a keymap entry: the interpret has the
matching operation `pred` and (has a keysym other than NoSymbol) = `needSymbol`. -/
def inBucket (needSymbol : Bool) (pred : xkb_match_operation)
    (si : xkb_sym_interpret) : Bool :=
  decide (si.match_ = pred ∧ (decide (si.sym ≠ XKB_KEY_NoSymbol)) = needSymbol)

/-- The position of the pair (has a keysym, matching operation) in the
sequence (true, EXACTLY), (true, ALL), (true, NONE), (true, ANY),
(true, ANY_OR_NONE), (false, EXACTLY), (false, ALL), (false, NONE),
(false, ANY), (false, ANY_OR_NONE). -/
def bucketRank (hasSym : Bool) (pred : xkb_match_operation) : Nat :=
  (if hasSym then 0 else 5) +
  (match pred with
   | MATCH_EXACTLY => 0
   | MATCH_ALL => 1
   | MATCH_NONE => 2
   | MATCH_ANY => 3
   | MATCH_ANY_OR_NONE => 4)

/-- The rank of a keymap entry: the position of its bucket. -/
def rank (si : xkb_sym_interpret) : Nat :=
  bucketRank (decide (si.sym ≠ XKB_KEY_NoSymbol)) si.match_

/-- The interprets of one bucket, in the order of the compat-info list. -/
def bucketOf (info : CompatInfo) (k : Bool × xkb_match_operation) :
    List xkb_sym_interpret :=
  (info.interps.map (fun si => si.interp)).filter (inBucket k.1 k.2)

/-- The ten buckets in the order in which `CopyCompatToKeymap` copies them. -/
def copyOrder : List (Bool × xkb_match_operation) :=
  [(true, MATCH_EXACTLY), (true, MATCH_ALL), (true, MATCH_NONE), (true, MATCH_ANY),
   (true, MATCH_ANY_OR_NONE), (false, MATCH_EXACTLY), (false, MATCH_ALL),
   (false, MATCH_NONE), (false, MATCH_ANY), (false, MATCH_ANY_OR_NONE)]

/-- The decision of `UseNewInterpField` and of `UseNewLEDField` as a function
of the field bit, the two `defined` masks and the merge mode of the new
record: the new value is used when the old record does not define the field,
or when the new record defines it and its merge mode is not AUGMENT. -/
def useNew (field oldDefined newDefined : Nat) (merge : merge_mode) : Bool :=
  decide (oldDefined &&& field = 0 ∨ (newDefined &&& field ≠ 0 ∧ merge ≠ MERGE_AUGMENT))

/-- The serialization described by the specification: the line `xkb_keymap {`,
then the texts of the four sections in the order keycodes, types, compatibility,
symbols (each the text its writing function writes when no write fails), then
the closing line. -/
def keymap_text (txt : TextExternals) (keymap : xkb_keymap) : String :=
  "xkb_keymap \x7b\n" ++
  (wcall.flat (write_keycodes.calls txt keymap) ++
  (wcall.flat (write_types.calls txt keymap) ++
  (wcall.flat (write_compat.calls txt keymap) ++
  (wcall.flat (write_symbols.calls txt keymap) ++ "\x7d;\n"))))

/-- The text the specification gives for one map entry of a key type that is
printed: the line `map[<mods>]= Level<level+1>;`, followed by the line
`preserve[<mods>]= <mask>;` when the preserve mask of the entry is nonzero. -/
def map_entry_text (txt : TextExternals) (keymap : xkb_keymap) (entry : xkb_kt_map_entry) :
    String :=
  "\t\t\tmap[" ++ txt.ModMaskText keymap entry.mods.mods ++ "]= Level" ++
    fmt_d (int_of_u32 (entry.level + 1)) ++ ";\n" ++
  (if entry.preserve.mods ≠ 0 then
     "\t\t\tpreserve[" ++ txt.ModMaskText keymap entry.mods.mods ++ "]= " ++
       txt.ModMaskText keymap entry.preserve.mods ++ ";\n"
   else "")

/-- The text the specification gives for the map of a key type: the texts of the
entries that are not (level 0 and no preserve mask), in the order of the map. -/
def map_entries_text (txt : TextExternals) (keymap : xkb_keymap)
    (entries : List xkb_kt_map_entry) : String :=
  texts_flat
    ((entries.filter (fun e => decide (¬ (e.level = 0 ∧ e.preserve.mods = 0)))).map
      (map_entry_text txt keymap))

/-- The effective format of a request: the format of the keymap for
`XKB_KEYMAP_USE_ORIGINAL_FORMAT`, and the requested format otherwise. -/
def effective_format (keymap : xkb_keymap) (format : Int) : Int :=
  if format = XKB_KEYMAP_USE_ORIGINAL_FORMAT then keymap.format else format

/-- The arguments the specification gives for a modifier action (MOD_SET,
MOD_LATCH, MOD_LOCK): `modifiers=modMapMods` when the flag LOOKUP_MODMAP is set
and `modifiers=` with the text of the modifier mask otherwise, then
`,clearLocks` when the action is SET or LATCH and LOCK_CLEAR is set, then
`,latchToLock` when the action is SET or LATCH and LATCH_TO_LOCK is set. -/
def mod_action_args (txt : TextExternals) (keymap : xkb_keymap) (action : xkb_action) :
    String :=
  "modifiers=" ++
  ((if action.flags &&& ACTION_MODS_LOOKUP_MODMAP ≠ 0 then "modMapMods"
    else txt.ModMaskText keymap action.mods.mods) ++
  ((if (action.type = ACTION_TYPE_MOD_SET ∨ action.type = ACTION_TYPE_MOD_LATCH) ∧
        action.flags &&& ACTION_LOCK_CLEAR ≠ 0 then ",clearLocks" else "") ++
   (if (action.type = ACTION_TYPE_MOD_SET ∨ action.type = ACTION_TYPE_MOD_LATCH) ∧
        action.flags &&& ACTION_LATCH_TO_LOCK ≠ 0 then ",latchToLock" else "")))

/-- A field assignment of the body of an indicator-map statement fails when it
is handled with the compat-info `info` and the record `led`: its left-hand side
cannot be resolved, or it names an element (`elem.field`, a default), or
`SetIndicatorMapField` returns false (unknown field, bad value, array index). -/
def indicator_assignment_fails (ext : Externals) (info : CompatInfo) (led : LEDInfo)
    (var : VarDef) : Bool :=
  match ext.ExprResolveLhs info.keymap.ctx var.name with
  | none => true
  | some (elem, field, arrayNdx) =>
    elem.isSome || !(SetIndicatorMapField ext info led field arrayNdx var.value).1

/-- The record `led` of `HandleIndicatorMapDef` before the loop over the body
(compat.c lines 895-900). -/
def HandleIndicatorMapDef.start (info : CompatInfo) (d : IndicatorMapDef)
    (merge : merge_mode) : LEDInfo :=
  { info.ledDflt with merge := if d.merge ≠ MERGE_DEFAULT then d.merge else merge,
                      im := { info.ledDflt.im with name := d.name } }

/-! ## The consumed modifiers of the state machine

Modelled from the spec: the state machine (`src/state.c`) is not among the
sources; only its test `test/state.c` is. The definitions below follow sections
4.5 and 8 of the specification. -/

/-- Modelled from the spec: the part of the state `struct xkb_state` that the
consumed modifiers depend on: the keymap, the derived EFFECTIVE modifier mask
and the derived effective group. -/
structure xkb_state where
  keymap : xkb_keymap
  mods : Nat
  group : Nat
  deriving DecidableEq, Repr

/-- Modelled from the spec: the lookup of a key by its keycode ("looks up the
key"), `none` when the keymap has no key with this keycode. -/
def XkbKey (keymap : xkb_keymap) (kc : Nat) : Option xkb_key :=
  keymap.keys.find? (fun key => key.keycode == kc)

/-- Modelled from the spec: the current group of a key ("its current group,
with clamp/redirect policy for out-of-range"): the effective group when the key
has it, otherwise the last group (clamp), the group the key redirects to (the
first group when that is out of range too), or the effective group modulo the
number of groups (wrap); `none` for a key without groups. -/
def xkb_state_key_get_layout (state : xkb_state) (key : xkb_key) : Option Nat :=
  let n := key.groups.length
  if n = 0 then none
  else if state.group < n then some state.group
  else
    match key.out_of_range_group_action with
    | xkb_range_exceed_type.RANGE_SATURATE => some (n - 1)
    | xkb_range_exceed_type.RANGE_REDIRECT =>
      some (if key.out_of_range_group_number < n then key.out_of_range_group_number else 0)
    | xkb_range_exceed_type.RANGE_WRAP => some (state.group % n)

/-- Modelled from the spec: the modifier bits that appear in the map entries of
a key type ("those whose bits appear in any of the type's map entries'
`mods.mods`"). -/
def type_entry_mods (type : xkb_key_type) : Nat :=
  type.map.foldl (fun acc entry => acc ||| entry.mods.mods) 0

/-- Modelled from the spec: the consumed-modifier mask for a keycode, "the set of
real modifiers that contributed to selecting the current level (those whose
bits appear in any of the type's map entries' `mods.mods`)", for the type of the
current group of the key; no modifier when the keymap has no such key, group or
type. -/
def key_get_consumed (state : xkb_state) (kc : Nat) : Nat :=
  match XkbKey state.keymap kc with
  | none => 0
  | some key =>
    match xkb_state_key_get_layout state key with
    | none => 0
    | some group =>
      match key.groups.get? group with
      | none => 0
      | some g =>
        match state.keymap.types.get? g.type with
        | none => 0
        | some type => type_entry_mods type &&& MOD_REAL_MASK_ALL

/-- Modelled from the spec: the function `xkb_state_mod_mask_remove_consumed`,
which is not among the sources ("removes exactly the bits the key's type matched
against"): the mask without the bits of the consumed-modifier mask of the
keycode (`mask & ~consumed`). -/
def xkb_state_mod_mask_remove_consumed (state : xkb_state) (kc : Nat) (mask : Nat) : Nat :=
  mask ^^^ (mask &&& key_get_consumed state kc)

/-- The key of an interpret record: its (sym, mods, match). -/
def interp_key (si : SymInterpInfo) : Nat × Nat × xkb_match_operation :=
  (si.interp.sym, si.interp.mods, si.interp.match_)

/-- The three field bits of `enum led_field` together: what a `defined` mask of
an LED record is made of. -/
def LED_FIELD_ALL : Nat := LED_FIELD_MODS ||| LED_FIELD_GROUPS ||| LED_FIELD_CTRLS

/-- The compat tables of a keymap: its `sym_interprets` list, its indicator
table and its compat section name. -/
def compat_tables (keymap : xkb_keymap) :
    List xkb_sym_interpret × List xkb_indicator_map × Option String :=
  (keymap.sym_interprets, keymap.indicators, keymap.compat_section_name)

/-- The record `si` of `HandleInterpDef` before the body is handled (compat.c
lines 860-872): the default template with the merge mode of the statement, or
the one of the file when the statement has none, and the keysym, the matching
operation and the modifiers of the statement. -/
def HandleInterpDef.start (info : CompatInfo) (d : InterpDef) (merge : merge_mode)
    (pred : xkb_match_operation) (mods sym : Nat) : SymInterpInfo :=
  { info.dflt with
    merge := if d.merge = MERGE_DEFAULT then merge else d.merge,
    interp := { info.dflt.interp with sym := sym, match_ := pred, mods := mods } }

/-! ### The statements of a file, handled one after the other -/

/-- The state after one statement is handled from the state `info` (the body of
the loop of `HandleCompatMapFile` up to the test of the error counter, compat.c
lines 942-973): the state the handler leaves, with the error counter one higher
when the handler failed; `none` when the handler does not return. -/
def handle_statement (handle : CompatInfo → Stmt → Option (Bool × CompatInfo))
    (info : CompatInfo) (stmt : Stmt) : Option CompatInfo :=
  (handle info stmt).map
    (fun r => if ¬ r.1 then { r.2 with errorCount := r.2.errorCount + 1 } else r.2)

/-- Every statement of the list handled, in the order of the list, each from
the state the one before it left; no statement is left out. -/
def handle_all (handle : CompatInfo → Stmt → Option (Bool × CompatInfo)) :
    CompatInfo → List Stmt → Option CompatInfo
  | info, [] => some info
  | info, stmt :: rest =>
    (handle_statement handle info stmt).bind (fun mid => handle_all handle mid rest)

/-- The error counter is at most ten after each statement of the list, when
they are handled in order from the state `info` (as far as the handlers
return). -/
def counters_within (handle : CompatInfo → Stmt → Option (Bool × CompatInfo)) :
    CompatInfo → List Stmt → Bool
  | _, [] => true
  | info, stmt :: rest =>
    match handle_statement handle info stmt with
    | none => true
    | some mid => decide (mid.errorCount ≤ 10) && counters_within handle mid rest

/-! ### The records the statement handlers pass on -/

/-- The merge mode `HandleCompatMapFile` hands to the handlers of the statements
(compat.c lines 936-937): AUGMENT for DEFAULT, the mode of the file otherwise. -/
def HandleCompatMapFile.mode (merge : merge_mode) : merge_mode :=
  if merge = MERGE_DEFAULT then MERGE_AUGMENT else merge

/-- The result of `HandleInterpBody` in `HandleInterpDef` (compat.c line 874),
when the predicate resolved to `pred` and `mods` and the keysym to `sym`: the
success, the compat-info and the record `si` after the body. -/
def HandleInterpDef.body (ext : Externals) (info : CompatInfo) (d : InterpDef)
    (merge : merge_mode) (pred : xkb_match_operation) (mods sym : Nat) :
    Bool × CompatInfo × SymInterpInfo :=
  HandleInterpBody ext (ResolveStateAndPredicate ext d.match_ info).2 d.def_
    (HandleInterpDef.start (ResolveStateAndPredicate ext d.match_ info).2 d merge pred mods sym)

/-- The result of the loop over the body in `HandleIndicatorMapDef` (compat.c
lines 902-921): the success, the compat-info and the record `led` after it. -/
def HandleIndicatorMapDef.body (ext : Externals) (info : CompatInfo) (d : IndicatorMapDef)
    (merge : merge_mode) : Bool × CompatInfo × LEDInfo :=
  HandleIndicatorMapDef.loop ext info (HandleIndicatorMapDef.start info d merge) true d.body

/-! ## Sample inputs -/

/-- A compat-info with three interprets, declared from the least to the most
specific, and one LED. -/
def sampleInfo : CompatInfo :=
  { name := some "sample", file_id := 1, errorCount := 0,
    dflt := { defined := 0, file_id := 1, merge := MERGE_OVERRIDE,
              interp := { sym := 0, match_ := MATCH_NONE, mods := 0,
                          virtual_mod := XKB_MOD_INVALID,
                          action := { type := 0, data := [] },
                          level_one_only := false, repeat_ := false } },
    interps :=
      [ { defined := 2, file_id := 1, merge := MERGE_OVERRIDE,
          interp := { sym := 0, match_ := MATCH_ANY, mods := 255,
                      virtual_mod := XKB_MOD_INVALID,
                      action := { type := 1, data := [] },
                      level_one_only := false, repeat_ := false } },
        { defined := 2, file_id := 1, merge := MERGE_OVERRIDE,
          interp := { sym := 65, match_ := MATCH_ANY_OR_NONE, mods := 255,
                      virtual_mod := XKB_MOD_INVALID,
                      action := { type := 2, data := [] },
                      level_one_only := false, repeat_ := false } },
        { defined := 3, file_id := 1, merge := MERGE_OVERRIDE,
          interp := { sym := 66, match_ := MATCH_EXACTLY, mods := 1,
                      virtual_mod := 9,
                      action := { type := 3, data := [] },
                      level_one_only := false, repeat_ := true } } ],
    ledDflt := { defined := 0, file_id := 1, merge := MERGE_OVERRIDE,
                 im := { name := 0, which_groups := 0, groups := 0, which_mods := 0,
                         mods := { mods := 0 }, ctrls := 0 } },
    leds :=
      [ { defined := 1, file_id := 1, merge := MERGE_OVERRIDE,
          im := { name := 7, which_groups := 0, groups := 0, which_mods := 4,
                  mods := { mods := 2 }, ctrls := 0 } } ],
    keymap := { ctx := { log_verbosity := 0, log := [] },
                sym_interprets := [], indicators := [],
                compat_section_name := none } }

/-- An interpret record with the key (sym 66, mods 1, EXACTLY) of the third
record of `sampleInfo`, defining the action and the repeat fields. -/
def sampleInterp : SymInterpInfo :=
  { defined := 6, file_id := 2, merge := MERGE_REPLACE,
    interp := { sym := 66, match_ := MATCH_EXACTLY, mods := 1,
                virtual_mod := XKB_MOD_INVALID,
                action := { type := 4, data := [1] },
                level_one_only := true, repeat_ := false } }

/-- An interpret record under AUGMENT with a key (sym 70, mods 0, ANY) that no
record of `sampleInfo` has, defining only the action. -/
def augmentInterp : SymInterpInfo :=
  { defined := 2, file_id := 1, merge := MERGE_AUGMENT,
    interp := { sym := 70, match_ := MATCH_ANY, mods := 0,
                virtual_mod := XKB_MOD_INVALID,
                action := { type := 5, data := [] },
                level_one_only := false, repeat_ := false } }

/-- An interpret record with the key (sym 66, mods 1, EXACTLY) of the third
record of `sampleInfo`, defining the virtual modifier and the
level-one-only field, with the merge mode given. -/
def mergeInterp (merge : merge_mode) : SymInterpInfo :=
  { defined := 9, file_id := 1, merge := merge,
    interp := { sym := 66, match_ := MATCH_EXACTLY, mods := 1,
                virtual_mod := 11,
                action := { type := 6, data := [2] },
                level_one_only := true, repeat_ := false } }

/-- The third record of `sampleInfo`. -/
def sampleThird : SymInterpInfo :=
  { defined := 3, file_id := 1, merge := MERGE_OVERRIDE,
    interp := { sym := 66, match_ := MATCH_EXACTLY, mods := 1, virtual_mod := 9,
                action := { type := 3, data := [] },
                level_one_only := false, repeat_ := true } }

/-- An LED record whose name (9) no LED of `sampleInfo` has. -/
def freshLed : LEDInfo :=
  { defined := 2, file_id := 1, merge := MERGE_OVERRIDE,
    im := { name := 9, which_groups := 0, groups := 1, which_mods := 0,
            mods := { mods := 0 }, ctrls := 0 } }

/-- The LED of `sampleInfo`. -/
def sampleLed : LEDInfo :=
  { defined := 1, file_id := 1, merge := MERGE_OVERRIDE,
    im := { name := 7, which_groups := 0, groups := 0, which_mods := 4,
            mods := { mods := 2 }, ctrls := 0 } }

/-- An LED record with the name (7) of the LED of `sampleInfo` and other map
fields, defining the modifiers and the controls, with the merge mode given. -/
def mergeLed (merge : merge_mode) : LEDInfo :=
  { defined := 5, file_id := 1, merge := merge,
    im := { name := 7, which_groups := 64, groups := 3, which_mods := 1,
            mods := { mods := 8 }, ctrls := 16 } }

/-- An LED record with the name and the map fields of the LED of `sampleInfo`,
defining the groups, with the merge mode given. -/
def sameLed (merge : merge_mode) : LEDInfo :=
  { defined := 2, file_id := 3, merge := merge,
    im := { name := 7, which_groups := 0, groups := 0, which_mods := 4,
            mods := { mods := 2 }, ctrls := 0 } }

/-- A keymap whose indicator table has three slots: one named 7, one empty
(name NONE) and one named 5. -/
def sampleKeymap : xkb_keymap :=
  { ctx := { log_verbosity := 0, log := [] },
    sym_interprets := [],
    indicators :=
      [ { name := 7, which_groups := 0, groups := 0, which_mods := 0,
          mods := { mods := 0 }, ctrls := 0 },
        { name := 0, which_groups := 0, groups := 0, which_mods := 0,
          mods := { mods := 0 }, ctrls := 0 },
        { name := 5, which_groups := 0, groups := 0, which_mods := 0,
          mods := { mods := 0 }, ctrls := 0 } ],
    compat_section_name := none }

/-- The indicator slot with the given name and no configured behaviour. -/
def namedSlot (name : Nat) : xkb_indicator_map :=
  { name := name, which_groups := 0, groups := 0, which_mods := 0,
    mods := { mods := 0 }, ctrls := 0 }

/-- A keymap whose indicator table is full: 32 slots named 101 to 132. -/
def fullKeymap : xkb_keymap :=
  { ctx := { log_verbosity := 0, log := [] },
    sym_interprets := [],
    indicators := (List.range 32).map (fun i => namedSlot (101 + i)),
    compat_section_name := none }

/-- The compat-info `sampleInfo` on the keymap `sampleKeymap`. -/
def sampleTableInfo : CompatInfo :=
  { sampleInfo with keymap := sampleKeymap }

/-- The compat-info `sampleInfo` on the keymap `fullKeymap`. -/
def fullTableInfo : CompatInfo :=
  { sampleInfo with keymap := fullKeymap }

/-- A context whose atom table holds "ANY" (atom 1), "Shift" (atom 2), "AllOf"
(atom 3), "Bogus" (atom 4), "repeat" (atom 5), "groups" (atom 6), "Caps Lock"
(atom 7) and "NumLock" (atom 8). -/
def atomContext : xkb_context :=
  { log_verbosity := 0, log := [],
    atom_table := ["ANY", "Shift", "AllOf", "Bogus", "repeat", "groups", "Caps Lock",
                   "NumLock"] }

/-- The keymap `sampleKeymap` with the context `atomContext`. -/
def atomKeymap : xkb_keymap :=
  { sampleKeymap with ctx := atomContext }

/-- The compat-info `sampleInfo` on the keymap `atomKeymap`. -/
def atomInfo : CompatInfo :=
  { sampleInfo with keymap := atomKeymap }

/-- External collaborators for the sample inputs. The mask resolver knows the
identifier "Shift" (atom 2, mask 1) and the node `EXPR_OTHER 1` (mask 5); the
left-hand-side resolver takes an identifier for a field of that name and a
field reference for an element and a field; the boolean resolver reads the
node `EXPR_OTHER 1` as true and `EXPR_OTHER 0` as false; the keysym lookup knows
"a" (97); the action parser fails on an absent value; nothing can be included;
the actions context can be allocated. -/
def sampleExt : Externals :=
  { ExprResolveModMask := fun _ e _ =>
      match e with
      | some (ExprDef.EXPR_IDENT 2) => some 1
      | some (ExprDef.EXPR_OTHER 1 _) => some 5
      | _ => none,
    ExprResolveMod := fun _ e _ =>
      match e with
      | some (ExprDef.EXPR_IDENT 2) => some 9
      | _ => none,
    ExprResolveBoolean := fun _ e =>
      match e with
      | some (ExprDef.EXPR_OTHER 1 _) => some true
      | some (ExprDef.EXPR_OTHER 0 _) => some false
      | _ => none,
    ExprResolveEnum := fun _ e _ =>
      match e with
      | some (ExprDef.EXPR_OTHER n _) => some n
      | _ => none,
    ExprResolveMask := fun _ e _ =>
      match e with
      | some (ExprDef.EXPR_OTHER n _) => some n
      | _ => none,
    ExprResolveLhs := fun ctx e =>
      match e with
      | some (ExprDef.EXPR_IDENT a) =>
        (xkb_atom_text ctx a).map (fun field => (none, field, none))
      | some (ExprDef.EXPR_FIELD_REF el a) =>
        (xkb_atom_text ctx a).map (fun field => (xkb_atom_text ctx el, field, none))
      | _ => none,
    LookupKeysym := fun sym => if sym = some "a" then some 97 else none,
    HandleActionDef := fun value _ action _ =>
      match value with
      | some _ => (true, { action with type := 1 })
      | none => (false, action),
    SetActionField := fun _ _ _ _ _ actions => (true, actions),
    HandleVModDef := fun keymap d =>
      (true, keymap.mods ++ [{ name := d.name, type := mod_type.MOD_VIRT }]),
    ProcessIncludeFile := fun _ _ => none,
    NewActionsInfo := some { data := [] } }

/-- A file of three statements that are handled without error: a virtual
modifier declaration, `interpret a { repeat = <EXPR_OTHER 1>; }` and
`indicator "Caps Lock" { groups = <EXPR_OTHER 3>; }`. -/
def goodFile : XkbFile :=
  { id := 1, name := some "good", topName := some "good",
    defs :=
      [ Stmt.STMT_VMOD { merge := MERGE_DEFAULT, name := 8, value := none },
        Stmt.STMT_INTERP
          { merge := MERGE_DEFAULT, sym := some "a", match_ := none,
            def_ := [ { merge := MERGE_DEFAULT, name := some (ExprDef.EXPR_IDENT 5),
                        value := some (ExprDef.EXPR_OTHER 1 []) } ] },
        Stmt.STMT_INDICATOR_MAP
          { merge := MERGE_DEFAULT, name := 7,
            body := [ { merge := MERGE_DEFAULT, name := some (ExprDef.EXPR_IDENT 6),
                        value := some (ExprDef.EXPR_OTHER 3 []) } ] } ] }

/-- A file of one statement of a type that a compat file may not hold, followed
by the statements of `goodFile`. -/
def badFile : XkbFile :=
  { id := 2, name := some "bad", topName := some "bad",
    defs := Stmt.STMT_OTHER 99 :: goodFile.defs }

/-- The switch of `HandleCompatMapFile` for the sample inputs: the external
collaborators `sampleExt`, no included file, file merge mode AUGMENT. -/
def sampleHandle : CompatInfo → Stmt → Option (Bool × CompatInfo) :=
  HandleCompatMapFile.stmt sampleExt (fun _ _ _ => none) MERGE_AUGMENT

/-- A file of `n` statements of a type that a compat file may not hold (each of
them fails), followed by the statements of `goodFile`. -/
def failingFile (n : Nat) : XkbFile :=
  { id := 3, name := some "failing", topName := some "failing",
    defs := List.replicate n (Stmt.STMT_OTHER 99) ++ goodFile.defs }

/-- Text functions for the sample inputs: a mask is "none" or "m" and its
number, a key name is the atom text between angle brackets, a modifier index is
"v" and its number, a control mask "c" and its number, a state-component mask
"s" and its number, the matching operations have their names, an action type is
"Action" and its number, and a keysym is "k" and its number. -/
def sampleTxt : TextExternals :=
  { ModMaskText := fun _ m => if m = 0 then "none" else "m" ++ toString m,
    KeyNameText := fun ctx a => "<" ++ fmt_s (xkb_atom_text ctx a) ++ ">",
    ModIndexText := fun _ i => "v" ++ toString i,
    ControlMaskText := fun _ c => "c" ++ toString c,
    IndicatorStateText := fun _ c => "s" ++ toString c,
    SIMatchText := fun m =>
      match m with
      | MATCH_NONE => "NoneOf"
      | MATCH_ANY_OR_NONE => "AnyOfOrNone"
      | MATCH_ANY => "AnyOf"
      | MATCH_ALL => "AllOf"
      | MATCH_EXACTLY => "Exactly",
    ActionTypeText := fun t => "Action" ++ toString t,
    xkb_keysym_get_name := fun k => "k" ++ toString k }

/-- A key type named "Shift" (atom 2) with three map entries: level 1 without
preserve (the default, not printed), level 2 without preserve, and level 1 with
a preserve mask. -/
def sampleType : xkb_key_type :=
  { name := 2, mods := { mods := 1 }, num_levels := 2,
    map := [ { level := 0, mods := { mods := 4 }, preserve := { mods := 0 } },
             { level := 1, mods := { mods := 1 }, preserve := { mods := 0 } },
             { level := 0, mods := { mods := 2 }, preserve := { mods := 2 } } ],
    level_names := none }

/-- A keymap in the format TEXT_V1 with the context `atomContext`, one virtual
modifier, the type `sampleType`, one key with one group of two levels, one
interpret and one indicator. -/
def dumpKeymap : xkb_keymap :=
  { ctx := atomContext,
    sym_interprets :=
      [ { sym := 66, match_ := MATCH_ANY, mods := 1, virtual_mod := XKB_MOD_INVALID,
          action := { type := 3, data := [], flags := 1, mods := { mods := 2 } },
          level_one_only := false, repeat_ := true } ],
    indicators :=
      [ { name := 7, which_groups := 0, groups := 0, which_mods := 4,
          mods := { mods := 2 }, ctrls := 0 } ],
    compat_section_name := some "sample",
    format := 1,
    keys :=
      [ { keycode := 9, name := 5, explicit := 0, modmap := 1, vmodmap := 0, repeats := true,
          out_of_range_group_action := xkb_range_exceed_type.RANGE_WRAP,
          out_of_range_group_number := 0,
          groups := [ { explicit_type := false, type := 0,
                        levels := [ { syms := [97], action := { type := 0, data := [] } },
                                    { syms := [65, 66], action := { type := 0, data := [] } } ] } ] } ],
    key_aliases := [],
    mods := [ { name := 2, type := mod_type.MOD_REAL }, { name := 8, type := mod_type.MOD_VIRT } ],
    types := [ sampleType ],
    group_names := [ 6 ] }

/-- The keymap `dumpKeymap` in another format than TEXT_V1. -/
def otherFormatKeymap : xkb_keymap :=
  { dumpKeymap with format := 2 }

/-- A MOD_SET action with the flags LOCK_CLEAR and LATCH_TO_LOCK and the
modifier mask 5. -/
def setModsAction : xkb_action :=
  { type := ACTION_TYPE_MOD_SET, data := [],
    flags := ACTION_LOCK_CLEAR ||| ACTION_LATCH_TO_LOCK, mods := { mods := 5 } }

/-- A MOD_LOCK action with the flags LOOKUP_MODMAP, LOCK_CLEAR and
LATCH_TO_LOCK. -/
def lockModsAction : xkb_action :=
  { type := ACTION_TYPE_MOD_LOCK, data := [],
    flags := ACTION_MODS_LOOKUP_MODMAP ||| ACTION_LOCK_CLEAR ||| ACTION_LATCH_TO_LOCK,
    mods := { mods := 5 } }

/-- A GROUP_SET action that is relative (the flag ABSOLUTE_SWITCH is clear) with
the group offset `group`. -/
def relativeGroupAction (group : Int) : xkb_action :=
  { type := ACTION_TYPE_GROUP_SET, data := [], flags := 0, group := group }

/-- A GROUP_SET action that is absolute (the flag ABSOLUTE_SWITCH is set) with
the group index `group`. -/
def absoluteGroupAction (group : Int) : xkb_action :=
  { type := ACTION_TYPE_GROUP_SET, data := [], flags := ACTION_ABSOLUTE_SWITCH, group := group }

/-- A PTR_MOVE action that is relative on both axes, with the offsets 0 and 0. -/
def relativeMoveAction : xkb_action :=
  { type := ACTION_TYPE_PTR_MOVE, data := [], flags := 0, x := 0, y := 0 }

/-- A key of one group of two levels, without explicit type, explicit repeat or
explicit actions, whose virtual-modifier map is explicit (the mask 1). -/
def vmodmapKey : xkb_key :=
  { keycode := 10, name := 5, explicit := EXPLICIT_VMODMAP, modmap := 0, vmodmap := 1,
    repeats := true,
    out_of_range_group_action := xkb_range_exceed_type.RANGE_WRAP,
    out_of_range_group_number := 0,
    groups := [ { explicit_type := false, type := 0,
                  levels := [ { syms := [97], action := { type := 0, data := [] } },
                              { syms := [65], action := { type := 0, data := [] } } ] } ] }

/-- The key `vmodmapKey` without the explicit virtual-modifier map and with the
out-of-range group policy "clamp" (RANGE_SATURATE). -/
def clampKey : xkb_key :=
  { vmodmapKey with explicit := 0, vmodmap := 0,
                    out_of_range_group_action := xkb_range_exceed_type.RANGE_SATURATE }

/-- The key `vmodmapKey` with an explicit repeat instead of the explicit
virtual-modifier map. -/
def repeatKey : xkb_key :=
  { vmodmapKey with explicit := EXPLICIT_REPEAT, vmodmap := 0 }

/-- A key named "Bogus" (atom 4) with the keycode 2^31. -/
def highKey : xkb_key :=
  { vmodmapKey with keycode := 2147483648, name := 4, explicit := 0, vmodmap := 0 }

/-- A key named "Bogus" (atom 4) with the keycode 2^32 - 1. -/
def lastKey : xkb_key :=
  { vmodmapKey with keycode := 4294967295, name := 4, explicit := 0, vmodmap := 0 }

/-- An allocator whose first `n` calls succeed and whose later calls fail. -/
def heap_first (n : Nat) : Nat → Nat → Bool := fun call _ => decide (call < n)

/-- A name of 4096 letters. -/
def longName : String := String.mk (List.replicate 4096 'v')

/-- A keymap in the format TEXT_V1 without keys, types, interprets or
indicators, with one virtual modifier whose name (atom 1) has 4096 letters. -/
def longVmodKeymap : xkb_keymap :=
  { ctx := { log_verbosity := 0, log := [], atom_table := [longName] },
    sym_interprets := [],
    indicators := [],
    compat_section_name := none,
    format := 1,
    mods := [ { name := 1, type := mod_type.MOD_VIRT } ] }

/-- The assignment `Bogus = <EXPR_OTHER 1>;` to a field that an interpret does
not have. -/
def bogusAssignment : VarDef :=
  { merge := MERGE_DEFAULT, name := some (ExprDef.EXPR_IDENT 4),
    value := some (ExprDef.EXPR_OTHER 1 []) }

/-- The assignment `repeat = <EXPR_OTHER 1>;` (true). -/
def repeatAssignment : VarDef :=
  { merge := MERGE_DEFAULT, name := some (ExprDef.EXPR_IDENT 5),
    value := some (ExprDef.EXPR_OTHER 1 []) }

/-- The assignment `Shift.repeat = <EXPR_OTHER 1>;` of a global default. -/
def defaultAssignment : VarDef :=
  { merge := MERGE_DEFAULT, name := some (ExprDef.EXPR_FIELD_REF 2 5),
    value := some (ExprDef.EXPR_OTHER 1 []) }

/-- The statement `interpret a { <body> }`. -/
def interpretWith (body : List VarDef) : InterpDef :=
  { merge := MERGE_DEFAULT, sym := some "a", match_ := none, def_ := body }

/-- The assignment `groups = <EXPR_OTHER 3>;`. -/
def groupsAssignment : VarDef :=
  { merge := MERGE_DEFAULT, name := some (ExprDef.EXPR_IDENT 6),
    value := some (ExprDef.EXPR_OTHER 3 []) }

/-- The statement `indicator "Caps Lock" { groups = ...; Bogus = ...; groups = ...; }`,
whose second assignment fails. -/
def badIndicator : IndicatorMapDef :=
  { merge := MERGE_DEFAULT, name := 7,
    body := [groupsAssignment, bogusAssignment, groupsAssignment] }

/-- The statement `include "missing"`, of one element. -/
def includeStmt : Stmt :=
  Stmt.STMT_INCLUDE
    { merge := MERGE_DEFAULT, stmt := some "missing", file := some "missing", map := none,
      modifier := none } []

/-- The key type "TWO_LEVEL": the modifier Shift (bit 0) selects the second
level. -/
def twoLevelType : xkb_key_type :=
  { name := 2, mods := { mods := 1 }, num_levels := 2,
    map := [ { level := 1, mods := { mods := 1 }, preserve := { mods := 0 } } ],
    level_names := none }

/-- The keycode of the key KEY_EQUAL of the test (13) with the evdev offset 8. -/
def KEY_EQUAL_keycode : Nat := 13 + 8

/-- A keymap with the type `twoLevelType` and the key KEY_EQUAL, of one group of
this type with the keysyms `equal` (61) and `plus` (43). -/
def consumeKeymap : xkb_keymap :=
  { ctx := atomContext,
    sym_interprets := [],
    indicators := [],
    compat_section_name := none,
    keys :=
      [ { keycode := KEY_EQUAL_keycode, name := 5, explicit := 0, modmap := 0, vmodmap := 0,
          repeats := true,
          out_of_range_group_action := xkb_range_exceed_type.RANGE_WRAP,
          out_of_range_group_number := 0,
          groups := [ { explicit_type := false, type := 0,
                        levels := [ { syms := [61], action := { type := 0, data := [] } },
                                    { syms := [43], action := { type := 0, data := [] } } ] } ] } ],
    mods := [ { name := 2, type := mod_type.MOD_REAL } ],
    types := [ twoLevelType ] }

/-- The state of the test `test_consume`: Alt (Mod1, bit 3) and Shift (bit 0)
are depressed, so the effective modifier mask is 9; the effective group is the
first. -/
def consumeState : xkb_state :=
  { keymap := consumeKeymap, mods := 2 ^ 3 ||| 2 ^ 0, group := 0 }

/-- A SWITCH_VT action with the given flags and screen number. -/
def switchAction (flags : Nat) (screen : Int) : xkb_action :=
  { type := ACTION_TYPE_SWITCH_VT, data := [], flags := flags, screen := screen }

/-- A buffer of 4096 bytes that holds 4090 bytes. -/
def nearlyFullBuf : buf :=
  { buf := some (String.mk (List.replicate 4090 'x')), size := 4090, alloc := 4096,
    reallocs := 1 }

/-- An LED record named "Caps Lock" (atom 7) that configures the groups 3 and
the modifiers 2 and leaves the two state components open. -/
def openLed : LEDInfo :=
  { defined := 3, file_id := 1, merge := MERGE_OVERRIDE,
    im := { name := 7, which_groups := 0, groups := 3, which_mods := 0,
            mods := { mods := 2 }, ctrls := 0 } }

/-- The statement `replace interpret a { repeat = <EXPR_OTHER 1>; }`, with a
merge mode of its own. -/
def replaceInterpret : InterpDef :=
  { interpretWith [repeatAssignment] with merge := MERGE_REPLACE }

/-- The statement `indicator "Caps Lock" { groups = <EXPR_OTHER 3>; }`, with no
merge mode of its own. -/
def plainIndicator : IndicatorMapDef :=
  { merge := MERGE_DEFAULT, name := 7, body := [groupsAssignment] }

/-! ## Lemmas on the copy of interprets -/

theorem CopyInterps_foldl (needSymbol : Bool) (pred : xkb_match_operation)
    (l : List SymInterpInfo) (acc : CompatInfo) :
    l.foldl
      (fun (acc : CompatInfo) (si : SymInterpInfo) =>
        if si.interp.match_ = pred ∧
            (decide (si.interp.sym ≠ XKB_KEY_NoSymbol)) = needSymbol then
          { acc with keymap := { acc.keymap with
              sym_interprets := acc.keymap.sym_interprets ++ [si.interp] } }
        else acc)
      acc
    = { acc with keymap := { acc.keymap with
          sym_interprets := acc.keymap.sym_interprets ++
            (l.map (fun si => si.interp)).filter (inBucket needSymbol pred) } } := by
  induction l generalizing acc with
  | nil => simp
  | cons si rest ih =>
    by_cases h : si.interp.match_ = pred ∧
        (decide (si.interp.sym ≠ XKB_KEY_NoSymbol)) = needSymbol
    · have hb : inBucket needSymbol pred si.interp = true := by
        unfold inBucket; exact decide_eq_true h
      rw [List.foldl_cons, if_pos h, ih]
      simp [hb, List.filter_cons]
    · have hb : inBucket needSymbol pred si.interp = false := by
        unfold inBucket; exact decide_eq_false h
      rw [List.foldl_cons, if_neg h, ih]
      simp [hb, List.filter_cons]

theorem CopyInterps_eq (info : CompatInfo) (needSymbol : Bool)
    (pred : xkb_match_operation) :
    CopyInterps info needSymbol pred
    = { info with keymap := { info.keymap with
          sym_interprets := info.keymap.sym_interprets ++
            bucketOf info (needSymbol, pred) } } := by
  unfold CopyInterps bucketOf
  exact CopyInterps_foldl needSymbol pred info.interps info

theorem CopyIndicatorMapDefs_step_sym_interprets (keymap : xkb_keymap) (led : LEDInfo) :
    (CopyIndicatorMapDefs.step keymap led).sym_interprets = keymap.sym_interprets := by
  unfold CopyIndicatorMapDefs.step
  simp only
  split_ifs <;> rfl

theorem CopyIndicatorMapDefs_sym_interprets (info : CompatInfo) :
    (CopyIndicatorMapDefs info).keymap.sym_interprets = info.keymap.sym_interprets := by
  unfold CopyIndicatorMapDefs
  simp only
  generalize info.keymap = km
  induction info.leds generalizing km with
  | nil => rfl
  | cons led rest ih =>
    rw [List.foldl_cons, ih, CopyIndicatorMapDefs_step_sym_interprets]

/-- The entries `CopyCompatToKeymap` appends: the ten buckets in copy order. -/
theorem CopyCompatToKeymap_sym_interprets (info : CompatInfo) :
    (CopyCompatToKeymap info).2.keymap.sym_interprets
    = info.keymap.sym_interprets ++ copyOrder.flatMap (bucketOf info) := by
  unfold CopyCompatToKeymap
  simp only [CopyIndicatorMapDefs_sym_interprets]
  by_cases h : info.interps = []
  · simp [h, copyOrder, bucketOf]
  · simp [h, CopyInterps_eq, copyOrder, bucketOf, List.flatMap_cons]

theorem rank_of_mem_bucketOf (info : CompatInfo) (k : Bool × xkb_match_operation)
    (a : xkb_sym_interpret) (h : a ∈ bucketOf info k) :
    rank a = bucketRank k.1 k.2 := by
  unfold bucketOf at h
  have hb := (List.mem_filter.mp h).2
  unfold inBucket at hb
  have hc := of_decide_eq_true hb
  unfold rank
  rw [hc.1, hc.2]

theorem pairwise_rank_flatMap (info : CompatInfo) (ks : List (Bool × xkb_match_operation))
    (hks : ks.Pairwise (fun x y => bucketRank x.1 x.2 ≤ bucketRank y.1 y.2)) :
    (ks.flatMap (bucketOf info)).Pairwise (fun a b => rank a ≤ rank b) := by
  induction ks with
  | nil => simp
  | cons k rest ih =>
    rw [List.flatMap_cons, List.pairwise_append]
    rw [List.pairwise_cons] at hks
    refine ⟨?_, ih hks.2, ?_⟩
    · rw [List.pairwise_iff_forall_sublist]
      intro a b hab
      have ha : a ∈ bucketOf info k := hab.subset (by simp)
      have hb : b ∈ bucketOf info k := hab.subset (by simp)
      rw [rank_of_mem_bucketOf info k a ha, rank_of_mem_bucketOf info k b hb]
    · intro a ha b hb
      obtain ⟨k2, hk2, hb2⟩ := List.mem_flatMap.mp hb
      rw [rank_of_mem_bucketOf info k a ha, rank_of_mem_bucketOf info k2 b hb2]
      exact hks.1 k2 hk2

theorem copyOrder_sorted :
    copyOrder.Pairwise (fun x y => bucketRank x.1 x.2 ≤ bucketRank y.1 y.2) := by
  decide

theorem filter_flatMap_bucketOf (info : CompatInfo) (p : xkb_sym_interpret → Bool)
    (ks : List (Bool × xkb_match_operation)) :
    (ks.flatMap (bucketOf info)).filter p
    = ks.flatMap (fun k => (bucketOf info k).filter p) := by
  induction ks with
  | nil => rfl
  | cons k rest ih => simp [List.flatMap_cons, List.filter_append, ih]

theorem filter_bucketOf_same (info : CompatInfo) (k : Bool × xkb_match_operation) :
    (bucketOf info k).filter (inBucket k.1 k.2) = bucketOf info k := by
  unfold bucketOf
  rw [List.filter_filter]
  simp

theorem filter_bucketOf_other (info : CompatInfo) (k k2 : Bool × xkb_match_operation)
    (h : k ≠ k2) :
    (bucketOf info k).filter (inBucket k2.1 k2.2) = [] := by
  rw [List.filter_eq_nil_iff]
  intro a ha hb
  unfold bucketOf at ha
  have h1 := of_decide_eq_true (List.mem_filter.mp ha).2
  have h2 := of_decide_eq_true hb
  apply h
  apply Prod.ext
  · rw [← h1.2, ← h2.2]
  · rw [← h1.1, ← h2.1]

theorem filter_copyOrder (info : CompatInfo) (needSymbol : Bool)
    (pred : xkb_match_operation) :
    (copyOrder.flatMap (bucketOf info)).filter (inBucket needSymbol pred)
    = bucketOf info (needSymbol, pred) := by
  rw [filter_flatMap_bucketOf]
  have hs := filter_bucketOf_same info (needSymbol, pred)
  have ho := fun k (h : k ≠ (needSymbol, pred)) =>
    filter_bucketOf_other info k (needSymbol, pred) h
  simp only at hs ho
  cases needSymbol <;> cases pred <;>
    simp [copyOrder, List.flatMap_cons, hs, ho]

/-! ## Lemmas on the scans of `FindMatchingInterp` and `AddIndicatorMap` -/

theorem SameInterpKey_iff (old new : SymInterpInfo) :
    SameInterpKey old new = true ↔
      (old.interp.sym = new.interp.sym ∧ old.interp.mods = new.interp.mods ∧
        old.interp.match_ = new.interp.match_) := by
  unfold SameInterpKey
  simp [and_assoc]

theorem scan_none (new : SymInterpInfo) (l : List SymInterpInfo)
    (h : ∀ x ∈ l, SameInterpKey x new = false) :
    FindMatchingInterp.scan new l = none := by
  induction l with
  | nil => rfl
  | cons x rest ih =>
    have hx : SameInterpKey x new = false := h x (by simp)
    have hr : FindMatchingInterp.scan new rest = none :=
      ih (fun y hy => h y (by simp [hy]))
    simp [FindMatchingInterp.scan, hx, hr]

theorem scan_split (new old : SymInterpInfo) (pre post : List SymInterpInfo)
    (hpre : ∀ x ∈ pre, SameInterpKey x new = false)
    (hold : SameInterpKey old new = true) :
    FindMatchingInterp.scan new (pre ++ old :: post) = some (pre.length, old) := by
  induction pre with
  | nil => simp [FindMatchingInterp.scan, hold]
  | cons x rest ih =>
    have hx : SameInterpKey x new = false := hpre x (by simp)
    have hr := ih (fun y hy => hpre y (by simp [hy]))
    simp [FindMatchingInterp.scan, hx, hr]

theorem set_split {α : Type} (pre post : List α) (a b : α) :
    (pre ++ a :: post).set pre.length b = pre ++ b :: post := by
  induction pre with
  | nil => rfl
  | cons x rest ih => simp [List.set, ih]

theorem loop_none (verbosity : Int) (new : LEDInfo) (l : List LEDInfo)
    (h : ∀ x ∈ l, x.im.name ≠ new.im.name) :
    AddIndicatorMap.loop verbosity new l = none := by
  induction l with
  | nil => rfl
  | cons x rest ih =>
    have hx : x.im.name ≠ new.im.name := h x (by simp)
    have hr := ih (fun y hy => h y (by simp [hy]))
    simp [AddIndicatorMap.loop, hx, hr]

theorem loop_skip (verbosity : Int) (new : LEDInfo) (pre l : List LEDInfo)
    (h : ∀ x ∈ pre, x.im.name ≠ new.im.name) :
    AddIndicatorMap.loop verbosity new (pre ++ l)
    = (AddIndicatorMap.loop verbosity new l).map (fun r => (pre ++ r.1, r.2)) := by
  induction pre with
  | nil => simp
  | cons x rest ih =>
    have hx : x.im.name ≠ new.im.name := h x (by simp)
    have hr := ih (fun y hy => h y (by simp [hy]))
    simp [AddIndicatorMap.loop, hx, hr, Option.map_map, Function.comp_def]

theorem scan_some (new : SymInterpInfo) (l : List SymInterpInfo) (i : Nat)
    (old : SymInterpInfo) (h : FindMatchingInterp.scan new l = some (i, old)) :
    ∃ pre post, l = pre ++ old :: post ∧ i = pre.length ∧
      (∀ x ∈ pre, SameInterpKey x new = false) ∧ SameInterpKey old new = true := by
  induction l generalizing i with
  | nil => simp [FindMatchingInterp.scan] at h
  | cons x rest ih =>
    unfold FindMatchingInterp.scan at h
    by_cases hx : SameInterpKey x new = true
    · rw [if_pos hx] at h
      have h2 := Option.some.inj h
      have hi : i = 0 := (congrArg Prod.fst h2).symm
      have ho : old = x := (congrArg Prod.snd h2).symm
      subst hi ho
      exact ⟨[], rest, rfl, rfl, by simp, hx⟩
    · rw [if_neg hx] at h
      cases hr : FindMatchingInterp.scan new rest with
      | none => rw [hr] at h; simp at h
      | some r =>
        rw [hr] at h
        have h2 := Option.some.inj h
        have hi : r.1 + 1 = i := congrArg Prod.fst h2
        have ho : r.2 = old := congrArg Prod.snd h2
        obtain ⟨pre, post, hl, hlen, hpre, hold⟩ := ih r.1 (by rw [hr, ← ho])
        refine ⟨x :: pre, post, by rw [hl]; rfl, by rw [← hi, hlen]; rfl, ?_, hold⟩
        intro y hy
        rcases List.mem_cons.mp hy with hy | hy
        · rw [hy]; simpa using hx
        · exact hpre y hy

/-! ## Lemmas on the field masks -/

theorem or_ne_zero_left (a b : Nat) (h : a ≠ 0) : a ||| b ≠ 0 := by
  intro h0
  apply h
  apply Nat.eq_of_testBit_eq
  intro i
  have ht := congrArg (fun n => Nat.testBit n i) h0
  simp only [Nat.testBit_or, Nat.zero_testBit, Bool.or_eq_false_iff] at ht
  simp [ht.1]

theorem or_ne_zero_right (a b : Nat) (h : b ≠ 0) : a ||| b ≠ 0 := by
  rw [Nat.or_comm]
  exact or_ne_zero_left b a h

theorem or_and_ne_zero_left (a b f : Nat) (h : a &&& f ≠ 0) : (a ||| b) &&& f ≠ 0 := by
  rw [Nat.and_distrib_right]
  exact or_ne_zero_left _ _ h

theorem or_and_ne_zero_right (a b f : Nat) (h : b &&& f ≠ 0) : (a ||| b) &&& f ≠ 0 := by
  rw [Nat.and_distrib_right]
  exact or_ne_zero_right _ _ h

theorem or_and_ne_zero_insert (d c b f : Nat) (h : (d ||| b) &&& f ≠ 0) :
    ((d ||| c) ||| b) &&& f ≠ 0 := by
  rw [Nat.or_assoc, Nat.or_comm c b, ← Nat.or_assoc]
  exact or_and_ne_zero_left _ _ _ h

theorem or_two_pow_of_and_ne_zero (d k : Nat) (h : d &&& 2 ^ k ≠ 0) : d ||| 2 ^ k = d := by
  have hb : d.testBit k = true := by
    rw [Nat.and_two_pow] at h
    cases hk : d.testBit k with
    | true => rfl
    | false => rw [hk] at h; simp at h
  apply Nat.eq_of_testBit_eq
  intro i
  rw [Nat.testBit_or, Nat.testBit_two_pow]
  by_cases hki : k = i
  · subst hki; simp [hb]
  · simp [hki]

theorem or_bit_if (d k : Nat) :
    d ||| (if d &&& 2 ^ k = 0 then 2 ^ k else 0) = d ||| 2 ^ k := by
  by_cases h : d &&& 2 ^ k = 0
  · rw [if_pos h]
  · rw [if_neg h, Nat.or_zero, or_two_pow_of_and_ne_zero d k h]

/-! ## Lemmas on the field-by-field merge of interprets -/

theorem UseNewInterpField_fst (field : Nat) (old new : SymInterpInfo) (report : Bool)
    (collide : Nat) :
    (UseNewInterpField field old new report collide).1
    = useNew field old.defined new.defined new.merge := by
  unfold UseNewInterpField useNew
  by_cases h1 : old.defined &&& field = 0
  · simp [h1]
  · by_cases h2 : new.defined &&& field = 0
    · simp [h1, h2]
    · by_cases h3 : new.merge = MERGE_AUGMENT
      · simp [h1, h2, h3]
      · simp [h1, h2, h3]

theorem useNew_or (f g d nd : Nat) (m : merge_mode) (h : g &&& f = 0) :
    useNew f (d ||| g) nd m = useNew f d nd m := by
  unfold useNew
  rw [Nat.and_distrib_right, h, Nat.or_zero]

theorem useNew_or_1_2 (d nd : Nat) (m : merge_mode) :
    useNew SI_FIELD_ACTION (d ||| SI_FIELD_VIRTUAL_MOD) nd m = useNew SI_FIELD_ACTION d nd m :=
  useNew_or _ _ d nd m (by decide)

theorem useNew_or_1_4 (d nd : Nat) (m : merge_mode) :
    useNew SI_FIELD_AUTO_REPEAT (d ||| SI_FIELD_VIRTUAL_MOD) nd m
      = useNew SI_FIELD_AUTO_REPEAT d nd m :=
  useNew_or _ _ d nd m (by decide)

theorem useNew_or_2_4 (d nd : Nat) (m : merge_mode) :
    useNew SI_FIELD_AUTO_REPEAT (d ||| SI_FIELD_ACTION) nd m
      = useNew SI_FIELD_AUTO_REPEAT d nd m :=
  useNew_or _ _ d nd m (by decide)

theorem useNew_or_1_8 (d nd : Nat) (m : merge_mode) :
    useNew SI_FIELD_LEVEL_ONE_ONLY (d ||| SI_FIELD_VIRTUAL_MOD) nd m
      = useNew SI_FIELD_LEVEL_ONE_ONLY d nd m :=
  useNew_or _ _ d nd m (by decide)

theorem useNew_or_2_8 (d nd : Nat) (m : merge_mode) :
    useNew SI_FIELD_LEVEL_ONE_ONLY (d ||| SI_FIELD_ACTION) nd m
      = useNew SI_FIELD_LEVEL_ONE_ONLY d nd m :=
  useNew_or _ _ d nd m (by decide)

theorem useNew_or_4_8 (d nd : Nat) (m : merge_mode) :
    useNew SI_FIELD_LEVEL_ONE_ONLY (d ||| SI_FIELD_AUTO_REPEAT) nd m
      = useNew SI_FIELD_LEVEL_ONE_ONLY d nd m :=
  useNew_or _ _ d nd m (by decide)

/-- The record `AddInterp` leaves in the list after its field-by-field merge,
in terms of the records it was given. -/
theorem mergeFields_fst (old new : SymInterpInfo) (report : Bool) :
    (AddInterp.mergeFields old new report).1
    = { defined :=
          (((old.defined
            ||| (if useNew SI_FIELD_VIRTUAL_MOD old.defined new.defined new.merge
                  then SI_FIELD_VIRTUAL_MOD else 0))
            ||| (if useNew SI_FIELD_ACTION old.defined new.defined new.merge
                  then SI_FIELD_ACTION else 0))
            ||| (if useNew SI_FIELD_AUTO_REPEAT old.defined new.defined new.merge
                  then SI_FIELD_AUTO_REPEAT else 0))
            ||| (if useNew SI_FIELD_LEVEL_ONE_ONLY old.defined new.defined new.merge
                  then SI_FIELD_LEVEL_ONE_ONLY else 0),
        file_id := old.file_id,
        merge := old.merge,
        interp :=
          { sym := old.interp.sym,
            match_ := old.interp.match_,
            mods := old.interp.mods,
            virtual_mod :=
              if useNew SI_FIELD_VIRTUAL_MOD old.defined new.defined new.merge
              then new.interp.virtual_mod else old.interp.virtual_mod,
            action :=
              if useNew SI_FIELD_ACTION old.defined new.defined new.merge
              then new.interp.action else old.interp.action,
            level_one_only :=
              if useNew SI_FIELD_LEVEL_ONE_ONLY old.defined new.defined new.merge
              then new.interp.level_one_only else old.interp.level_one_only,
            repeat_ :=
              if useNew SI_FIELD_AUTO_REPEAT old.defined new.defined new.merge
              then new.interp.repeat_ else old.interp.repeat_ } } := by
  unfold AddInterp.mergeFields
  simp only [UseNewInterpField_fst]
  cases h1 : useNew SI_FIELD_VIRTUAL_MOD old.defined new.defined new.merge <;>
  cases h2 : useNew SI_FIELD_ACTION old.defined new.defined new.merge <;>
  cases h3 : useNew SI_FIELD_AUTO_REPEAT old.defined new.defined new.merge <;>
  cases h4 : useNew SI_FIELD_LEVEL_ONE_ONLY old.defined new.defined new.merge <;>
  simp [h1, h2, h3, h4, useNew_or_1_2, useNew_or_1_4, useNew_or_2_4, useNew_or_1_8,
    useNew_or_2_8, useNew_or_4_8]

/-- When `AddInterp` finds `old` and the merge mode is not REPLACE, the list
afterwards holds the merged record in the place of `old`. -/
theorem AddInterp_merge_split (info : CompatInfo) (new old : SymInterpInfo)
    (pre post : List SymInterpInfo)
    (hl : info.interps = pre ++ old :: post)
    (hpre : ∀ x ∈ pre, SameInterpKey x new = false)
    (hold : SameInterpKey old new = true)
    (hm : new.merge ≠ MERGE_REPLACE) :
    ∃ report : Bool,
      (AddInterp info new).2.interps
        = pre ++ (AddInterp.mergeFields old new report).1 :: post := by
  have hf : FindMatchingInterp info new = some (pre.length, old) := by
    unfold FindMatchingInterp
    rw [hl]
    exact scan_split new old pre post hpre hold
  refine ⟨(old.file_id == new.file_id && decide (info.keymap.ctx.log_verbosity > 0))
    || decide (info.keymap.ctx.log_verbosity > 9), ?_⟩
  unfold AddInterp
  rw [hf]
  simp only [if_neg hm]
  split_ifs <;> simp [CompatInfo.log, hl, set_split]

theorem not_SameInterpKey_of_not (x new : SymInterpInfo)
    (h : ¬ (x.interp.sym = new.interp.sym ∧
      x.interp.mods = new.interp.mods ∧ x.interp.match_ = new.interp.match_)) :
    SameInterpKey x new = false := by
  rw [← SameInterpKey_iff] at h
  simpa using h

theorem scan_none_mem (new : SymInterpInfo) (l : List SymInterpInfo)
    (h : FindMatchingInterp.scan new l = none) :
    ∀ x ∈ l, SameInterpKey x new = false := by
  induction l with
  | nil => simp
  | cons y rest ih =>
    unfold FindMatchingInterp.scan at h
    by_cases hy : SameInterpKey y new = true
    · rw [if_pos hy] at h; simp at h
    · rw [if_neg hy] at h
      have hr : FindMatchingInterp.scan new rest = none := by
        cases hr : FindMatchingInterp.scan new rest with
        | none => rfl
        | some r => rw [hr] at h; simp at h
      intro x hx
      rcases List.mem_cons.mp hx with hx | hx
      · rw [hx]; simpa using hy
      · exact ih hr x hx

theorem useNew_augment (f d nd : Nat) :
    useNew f d nd MERGE_AUGMENT = decide (d &&& f = 0) := by
  unfold useNew
  simp

theorem defined_fill (d : Nat) :
    (((d ||| (if d &&& SI_FIELD_VIRTUAL_MOD = 0 then SI_FIELD_VIRTUAL_MOD else 0))
      ||| (if d &&& SI_FIELD_ACTION = 0 then SI_FIELD_ACTION else 0))
      ||| (if d &&& SI_FIELD_AUTO_REPEAT = 0 then SI_FIELD_AUTO_REPEAT else 0))
      ||| (if d &&& SI_FIELD_LEVEL_ONE_ONLY = 0 then SI_FIELD_LEVEL_ONE_ONLY else 0)
    = d ||| SI_FIELD_VIRTUAL_MOD ||| SI_FIELD_ACTION ||| SI_FIELD_AUTO_REPEAT
        ||| SI_FIELD_LEVEL_ONE_ONLY := by
  have e2 : d &&& SI_FIELD_ACTION = (d ||| SI_FIELD_VIRTUAL_MOD) &&& SI_FIELD_ACTION := by
    rw [Nat.and_distrib_right]
    show _ = _ ||| 0
    rw [Nat.or_zero]
  have e4 : d &&& SI_FIELD_AUTO_REPEAT
      = (d ||| SI_FIELD_VIRTUAL_MOD ||| SI_FIELD_ACTION) &&& SI_FIELD_AUTO_REPEAT := by
    rw [Nat.and_distrib_right, Nat.and_distrib_right]
    show _ = _ ||| 0 ||| 0
    rw [Nat.or_zero, Nat.or_zero]
  have e8 : d &&& SI_FIELD_LEVEL_ONE_ONLY
      = (d ||| SI_FIELD_VIRTUAL_MOD ||| SI_FIELD_ACTION ||| SI_FIELD_AUTO_REPEAT)
          &&& SI_FIELD_LEVEL_ONE_ONLY := by
    rw [Nat.and_distrib_right, Nat.and_distrib_right, Nat.and_distrib_right]
    show _ = _ ||| 0 ||| 0 ||| 0
    rw [Nat.or_zero, Nat.or_zero, Nat.or_zero]
  have s1 : d ||| (if d &&& SI_FIELD_VIRTUAL_MOD = 0 then SI_FIELD_VIRTUAL_MOD else 0)
      = d ||| SI_FIELD_VIRTUAL_MOD := or_bit_if d 0
  rw [s1, e2]
  have s2 : ∀ x : Nat, x ||| (if x &&& SI_FIELD_ACTION = 0 then SI_FIELD_ACTION else 0)
      = x ||| SI_FIELD_ACTION := fun x => or_bit_if x 1
  rw [s2, e4]
  have s4 : ∀ x : Nat,
      x ||| (if x &&& SI_FIELD_AUTO_REPEAT = 0 then SI_FIELD_AUTO_REPEAT else 0)
      = x ||| SI_FIELD_AUTO_REPEAT := fun x => or_bit_if x 2
  rw [s4, e8]
  exact or_bit_if _ 3

/-- After the field-by-field merge the record defines all four fields. -/
theorem mergeFields_defined (old new : SymInterpInfo) (report : Bool) :
    (AddInterp.mergeFields old new report).1.defined &&& SI_FIELD_VIRTUAL_MOD ≠ 0 ∧
    (AddInterp.mergeFields old new report).1.defined &&& SI_FIELD_ACTION ≠ 0 ∧
    (AddInterp.mergeFields old new report).1.defined &&& SI_FIELD_AUTO_REPEAT ≠ 0 ∧
    (AddInterp.mergeFields old new report).1.defined &&& SI_FIELD_LEVEL_ONE_ONLY ≠ 0 := by
  rw [mergeFields_fst]
  simp only
  have key : ∀ f : Nat, f &&& f ≠ 0 →
      (old.defined ||| (if useNew f old.defined new.defined new.merge then f else 0))
        &&& f ≠ 0 := by
    intro f hf
    cases hu : useNew f old.defined new.defined new.merge with
    | true =>
      rw [if_pos rfl]
      exact or_and_ne_zero_right _ _ _ hf
    | false =>
      apply or_and_ne_zero_left
      unfold useNew at hu
      have h := of_decide_eq_false hu
      exact fun h0 => h (Or.inl h0)
  refine ⟨?_, ?_, ?_, ?_⟩
  · apply or_and_ne_zero_left
    apply or_and_ne_zero_left
    apply or_and_ne_zero_left
    exact key SI_FIELD_VIRTUAL_MOD (by decide)
  · apply or_and_ne_zero_left
    apply or_and_ne_zero_left
    apply or_and_ne_zero_insert
    exact key SI_FIELD_ACTION (by decide)
  · apply or_and_ne_zero_left
    apply or_and_ne_zero_insert
    apply or_and_ne_zero_insert
    exact key SI_FIELD_AUTO_REPEAT (by decide)
  · apply or_and_ne_zero_insert
    apply or_and_ne_zero_insert
    apply or_and_ne_zero_insert
    exact key SI_FIELD_LEVEL_ONE_ONLY (by decide)

/-- Under AUGMENT the merge leaves a record that defines all four fields as it is. -/
theorem mergeFields_augment_fixed (x new : SymInterpInfo) (report : Bool)
    (hm : new.merge = MERGE_AUGMENT)
    (h1 : x.defined &&& SI_FIELD_VIRTUAL_MOD ≠ 0)
    (h2 : x.defined &&& SI_FIELD_ACTION ≠ 0)
    (h4 : x.defined &&& SI_FIELD_AUTO_REPEAT ≠ 0)
    (h8 : x.defined &&& SI_FIELD_LEVEL_ONE_ONLY ≠ 0) :
    (AddInterp.mergeFields x new report).1 = x := by
  rw [mergeFields_fst, hm]
  simp [useNew_augment, h1, h2, h4, h8]

theorem mergeFields_key (old new : SymInterpInfo) (report : Bool) :
    SameInterpKey (AddInterp.mergeFields old new report).1 new = SameInterpKey old new := by
  rw [mergeFields_fst]
  rfl

/-! ## Lemmas on the field-by-field merge of indicator maps -/

theorem UseNewLEDField_fst (field : Nat) (old new : LEDInfo) (report : Bool)
    (collide : Nat) :
    (UseNewLEDField field old new report collide).1
    = useNew field old.defined new.defined new.merge := by
  unfold UseNewLEDField useNew
  by_cases h1 : old.defined &&& field = 0
  · simp [h1]
  · by_cases h2 : new.defined &&& field = 0
    · simp [h1, h2]
    · by_cases h3 : new.merge = MERGE_AUGMENT
      · simp [h1, h2, h3]
      · simp [h1, h2, h3]

theorem useNew_led_1_2 (d nd : Nat) (m : merge_mode) :
    useNew LED_FIELD_GROUPS (d ||| LED_FIELD_MODS) nd m = useNew LED_FIELD_GROUPS d nd m :=
  useNew_or _ _ d nd m (by decide)

theorem useNew_led_1_4 (d nd : Nat) (m : merge_mode) :
    useNew LED_FIELD_CTRLS (d ||| LED_FIELD_MODS) nd m = useNew LED_FIELD_CTRLS d nd m :=
  useNew_or _ _ d nd m (by decide)

theorem useNew_led_2_4 (d nd : Nat) (m : merge_mode) :
    useNew LED_FIELD_CTRLS (d ||| LED_FIELD_GROUPS) nd m = useNew LED_FIELD_CTRLS d nd m :=
  useNew_or _ _ d nd m (by decide)

/-- The LED `AddIndicatorMap` leaves in the list after its field-by-field
merge, in terms of the records it was given. -/
theorem ledMergeFields_fst (old new : LEDInfo) (report : Bool) :
    (AddIndicatorMap.mergeFields old new report).1
    = { defined :=
          ((old.defined
            ||| (if useNew LED_FIELD_MODS old.defined new.defined new.merge
                  then LED_FIELD_MODS else 0))
            ||| (if useNew LED_FIELD_GROUPS old.defined new.defined new.merge
                  then LED_FIELD_GROUPS else 0))
            ||| (if useNew LED_FIELD_CTRLS old.defined new.defined new.merge
                  then LED_FIELD_CTRLS else 0),
        file_id := old.file_id,
        merge := old.merge,
        im :=
          { name := old.im.name,
            which_groups :=
              if useNew LED_FIELD_GROUPS old.defined new.defined new.merge
              then new.im.which_groups else old.im.which_groups,
            groups :=
              if useNew LED_FIELD_GROUPS old.defined new.defined new.merge
              then new.im.groups else old.im.groups,
            which_mods :=
              if useNew LED_FIELD_MODS old.defined new.defined new.merge
              then new.im.which_mods else old.im.which_mods,
            mods :=
              if useNew LED_FIELD_MODS old.defined new.defined new.merge
              then new.im.mods else old.im.mods,
            ctrls :=
              if useNew LED_FIELD_CTRLS old.defined new.defined new.merge
              then new.im.ctrls else old.im.ctrls } } := by
  unfold AddIndicatorMap.mergeFields
  simp only [UseNewLEDField_fst]
  cases h1 : useNew LED_FIELD_MODS old.defined new.defined new.merge <;>
  cases h2 : useNew LED_FIELD_GROUPS old.defined new.defined new.merge <;>
  cases h3 : useNew LED_FIELD_CTRLS old.defined new.defined new.merge <;>
  simp [h1, h2, h3, useNew_led_1_2, useNew_led_1_4, useNew_led_2_4]

theorem SameLEDFields_iff (old new : LEDInfo) :
    SameLEDFields old new = true ↔
      (old.im.mods.mods = new.im.mods.mods ∧ old.im.groups = new.im.groups ∧
        old.im.ctrls = new.im.ctrls ∧ old.im.which_mods = new.im.which_mods ∧
        old.im.which_groups = new.im.which_groups) := by
  unfold SameLEDFields
  simp [and_assoc]

/-- The LEDs `AddIndicatorMap` leaves when `old` is the first LED with the name
of the new one: the loop reaches `old` and returns from there. -/
theorem AddIndicatorMap_split (info : CompatInfo) (new old : LEDInfo)
    (pre post : List LEDInfo)
    (hl : info.leds = pre ++ old :: post)
    (hpre : ∀ x ∈ pre, x.im.name ≠ new.im.name)
    (hname : old.im.name = new.im.name) :
    (AddIndicatorMap info new).2.leds
    = pre ++
        (if SameLEDFields old new then { old with defined := old.defined ||| new.defined }
         else if new.merge = MERGE_REPLACE then new
         else (AddIndicatorMap.mergeFields old new
                ((old.file_id == new.file_id && decide (info.keymap.ctx.log_verbosity > 0))
                  || decide (info.keymap.ctx.log_verbosity > 9))).1) :: post := by
  unfold AddIndicatorMap
  rw [hl, loop_skip _ new pre (old :: post) hpre]
  unfold AddIndicatorMap.loop
  simp only [hname, ne_eq, not_true_eq_false, if_false]
  split_ifs <;> simp [CompatInfo.log]

/-! ## Properties of the copy of interprets -/

/-- C1: for a compat-info with a non-empty interpret list, the entries that
`CopyCompatToKeymap` appends to the keymap's `sym_interprets` are ordered by
bucket: for appended entries at positions i < j, rank (entry i) <= rank (entry j),
where the rank is the position of (sym != NoSymbol, match) in the sequence
(true, EXACTLY), (true, ALL), (true, NONE), (true, ANY), (true, ANY_OR_NONE),
(false, EXACTLY), ..., (false, ANY_OR_NONE); in particular no entry with NoSymbol
stands before an entry with a specific keysym. -/
theorem CopyCompatToKeymap_ordered_by_bucket (info : CompatInfo)
    (hne : info.interps ≠ []) :
    ∃ appended : List xkb_sym_interpret,
      (CopyCompatToKeymap info).2.keymap.sym_interprets
        = info.keymap.sym_interprets ++ appended ∧
      (∀ (i j : Nat) (hij : i < j) (hj : j < appended.length),
        rank (appended.get ⟨i, Nat.lt_trans hij hj⟩) ≤ rank (appended.get ⟨j, hj⟩)) ∧
      (∀ (i j : Nat) (hij : i < j) (hj : j < appended.length),
        (appended.get ⟨j, hj⟩).sym ≠ XKB_KEY_NoSymbol →
        (appended.get ⟨i, Nat.lt_trans hij hj⟩).sym ≠ XKB_KEY_NoSymbol) := by
  have _ := hne
  refine ⟨copyOrder.flatMap (bucketOf info), CopyCompatToKeymap_sym_interprets info, ?_⟩
  have hp := pairwise_rank_flatMap info copyOrder copyOrder_sorted
  rw [List.pairwise_iff_get] at hp
  have hr : ∀ (i j : Nat) (hij : i < j)
      (hj : j < (copyOrder.flatMap (bucketOf info)).length),
      rank ((copyOrder.flatMap (bucketOf info)).get ⟨i, Nat.lt_trans hij hj⟩)
        ≤ rank ((copyOrder.flatMap (bucketOf info)).get ⟨j, hj⟩) :=
    fun i j hij hj => hp ⟨i, Nat.lt_trans hij hj⟩ ⟨j, hj⟩ hij
  refine ⟨hr, ?_⟩
  intro i j hij hj hsym hno
  have hle := hr i j hij hj
  unfold rank bucketRank at hle
  rw [decide_eq_true hsym, decide_eq_false (not_not_intro hno)] at hle
  revert hle
  generalize ((copyOrder.flatMap (bucketOf info)).get ⟨i, Nat.lt_trans hij hj⟩).match_ = m1
  generalize ((copyOrder.flatMap (bucketOf info)).get ⟨j, hj⟩).match_ = m2
  cases m1 <;> cases m2 <;> decide

/-- Witness of C1 on `sampleInfo`. -/
theorem CopyCompatToKeymap_ordered_by_bucket_witness :
    sampleInfo.interps ≠ [] ∧
    ∃ appended : List xkb_sym_interpret,
      (CopyCompatToKeymap sampleInfo).2.keymap.sym_interprets
        = sampleInfo.keymap.sym_interprets ++ appended ∧
      (∀ (i j : Nat) (hij : i < j) (hj : j < appended.length),
        rank (appended.get ⟨i, Nat.lt_trans hij hj⟩) ≤ rank (appended.get ⟨j, hj⟩)) ∧
      (∀ (i j : Nat) (hij : i < j) (hj : j < appended.length),
        (appended.get ⟨j, hj⟩).sym ≠ XKB_KEY_NoSymbol →
        (appended.get ⟨i, Nat.lt_trans hij hj⟩).sym ≠ XKB_KEY_NoSymbol) :=
  ⟨by decide, CopyCompatToKeymap_ordered_by_bucket sampleInfo (by decide)⟩

/-- C2: the copy of interprets is stable. The entries `CopyCompatToKeymap`
appends, restricted to any one bucket (same has-symbol flag and same matching
operation), are exactly the interprets of the compat-info list restricted to
that bucket, in the same order; hence the same holds for the interprets with a
given keysym and matching operation, whatever their modifiers: the first one
declared comes first. -/
theorem CopyCompatToKeymap_stable (info : CompatInfo) :
    ∃ appended : List xkb_sym_interpret,
      (CopyCompatToKeymap info).2.keymap.sym_interprets
        = info.keymap.sym_interprets ++ appended ∧
      (∀ (needSymbol : Bool) (pred : xkb_match_operation),
        appended.filter (inBucket needSymbol pred)
          = (info.interps.map (fun si => si.interp)).filter (inBucket needSymbol pred)) ∧
      (∀ (sym : Nat) (pred : xkb_match_operation),
        appended.filter (fun e => e.sym == sym && e.match_ == pred)
          = (info.interps.map (fun si => si.interp)).filter
              (fun e => e.sym == sym && e.match_ == pred)) := by
  refine ⟨copyOrder.flatMap (bucketOf info), CopyCompatToKeymap_sym_interprets info, ?_⟩
  have hb : ∀ (needSymbol : Bool) (pred : xkb_match_operation),
      (copyOrder.flatMap (bucketOf info)).filter (inBucket needSymbol pred)
        = (info.interps.map (fun si => si.interp)).filter (inBucket needSymbol pred) :=
    fun needSymbol pred => filter_copyOrder info needSymbol pred
  refine ⟨hb, ?_⟩
  intro sym pred
  have hq : ∀ l : List xkb_sym_interpret,
      l.filter (fun e => e.sym == sym && e.match_ == pred)
      = (l.filter (inBucket (decide (sym ≠ XKB_KEY_NoSymbol)) pred)).filter
          (fun e => e.sym == sym && e.match_ == pred) := by
    intro l
    rw [List.filter_filter]
    apply List.filter_congr
    intro e _
    by_cases h1 : e.sym = sym <;> by_cases h2 : e.match_ = pred <;>
      simp [h1, h2, inBucket]
  rw [hq, hb, ← hq]

/-! ## Properties of the merge of interprets and indicator maps -/

/-- C4: when the new record has merge mode REPLACE and a record of the list
has the same (sym, mods, match) - `old` being the first such record - then after
`AddInterp` that record is the new record, in every interpret field and in its
`defined` bitmask; the list length and every other record are unchanged. -/
theorem AddInterp_replace (info : CompatInfo) (new old : SymInterpInfo)
    (pre post : List SymInterpInfo)
    (hl : info.interps = pre ++ old :: post)
    (hpre : ∀ x ∈ pre, ¬ (x.interp.sym = new.interp.sym ∧
      x.interp.mods = new.interp.mods ∧ x.interp.match_ = new.interp.match_))
    (hold : old.interp.sym = new.interp.sym ∧ old.interp.mods = new.interp.mods ∧
      old.interp.match_ = new.interp.match_)
    (hm : new.merge = MERGE_REPLACE) :
    ∃ stored : SymInterpInfo,
      (AddInterp info new).2.interps = pre ++ stored :: post ∧
      stored.interp.sym = new.interp.sym ∧
      stored.interp.match_ = new.interp.match_ ∧
      stored.interp.mods = new.interp.mods ∧
      stored.interp.virtual_mod = new.interp.virtual_mod ∧
      stored.interp.action = new.interp.action ∧
      stored.interp.level_one_only = new.interp.level_one_only ∧
      stored.interp.repeat_ = new.interp.repeat_ ∧
      stored.defined = new.defined ∧
      (AddInterp info new).2.interps.length = info.interps.length := by
  have hpre2 : ∀ x ∈ pre, SameInterpKey x new = false := by
    intro x hx
    have := hpre x hx
    rw [← SameInterpKey_iff] at this
    simpa using this
  have hold2 : SameInterpKey old new = true := (SameInterpKey_iff old new).mpr hold
  have hf : FindMatchingInterp info new = some (pre.length, old) := by
    unfold FindMatchingInterp
    rw [hl]
    exact scan_split new old pre post hpre2 hold2
  have hres : (AddInterp info new).2.interps = pre ++ new :: post := by
    unfold AddInterp
    rw [hf]
    simp only [hm, if_true]
    split_ifs <;> simp [CompatInfo.log, hl, set_split]
  refine ⟨new, hres, rfl, rfl, rfl, rfl, rfl, rfl, rfl, rfl, ?_⟩
  rw [hres, hl]
  simp

/-- Witness of C4: `sampleInterp` replaces the third record of `sampleInfo`. -/
theorem AddInterp_replace_witness :
    ∃ stored : SymInterpInfo,
      (AddInterp sampleInfo sampleInterp).2.interps
        = sampleInfo.interps.take 2 ++ stored :: [] ∧
      stored.interp.sym = sampleInterp.interp.sym ∧
      stored.interp.match_ = sampleInterp.interp.match_ ∧
      stored.interp.mods = sampleInterp.interp.mods ∧
      stored.interp.virtual_mod = sampleInterp.interp.virtual_mod ∧
      stored.interp.action = sampleInterp.interp.action ∧
      stored.interp.level_one_only = sampleInterp.interp.level_one_only ∧
      stored.interp.repeat_ = sampleInterp.interp.repeat_ ∧
      stored.defined = sampleInterp.defined ∧
      (AddInterp sampleInfo sampleInterp).2.interps.length = sampleInfo.interps.length :=
  AddInterp_replace sampleInfo sampleInterp sampleThird
    (sampleInfo.interps.take 2) [] (by decide) (by decide) (by decide) (by decide)

/-- C3, counterexample: on `sampleInfo`, which holds no record with the key of
`augmentInterp`, the first `AddInterp` appends the record with `defined` = 2
(action only) and the second call, under AUGMENT, raises its `defined` to 15:
the list after two calls differs from the list after one. -/
theorem AddInterp_augment_twice_differs :
    augmentInterp.merge = MERGE_AUGMENT ∧
    (AddInterp (AddInterp sampleInfo augmentInterp).2 augmentInterp).2.interps
      ≠ (AddInterp sampleInfo augmentInterp).2.interps ∧
    ((AddInterp sampleInfo augmentInterp).2.interps.map (fun si => si.defined)
      = [2, 2, 3, 2]) ∧
    ((AddInterp (AddInterp sampleInfo augmentInterp).2 augmentInterp).2.interps.map
      (fun si => si.defined) = [2, 2, 3, 15]) := by
  decide

/-- C3, amended: under AUGMENT, calling `AddInterp` twice with the same record
leaves the same records in the same order as calling it once, with the same
interpret fields, `file_id` and `merge`. The `defined` masks are the same too
when the list already held a record with the key (sym, mods, match) of the new
record; when it held none, the first call appends the record as given and the
second call sets the four field bits in the `defined` mask of that record. -/
theorem AddInterp_augment_twice (info : CompatInfo) (new : SymInterpInfo)
    (hm : new.merge = MERGE_AUGMENT) :
    ((AddInterp (AddInterp info new).2 new).2.interps.map
        (fun si => (si.interp, si.file_id, si.merge))
      = (AddInterp info new).2.interps.map (fun si => (si.interp, si.file_id, si.merge))) ∧
    (FindMatchingInterp info new ≠ none →
      (AddInterp (AddInterp info new).2 new).2.interps = (AddInterp info new).2.interps) ∧
    (FindMatchingInterp info new = none →
      (AddInterp info new).2.interps = info.interps ++ [new] ∧
      (AddInterp (AddInterp info new).2 new).2.interps
        = info.interps ++
          [{ new with defined := new.defined ||| SI_FIELD_VIRTUAL_MOD ||| SI_FIELD_ACTION
                                  ||| SI_FIELD_AUTO_REPEAT ||| SI_FIELD_LEVEL_ONE_ONLY }]) := by
  have hrep : new.merge ≠ MERGE_REPLACE := by rw [hm]; decide
  have hself : SameInterpKey new new = true := by simp [SameInterpKey]
  cases hf : FindMatchingInterp info new with
  | none =>
    have hpre : ∀ x ∈ info.interps, SameInterpKey x new = false :=
      scan_none_mem new info.interps hf
    have honce : (AddInterp info new).2.interps = info.interps ++ [new] := by
      unfold AddInterp
      rw [hf]
    obtain ⟨report, htw⟩ := AddInterp_merge_split (AddInterp info new).2 new new
      info.interps [] honce hpre hself hrep
    have hmf : (AddInterp.mergeFields new new report).1
        = { new with defined := new.defined ||| SI_FIELD_VIRTUAL_MOD ||| SI_FIELD_ACTION
                                  ||| SI_FIELD_AUTO_REPEAT ||| SI_FIELD_LEVEL_ONE_ONLY } := by
      rw [mergeFields_fst, hm]
      simp only [useNew_augment, decide_eq_true_eq, ite_self]
      rw [defined_fill]
    rw [hmf] at htw
    refine ⟨?_, ?_, ?_⟩
    · rw [htw, honce]
      simp
    · intro h
      exact absurd rfl h
    · intro _
      exact ⟨honce, htw⟩
  | some r =>
    obtain ⟨pre, post, hl, _, hpre, hold⟩ := scan_some new info.interps r.1 r.2 hf
    obtain ⟨r1, honce⟩ := AddInterp_merge_split info new r.2 pre post hl hpre hold hrep
    have hkey : SameInterpKey (AddInterp.mergeFields r.2 new r1).1 new = true := by
      rw [mergeFields_key]
      exact hold
    obtain ⟨r2, htw⟩ := AddInterp_merge_split (AddInterp info new).2 new
      (AddInterp.mergeFields r.2 new r1).1 pre post honce hpre hkey hrep
    have hd := mergeFields_defined r.2 new r1
    rw [mergeFields_augment_fixed _ new r2 hm hd.1 hd.2.1 hd.2.2.1 hd.2.2.2] at htw
    have heq : (AddInterp (AddInterp info new).2 new).2.interps
        = (AddInterp info new).2.interps := by
      rw [htw, honce]
    refine ⟨?_, ?_, ?_⟩
    · rw [heq]
    · intro _
      exact heq
    · intro h
      exact absurd h (by simp)

/-- Witness of the amended C3: on `sampleInfo`, `augmentInterp` finds no record
with its key, and `mergeInterp MERGE_AUGMENT` finds the third record. -/
theorem AddInterp_augment_twice_witness :
    (((AddInterp (AddInterp sampleInfo augmentInterp).2 augmentInterp).2.interps.map
        (fun si => (si.interp, si.file_id, si.merge))
      = (AddInterp sampleInfo augmentInterp).2.interps.map
          (fun si => (si.interp, si.file_id, si.merge))) ∧
     (AddInterp sampleInfo augmentInterp).2.interps
        = sampleInfo.interps ++ [augmentInterp] ∧
     (AddInterp (AddInterp sampleInfo augmentInterp).2 augmentInterp).2.interps
        = sampleInfo.interps ++
          [{ augmentInterp with
              defined := augmentInterp.defined ||| SI_FIELD_VIRTUAL_MOD ||| SI_FIELD_ACTION
                          ||| SI_FIELD_AUTO_REPEAT ||| SI_FIELD_LEVEL_ONE_ONLY }]) ∧
    ((AddInterp (AddInterp sampleInfo (mergeInterp MERGE_AUGMENT)).2
        (mergeInterp MERGE_AUGMENT)).2.interps
      = (AddInterp sampleInfo (mergeInterp MERGE_AUGMENT)).2.interps) :=
  ⟨⟨(AddInterp_augment_twice sampleInfo augmentInterp (by decide)).1,
    (AddInterp_augment_twice sampleInfo augmentInterp (by decide)).2.2 (by decide)⟩,
   (AddInterp_augment_twice sampleInfo (mergeInterp MERGE_AUGMENT) (by decide)).2.1
    (by decide)⟩

/-- C6: when `AddInterp` finds a record with the same (sym, mods, match) - `old`
being the first such record - and the merge mode of the new record is neither
REPLACE nor AUGMENT, then for each of the fields virtual_mod, action, repeat
and level_one_only the value stored afterwards is the value of the new record
if the old record did not define the field or the new record defines it (so
also when both define it), and the old value when only the old record defines
the field. -/
theorem AddInterp_override_fields (info : CompatInfo) (new old : SymInterpInfo)
    (pre post : List SymInterpInfo)
    (hl : info.interps = pre ++ old :: post)
    (hpre : ∀ x ∈ pre, ¬ (x.interp.sym = new.interp.sym ∧
      x.interp.mods = new.interp.mods ∧ x.interp.match_ = new.interp.match_))
    (hold : old.interp.sym = new.interp.sym ∧ old.interp.mods = new.interp.mods ∧
      old.interp.match_ = new.interp.match_)
    (hrep : new.merge ≠ MERGE_REPLACE) (haug : new.merge ≠ MERGE_AUGMENT) :
    ∃ stored : SymInterpInfo,
      (AddInterp info new).2.interps = pre ++ stored :: post ∧
      stored.interp.virtual_mod
        = (if old.defined &&& SI_FIELD_VIRTUAL_MOD = 0 ∨
              new.defined &&& SI_FIELD_VIRTUAL_MOD ≠ 0
           then new.interp.virtual_mod else old.interp.virtual_mod) ∧
      stored.interp.action
        = (if old.defined &&& SI_FIELD_ACTION = 0 ∨ new.defined &&& SI_FIELD_ACTION ≠ 0
           then new.interp.action else old.interp.action) ∧
      stored.interp.repeat_
        = (if old.defined &&& SI_FIELD_AUTO_REPEAT = 0 ∨
              new.defined &&& SI_FIELD_AUTO_REPEAT ≠ 0
           then new.interp.repeat_ else old.interp.repeat_) ∧
      stored.interp.level_one_only
        = (if old.defined &&& SI_FIELD_LEVEL_ONE_ONLY = 0 ∨
              new.defined &&& SI_FIELD_LEVEL_ONE_ONLY ≠ 0
           then new.interp.level_one_only else old.interp.level_one_only) := by
  obtain ⟨report, h⟩ := AddInterp_merge_split info new old pre post hl
    (fun x hx => not_SameInterpKey_of_not x new (hpre x hx))
    ((SameInterpKey_iff old new).mpr hold) hrep
  refine ⟨(AddInterp.mergeFields old new report).1, h, ?_⟩
  rw [mergeFields_fst]
  simp [useNew, haug]

/-- Witness of C6: `mergeInterp MERGE_OVERRIDE` (defining the virtual modifier
and level-one-only) meets the third record of `sampleInfo` (defining the virtual
modifier and the action). -/
theorem AddInterp_override_fields_witness :
    ∃ stored : SymInterpInfo,
      (AddInterp sampleInfo (mergeInterp MERGE_OVERRIDE)).2.interps
        = sampleInfo.interps.take 2 ++ stored :: [] ∧
      stored.interp.virtual_mod
        = (if sampleThird.defined &&& SI_FIELD_VIRTUAL_MOD = 0 ∨
              (mergeInterp MERGE_OVERRIDE).defined &&& SI_FIELD_VIRTUAL_MOD ≠ 0
           then (mergeInterp MERGE_OVERRIDE).interp.virtual_mod
           else sampleThird.interp.virtual_mod) ∧
      stored.interp.action
        = (if sampleThird.defined &&& SI_FIELD_ACTION = 0 ∨
              (mergeInterp MERGE_OVERRIDE).defined &&& SI_FIELD_ACTION ≠ 0
           then (mergeInterp MERGE_OVERRIDE).interp.action
           else sampleThird.interp.action) ∧
      stored.interp.repeat_
        = (if sampleThird.defined &&& SI_FIELD_AUTO_REPEAT = 0 ∨
              (mergeInterp MERGE_OVERRIDE).defined &&& SI_FIELD_AUTO_REPEAT ≠ 0
           then (mergeInterp MERGE_OVERRIDE).interp.repeat_
           else sampleThird.interp.repeat_) ∧
      stored.interp.level_one_only
        = (if sampleThird.defined &&& SI_FIELD_LEVEL_ONE_ONLY = 0 ∨
              (mergeInterp MERGE_OVERRIDE).defined &&& SI_FIELD_LEVEL_ONE_ONLY ≠ 0
           then (mergeInterp MERGE_OVERRIDE).interp.level_one_only
           else sampleThird.interp.level_one_only) :=
  AddInterp_override_fields sampleInfo (mergeInterp MERGE_OVERRIDE) sampleThird
    (sampleInfo.interps.take 2) [] (by decide) (by decide) (by decide)
    (by decide) (by decide)

/-- C7: when `AddInterp` finds a record with the same (sym, mods, match) - `old`
being the first such record - and the merge mode of the new record is AUGMENT,
every field (virtual_mod, action, repeat, level_one_only) the old record had
defined keeps its old value, and a field the old record had not defined takes
the value of the new record. -/
theorem AddInterp_augment_fields (info : CompatInfo) (new old : SymInterpInfo)
    (pre post : List SymInterpInfo)
    (hl : info.interps = pre ++ old :: post)
    (hpre : ∀ x ∈ pre, ¬ (x.interp.sym = new.interp.sym ∧
      x.interp.mods = new.interp.mods ∧ x.interp.match_ = new.interp.match_))
    (hold : old.interp.sym = new.interp.sym ∧ old.interp.mods = new.interp.mods ∧
      old.interp.match_ = new.interp.match_)
    (haug : new.merge = MERGE_AUGMENT) :
    ∃ stored : SymInterpInfo,
      (AddInterp info new).2.interps = pre ++ stored :: post ∧
      stored.interp.virtual_mod
        = (if old.defined &&& SI_FIELD_VIRTUAL_MOD ≠ 0
           then old.interp.virtual_mod else new.interp.virtual_mod) ∧
      stored.interp.action
        = (if old.defined &&& SI_FIELD_ACTION ≠ 0
           then old.interp.action else new.interp.action) ∧
      stored.interp.repeat_
        = (if old.defined &&& SI_FIELD_AUTO_REPEAT ≠ 0
           then old.interp.repeat_ else new.interp.repeat_) ∧
      stored.interp.level_one_only
        = (if old.defined &&& SI_FIELD_LEVEL_ONE_ONLY ≠ 0
           then old.interp.level_one_only else new.interp.level_one_only) := by
  have hrep : new.merge ≠ MERGE_REPLACE := by rw [haug]; decide
  obtain ⟨report, h⟩ := AddInterp_merge_split info new old pre post hl
    (fun x hx => not_SameInterpKey_of_not x new (hpre x hx))
    ((SameInterpKey_iff old new).mpr hold) hrep
  refine ⟨(AddInterp.mergeFields old new report).1, h, ?_⟩
  rw [mergeFields_fst, haug]
  simp only [useNew_augment, decide_eq_true_eq, ite_not, and_self]

/-- Witness of C7: `mergeInterp MERGE_AUGMENT` meets the third record of
`sampleInfo`. -/
theorem AddInterp_augment_fields_witness :
    ∃ stored : SymInterpInfo,
      (AddInterp sampleInfo (mergeInterp MERGE_AUGMENT)).2.interps
        = sampleInfo.interps.take 2 ++ stored :: [] ∧
      stored.interp.virtual_mod
        = (if sampleThird.defined &&& SI_FIELD_VIRTUAL_MOD ≠ 0
           then sampleThird.interp.virtual_mod
           else (mergeInterp MERGE_AUGMENT).interp.virtual_mod) ∧
      stored.interp.action
        = (if sampleThird.defined &&& SI_FIELD_ACTION ≠ 0
           then sampleThird.interp.action
           else (mergeInterp MERGE_AUGMENT).interp.action) ∧
      stored.interp.repeat_
        = (if sampleThird.defined &&& SI_FIELD_AUTO_REPEAT ≠ 0
           then sampleThird.interp.repeat_
           else (mergeInterp MERGE_AUGMENT).interp.repeat_) ∧
      stored.interp.level_one_only
        = (if sampleThird.defined &&& SI_FIELD_LEVEL_ONE_ONLY ≠ 0
           then sampleThird.interp.level_one_only
           else (mergeInterp MERGE_AUGMENT).interp.level_one_only) :=
  AddInterp_augment_fields sampleInfo (mergeInterp MERGE_AUGMENT) sampleThird
    (sampleInfo.interps.take 2) [] (by decide) (by decide) (by decide) (by decide)

/-- C8: when no record of the interpret list has the same (sym, mods, match) as
the new record, `AddInterp` appends the new record unchanged as the last
element and leaves the existing records as they are (new list = old list ++
[new]); likewise `AddIndicatorMap` appends the new LED when no LED of the list
has its name. -/
theorem Add_appends_when_absent (info : CompatInfo) (new : SymInterpInfo)
    (newLed : LEDInfo) :
    ((∀ x ∈ info.interps, ¬ (x.interp.sym = new.interp.sym ∧
        x.interp.mods = new.interp.mods ∧ x.interp.match_ = new.interp.match_)) →
      (AddInterp info new).2.interps = info.interps ++ [new]) ∧
    ((∀ x ∈ info.leds, x.im.name ≠ newLed.im.name) →
      (AddIndicatorMap info newLed).2.leds = info.leds ++ [newLed]) := by
  constructor
  · intro h
    have hf : FindMatchingInterp info new = none :=
      scan_none new info.interps (fun x hx => not_SameInterpKey_of_not x new (h x hx))
    unfold AddInterp
    rw [hf]
  · intro h
    unfold AddIndicatorMap
    rw [loop_none info.keymap.ctx.log_verbosity newLed info.leds h]

/-- Witness of C8: neither the key of `augmentInterp` nor the name of `freshLed`
occurs in `sampleInfo`. -/
theorem Add_appends_when_absent_witness :
    (AddInterp sampleInfo augmentInterp).2.interps = sampleInfo.interps ++ [augmentInterp] ∧
    (AddIndicatorMap sampleInfo freshLed).2.leds = sampleInfo.leds ++ [freshLed] :=
  ⟨(Add_appends_when_absent sampleInfo augmentInterp freshLed).1 (by decide),
   (Add_appends_when_absent sampleInfo augmentInterp freshLed).2 (by decide)⟩

/-- C5: when the new LED record has merge mode REPLACE and an LED of the list
has its name - `old` being the first such LED - then after `AddIndicatorMap`
the map fields of that LED (name, mods, which_mods, groups, which_groups, ctrls)
equal those of the new record, whether or not the two records had equal map
fields before, and the length of the LED list is unchanged. -/
theorem AddIndicatorMap_replace (info : CompatInfo) (new old : LEDInfo)
    (pre post : List LEDInfo)
    (hl : info.leds = pre ++ old :: post)
    (hpre : ∀ x ∈ pre, x.im.name ≠ new.im.name)
    (hname : old.im.name = new.im.name)
    (hm : new.merge = MERGE_REPLACE) :
    ∃ stored : LEDInfo,
      (AddIndicatorMap info new).2.leds = pre ++ stored :: post ∧
      stored.im.name = new.im.name ∧
      stored.im.mods.mods = new.im.mods.mods ∧
      stored.im.which_mods = new.im.which_mods ∧
      stored.im.groups = new.im.groups ∧
      stored.im.which_groups = new.im.which_groups ∧
      stored.im.ctrls = new.im.ctrls ∧
      (AddIndicatorMap info new).2.leds.length = info.leds.length := by
  have h := AddIndicatorMap_split info new old pre post hl hpre hname
  have hlen : (AddIndicatorMap info new).2.leds.length = info.leds.length := by
    rw [h, hl]
    simp
  by_cases hs : SameLEDFields old new = true
  · rw [if_pos hs] at h
    have he := (SameLEDFields_iff old new).mp hs
    exact ⟨_, h, hname, he.1, he.2.2.2.1, he.2.1, he.2.2.2.2, he.2.2.1, hlen⟩
  · rw [if_neg hs, if_pos hm] at h
    exact ⟨_, h, rfl, rfl, rfl, rfl, rfl, rfl, hlen⟩

/-- Witness of C5: `mergeLed MERGE_REPLACE` replaces the LED of `sampleInfo`. -/
theorem AddIndicatorMap_replace_witness :
    ∃ stored : LEDInfo,
      (AddIndicatorMap sampleInfo (mergeLed MERGE_REPLACE)).2.leds = [] ++ stored :: [] ∧
      stored.im.name = (mergeLed MERGE_REPLACE).im.name ∧
      stored.im.mods.mods = (mergeLed MERGE_REPLACE).im.mods.mods ∧
      stored.im.which_mods = (mergeLed MERGE_REPLACE).im.which_mods ∧
      stored.im.groups = (mergeLed MERGE_REPLACE).im.groups ∧
      stored.im.which_groups = (mergeLed MERGE_REPLACE).im.which_groups ∧
      stored.im.ctrls = (mergeLed MERGE_REPLACE).im.ctrls ∧
      (AddIndicatorMap sampleInfo (mergeLed MERGE_REPLACE)).2.leds.length
        = sampleInfo.leds.length :=
  AddIndicatorMap_replace sampleInfo (mergeLed MERGE_REPLACE) sampleLed [] []
    (by decide) (by decide) (by decide) (by decide)

/-- C9: when `AddIndicatorMap` finds an LED with the name of the new one - `old`
being the first such LED - that differs from the new one in some map field (mods,
groups, ctrls, which_mods, which_groups), and the merge mode is not REPLACE,
then each field group - (mods, which_mods) under MODS, (groups, which_groups)
under GROUPS, ctrls under CTRLS - takes the values of the new record when the
old record did not define the group or (the new record defines it and the merge
mode is not AUGMENT), and keeps the old values otherwise; which_mods goes with
mods and which_groups with groups. -/
theorem AddIndicatorMap_merge_fields (info : CompatInfo) (new old : LEDInfo)
    (pre post : List LEDInfo)
    (hl : info.leds = pre ++ old :: post)
    (hpre : ∀ x ∈ pre, x.im.name ≠ new.im.name)
    (hname : old.im.name = new.im.name)
    (hdiff : ¬ (old.im.mods.mods = new.im.mods.mods ∧ old.im.groups = new.im.groups ∧
      old.im.ctrls = new.im.ctrls ∧ old.im.which_mods = new.im.which_mods ∧
      old.im.which_groups = new.im.which_groups))
    (hrep : new.merge ≠ MERGE_REPLACE) :
    ∃ stored : LEDInfo,
      (AddIndicatorMap info new).2.leds = pre ++ stored :: post ∧
      stored.im.name = old.im.name ∧
      (stored.im.mods.mods, stored.im.which_mods)
        = (if old.defined &&& LED_FIELD_MODS = 0 ∨
              (new.defined &&& LED_FIELD_MODS ≠ 0 ∧ new.merge ≠ MERGE_AUGMENT)
           then (new.im.mods.mods, new.im.which_mods)
           else (old.im.mods.mods, old.im.which_mods)) ∧
      (stored.im.groups, stored.im.which_groups)
        = (if old.defined &&& LED_FIELD_GROUPS = 0 ∨
              (new.defined &&& LED_FIELD_GROUPS ≠ 0 ∧ new.merge ≠ MERGE_AUGMENT)
           then (new.im.groups, new.im.which_groups)
           else (old.im.groups, old.im.which_groups)) ∧
      stored.im.ctrls
        = (if old.defined &&& LED_FIELD_CTRLS = 0 ∨
              (new.defined &&& LED_FIELD_CTRLS ≠ 0 ∧ new.merge ≠ MERGE_AUGMENT)
           then new.im.ctrls else old.im.ctrls) := by
  have h := AddIndicatorMap_split info new old pre post hl hpre hname
  have hs : ¬ (SameLEDFields old new = true) := by
    rw [SameLEDFields_iff]
    exact hdiff
  rw [if_neg hs, if_neg hrep] at h
  refine ⟨_, h, ?_⟩
  rw [ledMergeFields_fst]
  refine ⟨rfl, ?_, ?_, ?_⟩
  · simp only [useNew, decide_eq_true_eq]
    split_ifs <;> rfl
  · simp only [useNew, decide_eq_true_eq]
    split_ifs <;> rfl
  · simp only [useNew, decide_eq_true_eq]

/-- Witness of C9: `mergeLed MERGE_AUGMENT` (defining the modifiers and the
controls) meets the LED of `sampleInfo` (defining the modifiers). -/
theorem AddIndicatorMap_merge_fields_witness :
    ∃ stored : LEDInfo,
      (AddIndicatorMap sampleInfo (mergeLed MERGE_AUGMENT)).2.leds = [] ++ stored :: [] ∧
      stored.im.name = sampleLed.im.name ∧
      (stored.im.mods.mods, stored.im.which_mods)
        = (if sampleLed.defined &&& LED_FIELD_MODS = 0 ∨
              ((mergeLed MERGE_AUGMENT).defined &&& LED_FIELD_MODS ≠ 0 ∧
                (mergeLed MERGE_AUGMENT).merge ≠ MERGE_AUGMENT)
           then ((mergeLed MERGE_AUGMENT).im.mods.mods, (mergeLed MERGE_AUGMENT).im.which_mods)
           else (sampleLed.im.mods.mods, sampleLed.im.which_mods)) ∧
      (stored.im.groups, stored.im.which_groups)
        = (if sampleLed.defined &&& LED_FIELD_GROUPS = 0 ∨
              ((mergeLed MERGE_AUGMENT).defined &&& LED_FIELD_GROUPS ≠ 0 ∧
                (mergeLed MERGE_AUGMENT).merge ≠ MERGE_AUGMENT)
           then ((mergeLed MERGE_AUGMENT).im.groups, (mergeLed MERGE_AUGMENT).im.which_groups)
           else (sampleLed.im.groups, sampleLed.im.which_groups)) ∧
      stored.im.ctrls
        = (if sampleLed.defined &&& LED_FIELD_CTRLS = 0 ∨
              ((mergeLed MERGE_AUGMENT).defined &&& LED_FIELD_CTRLS ≠ 0 ∧
                (mergeLed MERGE_AUGMENT).merge ≠ MERGE_AUGMENT)
           then (mergeLed MERGE_AUGMENT).im.ctrls else sampleLed.im.ctrls) :=
  AddIndicatorMap_merge_fields sampleInfo (mergeLed MERGE_AUGMENT) sampleLed [] []
    (by decide) (by decide) (by decide) (by decide) (by decide)

/-- C10: the fast path of `AddIndicatorMap`. When the first LED with the name of
the new one has equal mods, groups, ctrls, which_mods and which_groups,
`AddIndicatorMap` returns true and changes nothing in the compat-info except
the `defined` mask of that LED, which becomes the union of the old and the new
mask; the merge mode of the new record plays no part. -/
theorem AddIndicatorMap_fast_path (info : CompatInfo) (new old : LEDInfo)
    (pre post : List LEDInfo)
    (hl : info.leds = pre ++ old :: post)
    (hpre : ∀ x ∈ pre, x.im.name ≠ new.im.name)
    (hname : old.im.name = new.im.name)
    (hmods : old.im.mods.mods = new.im.mods.mods)
    (hgroups : old.im.groups = new.im.groups)
    (hctrls : old.im.ctrls = new.im.ctrls)
    (hwm : old.im.which_mods = new.im.which_mods)
    (hwg : old.im.which_groups = new.im.which_groups) :
    AddIndicatorMap info new
    = (true, { info with
        leds := pre ++ { old with defined := old.defined ||| new.defined } :: post }) := by
  have hs : SameLEDFields old new = true :=
    (SameLEDFields_iff old new).mpr ⟨hmods, hgroups, hctrls, hwm, hwg⟩
  unfold AddIndicatorMap
  rw [hl, loop_skip _ new pre (old :: post) hpre]
  unfold AddIndicatorMap.loop
  simp [hname, hs, CompatInfo.log]

/-- Witness of C10: `sameLed MERGE_REPLACE` has the name and the map fields of
the LED of `sampleInfo`. -/
theorem AddIndicatorMap_fast_path_witness :
    AddIndicatorMap sampleInfo (sameLed MERGE_REPLACE)
    = (true, { sampleInfo with
        leds := [] ++ { sampleLed with
          defined := sampleLed.defined ||| (sameLed MERGE_REPLACE).defined } :: [] }) :=
  AddIndicatorMap_fast_path sampleInfo (sameLed MERGE_REPLACE) sampleLed [] []
    (by decide) (by decide) (by decide) (by decide) (by decide) (by decide) (by decide)
    (by decide)

/-! ## Lemmas on the copy of indicator maps -/

theorem findIdx_split {α : Type} (p : α → Bool) (pre post : List α) (a : α)
    (hpre : ∀ x ∈ pre, p x = false) (ha : p a = true) :
    (pre ++ a :: post).findIdx p = pre.length := by
  induction pre with
  | nil => simp [List.findIdx_cons, ha]
  | cons x rest ih =>
    have hx : p x = false := hpre x (by simp)
    have hr := ih (fun y hy => hpre y (by simp [hy]))
    simp [List.findIdx_cons, hx, hr]

theorem findIdx_none {α : Type} (p : α → Bool) (l : List α)
    (h : ∀ x ∈ l, p x = false) :
    l.findIdx p = l.length := by
  induction l with
  | nil => rfl
  | cons x rest ih =>
    have hx : p x = false := h x (by simp)
    have hr := ih (fun y hy => h y (by simp [hy]))
    simp [List.findIdx_cons, hx, hr]

/-- The first case of the loop body of `CopyIndicatorMapDefs`: a slot with the
name of the LED exists. -/
theorem step_named (keymap : xkb_keymap) (led : LEDInfo)
    (pre post : List xkb_indicator_map) (slot : xkb_indicator_map)
    (hl : keymap.indicators = pre ++ slot :: post)
    (hpre : ∀ x ∈ pre, x.name ≠ led.im.name) (hslot : slot.name = led.im.name) :
    CopyIndicatorMapDefs.step keymap led
    = { keymap with indicators := pre ++ CopyIndicatorMapDefs.stored led.im :: post } := by
  have hi : keymap.indicators.findIdx (fun im => im.name == led.im.name) = pre.length := by
    rw [hl]
    apply findIdx_split
    · intro x hx
      simpa using hpre x hx
    · simpa using hslot
  unfold CopyIndicatorMapDefs.step
  simp only [hi]
  have hlt : ¬ (pre.length ≥ keymap.indicators.length) := by
    rw [hl]
    simp
  rw [if_neg hlt, hl, set_split]

/-- The second case: no slot has the name of the LED, and an empty slot exists. -/
theorem step_empty (keymap : xkb_keymap) (led : LEDInfo)
    (pre post : List xkb_indicator_map) (slot : xkb_indicator_map)
    (hno : ∀ x ∈ keymap.indicators, x.name ≠ led.im.name)
    (hl : keymap.indicators = pre ++ slot :: post)
    (hpre : ∀ x ∈ pre, x.name ≠ XKB_ATOM_NONE) (hslot : slot.name = XKB_ATOM_NONE) :
    CopyIndicatorMapDefs.step keymap led
    = { keymap with
        ctx := { keymap.ctx with
          log := keymap.ctx.log ++ [log_entry.led_not_declared led.im.name] },
        indicators := pre ++ CopyIndicatorMapDefs.stored led.im :: post } := by
  have hi : keymap.indicators.findIdx (fun im => im.name == led.im.name)
      = keymap.indicators.length := by
    apply findIdx_none
    intro x hx
    simpa using hno x hx
  have hj : keymap.indicators.findIdx (fun im => im.name == XKB_ATOM_NONE) = pre.length := by
    rw [hl]
    apply findIdx_split
    · intro x hx
      simpa using hpre x hx
    · simpa using hslot
  unfold CopyIndicatorMapDefs.step
  simp only [hi, hj, ge_iff_le, le_refl, if_true]
  have hlt : ¬ (keymap.indicators.length ≤ pre.length) := by
    rw [hl]
    simp
  rw [if_neg hlt, hl, set_split]

/-- The third case: no slot has the name of the LED and no slot is empty. -/
theorem step_full (keymap : xkb_keymap) (led : LEDInfo)
    (hno : ∀ x ∈ keymap.indicators, x.name ≠ led.im.name)
    (hne : ∀ x ∈ keymap.indicators, x.name ≠ XKB_ATOM_NONE) :
    CopyIndicatorMapDefs.step keymap led
    = if keymap.indicators.length ≥ XKB_MAX_LEDS then
        { keymap with ctx := { keymap.ctx with
            log := keymap.ctx.log ++ [log_entry.led_not_declared led.im.name,
                                      log_entry.led_too_many led.im.name] } }
      else
        { keymap with
          ctx := { keymap.ctx with
            log := keymap.ctx.log ++ [log_entry.led_not_declared led.im.name] },
          indicators := keymap.indicators ++ [CopyIndicatorMapDefs.stored led.im] } := by
  have hi : keymap.indicators.findIdx (fun im => im.name == led.im.name)
      = keymap.indicators.length := by
    apply findIdx_none
    intro x hx
    simpa using hno x hx
  have hj : keymap.indicators.findIdx (fun im => im.name == XKB_ATOM_NONE)
      = keymap.indicators.length := by
    apply findIdx_none
    intro x hx
    simpa using hne x hx
  unfold CopyIndicatorMapDefs.step
  simp only [hi, hj, ge_iff_le, le_refl, if_true]
  split_ifs <;> simp

theorem CopyIndicatorMapDefs_snoc (info : CompatInfo) (done : List LEDInfo)
    (led : LEDInfo) :
    (CopyIndicatorMapDefs { info with leds := done ++ [led] }).keymap
    = CopyIndicatorMapDefs.step (CopyIndicatorMapDefs { info with leds := done }).keymap led := by
  unfold CopyIndicatorMapDefs
  simp [List.foldl_append]

theorem step_length_le (keymap : xkb_keymap) (led : LEDInfo)
    (h : keymap.indicators.length ≤ XKB_MAX_LEDS) :
    (CopyIndicatorMapDefs.step keymap led).indicators.length ≤ XKB_MAX_LEDS := by
  unfold CopyIndicatorMapDefs.step
  simp only
  split_ifs with h1 h2 h3
  · exact h
  · simp only [List.length_append, List.length_singleton]
    have h4 : keymap.indicators.findIdx (fun im => im.name == XKB_ATOM_NONE)
        ≤ keymap.indicators.length := List.findIdx_le_length _
    omega
  · simpa using h
  · simpa using h

theorem CopyIndicatorMapDefs_length_le (leds : List LEDInfo) (keymap : xkb_keymap)
    (h : keymap.indicators.length ≤ XKB_MAX_LEDS) :
    (leds.foldl CopyIndicatorMapDefs.step keymap).indicators.length ≤ XKB_MAX_LEDS := by
  induction leds generalizing keymap with
  | nil => exact h
  | cons led rest ih =>
    rw [List.foldl_cons]
    exact ih _ (step_length_le keymap led h)

theorem stored_fields (im : xkb_indicator_map) :
    (CopyIndicatorMapDefs.stored im).name = im.name ∧
    (CopyIndicatorMapDefs.stored im).mods = im.mods ∧
    (CopyIndicatorMapDefs.stored im).groups = im.groups ∧
    (CopyIndicatorMapDefs.stored im).ctrls = im.ctrls ∧
    (CopyIndicatorMapDefs.stored im).which_groups
      = (if im.groups ≠ 0 ∧ im.which_groups = 0 then XKB_STATE_LAYOUT_EFFECTIVE
         else im.which_groups) ∧
    (CopyIndicatorMapDefs.stored im).which_mods
      = (if im.mods.mods ≠ 0 ∧ im.which_mods = 0 then XKB_STATE_MODS_EFFECTIVE
         else im.which_mods) := by
  unfold CopyIndicatorMapDefs.stored
  simp only
  split_ifs <;> simp_all

/-! ## Properties of the copy of indicator maps -/

/-- C15: for each LED copied by `CopyIndicatorMapDefs` (the LED `led`, copied
after the LEDs `done`): if some slot of the indicator table carries the name of
the LED, the first such slot receives the LED; otherwise the first slot whose
name is the atom NONE receives it; otherwise, if the table has fewer than 32
slots, the LED is stored in a new slot appended at the end. Every other slot is
left as it was. The value stored is the LED's map after the defaulting of C17. -/
theorem CopyIndicatorMapDefs_slot (info : CompatInfo) (done : List LEDInfo)
    (led : LEDInfo) :
    (∀ (pre post : List xkb_indicator_map) (slot : xkb_indicator_map),
      (CopyIndicatorMapDefs { info with leds := done }).keymap.indicators
        = pre ++ slot :: post →
      (∀ x ∈ pre, x.name ≠ led.im.name) → slot.name = led.im.name →
      (CopyIndicatorMapDefs { info with leds := done ++ [led] }).keymap.indicators
        = pre ++ CopyIndicatorMapDefs.stored led.im :: post) ∧
    (∀ (pre post : List xkb_indicator_map) (slot : xkb_indicator_map),
      (∀ x ∈ (CopyIndicatorMapDefs { info with leds := done }).keymap.indicators,
        x.name ≠ led.im.name) →
      (CopyIndicatorMapDefs { info with leds := done }).keymap.indicators
        = pre ++ slot :: post →
      (∀ x ∈ pre, x.name ≠ XKB_ATOM_NONE) → slot.name = XKB_ATOM_NONE →
      (CopyIndicatorMapDefs { info with leds := done ++ [led] }).keymap.indicators
        = pre ++ CopyIndicatorMapDefs.stored led.im :: post) ∧
    ((∀ x ∈ (CopyIndicatorMapDefs { info with leds := done }).keymap.indicators,
        x.name ≠ led.im.name ∧ x.name ≠ XKB_ATOM_NONE) →
      (CopyIndicatorMapDefs { info with leds := done }).keymap.indicators.length < 32 →
      (CopyIndicatorMapDefs { info with leds := done ++ [led] }).keymap.indicators
        = (CopyIndicatorMapDefs { info with leds := done }).keymap.indicators
            ++ [CopyIndicatorMapDefs.stored led.im]) := by
  rw [CopyIndicatorMapDefs_snoc]
  refine ⟨?_, ?_, ?_⟩
  · intro pre post slot hl hpre hslot
    rw [step_named _ led pre post slot hl hpre hslot]
  · intro pre post slot hno hl hpre hslot
    rw [step_empty _ led pre post slot hno hl hpre hslot]
  · intro hno hlen
    rw [step_full _ led (fun x hx => (hno x hx).1) (fun x hx => (hno x hx).2)]
    have hlt : ¬ ((CopyIndicatorMapDefs { info with leds := done }).keymap.indicators.length
        ≥ XKB_MAX_LEDS) := by
      unfold XKB_MAX_LEDS
      omega
    rw [if_neg hlt]

/-- Witness of C15: into the table of `sampleKeymap` (slots named 7, NONE, 5)
the LED named 7 goes to the first slot and the LED named 9 to the empty slot;
into the empty table of `sampleInfo` the LED named 9 is appended. -/
theorem CopyIndicatorMapDefs_slot_witness :
    ((CopyIndicatorMapDefs { sampleTableInfo with leds := [] ++ [sampleLed] }).keymap.indicators
      = [] ++ CopyIndicatorMapDefs.stored sampleLed.im :: [namedSlot 0, namedSlot 5]) ∧
    ((CopyIndicatorMapDefs { sampleTableInfo with leds := [] ++ [freshLed] }).keymap.indicators
      = [namedSlot 7] ++ CopyIndicatorMapDefs.stored freshLed.im :: [namedSlot 5]) ∧
    ((CopyIndicatorMapDefs { sampleInfo with leds := [] ++ [freshLed] }).keymap.indicators
      = (CopyIndicatorMapDefs { sampleInfo with leds := [] }).keymap.indicators
          ++ [CopyIndicatorMapDefs.stored freshLed.im]) :=
  ⟨(CopyIndicatorMapDefs_slot sampleTableInfo [] sampleLed).1
      [] [namedSlot 0, namedSlot 5] (namedSlot 7) (by decide) (by decide) (by decide),
   (CopyIndicatorMapDefs_slot sampleTableInfo [] freshLed).2.1
      [namedSlot 7] [namedSlot 5] (namedSlot 0) (by decide) (by decide) (by decide)
      (by decide),
   (CopyIndicatorMapDefs_slot sampleInfo [] freshLed).2.2 (by decide) (by decide)⟩

/-- C16: the indicator table is capped at 32. If the table has at most 32 slots
before `CopyIndicatorMapDefs`, it has at most 32 slots afterwards, whatever the
LEDs; and an LED (`led`, copied after the LEDs `done`) that finds no slot with
its name and no empty slot when the table holds 32 slots is dropped: the table
is left as it was. -/
theorem CopyIndicatorMapDefs_cap (info : CompatInfo) (done : List LEDInfo)
    (led : LEDInfo) :
    (info.keymap.indicators.length ≤ 32 →
      (CopyIndicatorMapDefs info).keymap.indicators.length ≤ 32) ∧
    ((∀ x ∈ (CopyIndicatorMapDefs { info with leds := done }).keymap.indicators,
        x.name ≠ led.im.name ∧ x.name ≠ XKB_ATOM_NONE) →
      (CopyIndicatorMapDefs { info with leds := done }).keymap.indicators.length = 32 →
      (CopyIndicatorMapDefs { info with leds := done ++ [led] }).keymap.indicators
        = (CopyIndicatorMapDefs { info with leds := done }).keymap.indicators) := by
  constructor
  · intro h
    exact CopyIndicatorMapDefs_length_le info.leds info.keymap h
  · intro hno hlen
    rw [CopyIndicatorMapDefs_snoc,
      step_full _ led (fun x hx => (hno x hx).1) (fun x hx => (hno x hx).2)]
    have hge : (CopyIndicatorMapDefs { info with leds := done }).keymap.indicators.length
        ≥ XKB_MAX_LEDS := by
      unfold XKB_MAX_LEDS
      omega
    rw [if_pos hge]

/-- Witness of C16: the table of `fullKeymap` holds 32 slots named 101 to 132;
the LED named 9 is dropped. -/
theorem CopyIndicatorMapDefs_cap_witness :
    ((CopyIndicatorMapDefs fullTableInfo).keymap.indicators.length
      ≤ 32) ∧
    ((CopyIndicatorMapDefs { fullTableInfo with leds := [] ++ [freshLed] }).keymap.indicators
      = (CopyIndicatorMapDefs { fullTableInfo with leds := [] }).keymap.indicators) :=
  ⟨(CopyIndicatorMapDefs_cap fullTableInfo [] freshLed).1
      (by decide),
   (CopyIndicatorMapDefs_cap fullTableInfo [] freshLed).2
      (by decide) (by decide)⟩

/-- C17: whenever the loop body of `CopyIndicatorMapDefs` does not drop the LED
(it is dropped exactly when no slot has its name, no slot is empty and the table
holds 32 slots or more), the table afterwards differs from the table before in
one slot, written or appended, and the value stored there has which_groups =
LAYOUT_EFFECTIVE when the LED's groups is nonzero and its which_groups is zero,
which_mods = MODS_EFFECTIVE when its mods mask is nonzero and its which_mods is
zero, and otherwise which_groups and which_mods, and always name, mods, groups
and ctrls, exactly as in the LED. -/
theorem CopyIndicatorMapDefs_stored (keymap : xkb_keymap) (led : LEDInfo)
    (hkeep : ¬ ((∀ x ∈ keymap.indicators, x.name ≠ led.im.name ∧ x.name ≠ XKB_ATOM_NONE) ∧
      32 ≤ keymap.indicators.length)) :
    ∃ (pre post : List xkb_indicator_map) (v : xkb_indicator_map),
      (CopyIndicatorMapDefs.step keymap led).indicators = pre ++ v :: post ∧
      pre = keymap.indicators.take pre.length ∧
      post = keymap.indicators.drop (pre.length + 1) ∧
      v.name = led.im.name ∧ v.mods = led.im.mods ∧ v.groups = led.im.groups ∧
      v.ctrls = led.im.ctrls ∧
      v.which_groups
        = (if led.im.groups ≠ 0 ∧ led.im.which_groups = 0 then XKB_STATE_LAYOUT_EFFECTIVE
           else led.im.which_groups) ∧
      v.which_mods
        = (if led.im.mods.mods ≠ 0 ∧ led.im.which_mods = 0 then XKB_STATE_MODS_EFFECTIVE
           else led.im.which_mods) := by
  have hs := stored_fields led.im
  have split_of : ∀ (p : xkb_indicator_map → Prop) [DecidablePred p]
      (l : List xkb_indicator_map), (∃ x ∈ l, p x) →
      ∃ pre post slot, l = pre ++ slot :: post ∧ (∀ x ∈ pre, ¬ p x) ∧ p slot := by
    intro p _ l
    induction l with
    | nil => simp
    | cons a rest ih =>
      intro h
      by_cases ha : p a
      · exact ⟨[], rest, a, rfl, by simp, ha⟩
      · have h2 : ∃ x ∈ rest, p x := by
          obtain ⟨x, hx, hpx⟩ := h
          rcases List.mem_cons.mp hx with hx | hx
          · rw [hx] at hpx; exact absurd hpx ha
          · exact ⟨x, hx, hpx⟩
        obtain ⟨pre, post, slot, hl, hpre, hslot⟩ := ih h2
        refine ⟨a :: pre, post, slot, by rw [hl]; rfl, ?_, hslot⟩
        intro x hx
        rcases List.mem_cons.mp hx with hx | hx
        · rw [hx]; exact ha
        · exact hpre x hx
  by_cases hname : ∃ x ∈ keymap.indicators, x.name = led.im.name
  · obtain ⟨pre, post, slot, hl, hpre, hslot⟩ :=
      split_of (fun x => x.name = led.im.name) keymap.indicators hname
    refine ⟨pre, post, CopyIndicatorMapDefs.stored led.im, ?_, ?_, ?_, hs⟩
    · rw [step_named keymap led pre post slot hl hpre hslot]
    · rw [hl]; simp
    · rw [hl]; simp
  · have hno : ∀ x ∈ keymap.indicators, x.name ≠ led.im.name := by
      intro x hx hn
      exact hname ⟨x, hx, hn⟩
    by_cases hnone : ∃ x ∈ keymap.indicators, x.name = XKB_ATOM_NONE
    · obtain ⟨pre, post, slot, hl, hpre, hslot⟩ :=
        split_of (fun x => x.name = XKB_ATOM_NONE) keymap.indicators hnone
      refine ⟨pre, post, CopyIndicatorMapDefs.stored led.im, ?_, ?_, ?_, hs⟩
      · rw [step_empty keymap led pre post slot hno hl hpre hslot]
      · rw [hl]; simp
      · rw [hl]; simp
    · have hne : ∀ x ∈ keymap.indicators, x.name ≠ XKB_ATOM_NONE := by
        intro x hx hn
        exact hnone ⟨x, hx, hn⟩
      have hlen : ¬ (keymap.indicators.length ≥ XKB_MAX_LEDS) := by
        intro hge
        apply hkeep
        exact ⟨fun x hx => ⟨hno x hx, hne x hx⟩, hge⟩
      refine ⟨keymap.indicators, [], CopyIndicatorMapDefs.stored led.im, ?_, ?_, ?_, hs⟩
      · rw [step_full keymap led hno hne, if_neg hlen]
      · simp
      · simp

/-- Witness of C17: the LED `freshLed` (groups 1, which_groups 0) is stored in
the empty slot of `sampleKeymap` with which_groups = LAYOUT_EFFECTIVE. -/
theorem CopyIndicatorMapDefs_stored_witness :
    ∃ (pre post : List xkb_indicator_map) (v : xkb_indicator_map),
      (CopyIndicatorMapDefs.step sampleKeymap freshLed).indicators = pre ++ v :: post ∧
      pre = sampleKeymap.indicators.take pre.length ∧
      post = sampleKeymap.indicators.drop (pre.length + 1) ∧
      v.name = freshLed.im.name ∧ v.mods = freshLed.im.mods ∧
      v.groups = freshLed.im.groups ∧ v.ctrls = freshLed.im.ctrls ∧
      v.which_groups
        = (if freshLed.im.groups ≠ 0 ∧ freshLed.im.which_groups = 0
           then XKB_STATE_LAYOUT_EFFECTIVE else freshLed.im.which_groups) ∧
      v.which_mods
        = (if freshLed.im.mods.mods ≠ 0 ∧ freshLed.im.which_mods = 0
           then XKB_STATE_MODS_EFFECTIVE else freshLed.im.which_mods) :=
  CopyIndicatorMapDefs_stored sampleKeymap freshLed (by decide)

/-! ## Properties of `ResolveStateAndPredicate` -/

/-- C11: `ResolveStateAndPredicate` without an explicit mask. With no predicate
expression it succeeds with the match ANY_OR_NONE and the mask of all real
modifiers; with the bare identifier `any`, whatever the case of its letters, it
succeeds with the match ANY and the mask of all real modifiers. In both cases
the result is the same for every expression evaluator, the modifier-mask
resolver included, and the compat-info is left as it was. -/
theorem ResolveStateAndPredicate_no_mask (ext : Externals) (info : CompatInfo) :
    ResolveStateAndPredicate ext none info
      = (some (MATCH_ANY_OR_NONE, MOD_REAL_MASK_ALL), info) ∧
    (∀ (str : Nat) (txt : String),
      xkb_atom_text info.keymap.ctx str = some txt → istreq txt "any" = true →
      ResolveStateAndPredicate ext (some (ExprDef.EXPR_IDENT str)) info
        = (some (MATCH_ANY, MOD_REAL_MASK_ALL), info)) := by
  constructor
  · rfl
  · intro str txt htxt hany
    unfold ResolveStateAndPredicate
    simp only [htxt, hany, if_true]

/-- Witness of C11: in `atomInfo` the atom 1 is the identifier "ANY". -/
theorem ResolveStateAndPredicate_no_mask_witness :
    ResolveStateAndPredicate sampleExt (some (ExprDef.EXPR_IDENT 1)) atomInfo
      = (some (MATCH_ANY, MOD_REAL_MASK_ALL), atomInfo) :=
  (ResolveStateAndPredicate_no_mask sampleExt atomInfo).2 1 "ANY" (by decide) (by decide)

/-- C12: for a predicate expression that is a bare modifier mask (not a call
NAME(args) and not the identifier `any`), `ResolveStateAndPredicate` yields the
match EXACTLY with the mask the modifier-mask resolver gives for the expression
over the real modifiers, and fails exactly when the resolver fails. For a call
NAME(args) whose NAME is one of the predicate names, the match is the operation
the name denotes, with the mask the resolver gives for the arguments; when NAME
is not one of the predicate names the call fails. -/
theorem ResolveStateAndPredicate_mask (ext : Externals) (info : CompatInfo) :
    (∀ e : ExprDef,
      (∀ name args, e ≠ ExprDef.EXPR_ACTION_DECL name args) →
      (∀ str txt, e = ExprDef.EXPR_IDENT str →
        xkb_atom_text info.keymap.ctx str = some txt → istreq txt "any" = false) →
      ResolveStateAndPredicate ext (some e) info
        = ((ext.ExprResolveModMask info.keymap (some e) mod_type.MOD_REAL).map
            (fun mods => (MATCH_EXACTLY, mods)), info)) ∧
    (∀ (name : Nat) (args : Option ExprDef) (pred : xkb_match_operation),
      LookupString symInterpretMatchMaskNames (xkb_atom_text info.keymap.ctx name)
        = some pred →
      ResolveStateAndPredicate ext (some (ExprDef.EXPR_ACTION_DECL name args)) info
        = ((ext.ExprResolveModMask info.keymap args mod_type.MOD_REAL).map
            (fun mods => (pred, mods)), info)) ∧
    (∀ (name : Nat) (args : Option ExprDef),
      LookupString symInterpretMatchMaskNames (xkb_atom_text info.keymap.ctx name) = none →
      (ResolveStateAndPredicate ext (some (ExprDef.EXPR_ACTION_DECL name args)) info).1
        = none) := by
  refine ⟨?_, ?_, ?_⟩
  · intro e hcall hany
    cases e with
    | EXPR_IDENT str =>
      unfold ResolveStateAndPredicate
      cases htxt : xkb_atom_text info.keymap.ctx str with
      | none => simp [htxt]
      | some txt =>
        have h := hany str txt rfl htxt
        simp [htxt, h]
    | EXPR_FIELD_REF el f => rfl
    | EXPR_ACTION_DECL name args => exact absurd rfl (hcall name args)
    | EXPR_OTHER op args => rfl
  · intro name args pred h
    unfold ResolveStateAndPredicate
    simp only [h]
  · intro name args h
    unfold ResolveStateAndPredicate
    simp only [h]

/-- Witness of C12: in `atomInfo` the identifier "Shift" (atom 2) is a bare mask
that resolves to 1, `AllOf(Shift)` (atom 3) gives the match ALL, and "Bogus"
(atom 4) is not a predicate name. -/
theorem ResolveStateAndPredicate_mask_witness :
    ResolveStateAndPredicate sampleExt (some (ExprDef.EXPR_IDENT 2)) atomInfo
      = (some (MATCH_EXACTLY, 1), atomInfo) ∧
    ResolveStateAndPredicate sampleExt
        (some (ExprDef.EXPR_ACTION_DECL 3 (some (ExprDef.EXPR_IDENT 2)))) atomInfo
      = (some (MATCH_ALL, 1), atomInfo) ∧
    (ResolveStateAndPredicate sampleExt
        (some (ExprDef.EXPR_ACTION_DECL 4 (some (ExprDef.EXPR_IDENT 2)))) atomInfo).1
      = none :=
  ⟨(ResolveStateAndPredicate_mask sampleExt atomInfo).1 (ExprDef.EXPR_IDENT 2)
      (fun _ _ h => ExprDef.noConfusion h)
      (fun str txt h => by
        cases h
        intro htxt
        have h2 : txt = "Shift" := by
          have h3 : xkb_atom_text atomInfo.keymap.ctx 2 = some "Shift" := by decide
          rw [h3] at htxt
          exact (Option.some.inj htxt).symm
        rw [h2]
        decide),
   (ResolveStateAndPredicate_mask sampleExt atomInfo).2.1 3 (some (ExprDef.EXPR_IDENT 2))
      MATCH_ALL (by decide),
   (ResolveStateAndPredicate_mask sampleExt atomInfo).2.2 4 (some (ExprDef.EXPR_IDENT 2))
      (by decide)⟩

/-! ## Properties of `HandleCompatMapFile` and `CompileCompatMap` -/

theorem log_errorCount (info : CompatInfo) (msgs : List log_entry) :
    (info.log msgs).errorCount = info.errorCount := rfl

/-- Handling the statements `pre ++ stmt :: rest` is handling `pre ++ [stmt]` and
then, unless the error counter exceeds ten, the statements `rest`. -/
theorem loop_split (handle : CompatInfo → Stmt → Option (Bool × CompatInfo))
    (pre : List Stmt) (stmt : Stmt) (rest : List Stmt) (start : CompatInfo) :
    HandleCompatMapFile.loop handle start (pre ++ stmt :: rest)
    = (match HandleCompatMapFile.loop handle start (pre ++ [stmt]) with
       | none => none
       | some mid =>
         if mid.errorCount > 10 then some mid
         else HandleCompatMapFile.loop handle mid rest) := by
  induction pre generalizing start with
  | nil =>
    simp only [List.nil_append, HandleCompatMapFile.loop]
    cases h : handle start stmt with
    | none => rfl
    | some r =>
      obtain ⟨ok, info⟩ := r
      simp only
      generalize (if ¬ ok = true then { info with errorCount := info.errorCount + 1 }
        else info) = next
      by_cases hn : next.errorCount > 10
      · simp only [if_pos hn, log_errorCount]
      · simp only [if_neg hn]
  | cons s pre ih =>
    simp only [List.cons_append, HandleCompatMapFile.loop]
    cases h : handle start s with
    | none => rfl
    | some r =>
      obtain ⟨ok, info⟩ := r
      simp only
      generalize (if ¬ ok = true then { info with errorCount := info.errorCount + 1 }
        else info) = next
      by_cases hn : next.errorCount > 10
      · simp only [if_pos hn, log_errorCount]
      · simp only [if_neg hn]
        exact ih next

/-- While the error counter stays at most ten, the loop handles every statement
of `stmts`, in order, and goes on with the statements that follow. -/
theorem loop_all (handle : CompatInfo → Stmt → Option (Bool × CompatInfo))
    (stmts rest : List Stmt) (start : CompatInfo)
    (h : counters_within handle start stmts = true) :
    HandleCompatMapFile.loop handle start (stmts ++ rest)
    = (handle_all handle start stmts).bind
        (fun mid => HandleCompatMapFile.loop handle mid rest) := by
  induction stmts generalizing start with
  | nil => rfl
  | cons s tl ih =>
    simp only [List.cons_append, HandleCompatMapFile.loop, handle_all, handle_statement]
    simp only [counters_within, handle_statement] at h
    cases hh : handle start s with
    | none => rfl
    | some r =>
      obtain ⟨ok, info⟩ := r
      rw [hh] at h
      simp only [Option.map_some', Bool.and_eq_true, decide_eq_true_eq] at h
      simp only [Option.map_some', Option.some_bind]
      have hle : ¬ ((if ¬ ok = true then { info with errorCount := info.errorCount + 1 }
          else info).errorCount > 10) := by
        have := h.1
        omega
      rw [if_neg hle]
      exact ih _ h.2

theorem handle_all_append (handle : CompatInfo → Stmt → Option (Bool × CompatInfo))
    (pre rest : List Stmt) (start : CompatInfo) :
    handle_all handle start (pre ++ rest)
    = (handle_all handle start pre).bind (fun mid => handle_all handle mid rest) := by
  induction pre generalizing start with
  | nil => rfl
  | cons s tl ih =>
    simp only [List.cons_append, handle_all]
    cases handle_statement handle start s with
    | none => rfl
    | some mid =>
      simp only [Option.some_bind]
      exact ih mid

/-- The loop abandons the file after the statement that takes the error counter
above ten, when the counter was at most ten after each statement before it. -/
theorem loop_abandons (handle : CompatInfo → Stmt → Option (Bool × CompatInfo))
    (pre : List Stmt) (stmt : Stmt) (rest : List Stmt) (start mid : CompatInfo)
    (h : counters_within handle start pre = true)
    (hmid : handle_all handle start (pre ++ [stmt]) = some mid)
    (hgt : mid.errorCount > 10) :
    HandleCompatMapFile.loop handle start (pre ++ stmt :: rest)
    = some (mid.log [log_entry.msg "err" "Abandoning compatibility map"]) := by
  rw [loop_all handle pre (stmt :: rest) start h]
  rw [handle_all_append] at hmid
  cases hp : handle_all handle start pre with
  | none =>
    rw [hp] at hmid
    cases hmid
  | some m =>
    rw [hp] at hmid
    simp only [Option.some_bind, handle_all, handle_statement] at hmid ⊢
    simp only [HandleCompatMapFile.loop]
    cases hh : handle m stmt with
    | none =>
      rw [hh] at hmid
      cases hmid
    | some r =>
      obtain ⟨ok, info⟩ := r
      rw [hh] at hmid
      simp only [Option.map_some', Option.some_bind, Option.some.injEq] at hmid
      simp only [Option.map_some', Option.some_bind]
      rw [hmid, if_pos hgt]

/-- C13: `HandleCompatMapFile` handles the statements of the file in order and
abandons the file as soon as the error counter exceeds ten. With `handle_all`
the statements of a list handled one after the other, none left out, and
`counters_within` saying that the error counter is at most ten after each of
them: (1) a file after each of whose statements the counter is at most ten has
every statement handled, in order: the result is the state `handle_all` reaches;
(2) in a file `pre ++ stmt :: rest` where the counter is at most ten after each
statement of `pre` and above ten after `stmt`, every statement up to `stmt` is
handled and the file is abandoned there: the result is the state after `stmt`
with the message of abandoning, whatever `rest` is, so no statement of `rest` is
handled; (3) in general the result on `pre ++ stmt :: rest` is the result on the
file cut after `stmt` when the counter there exceeds ten, and otherwise the
statements of `rest` are handled next from that state. -/
theorem HandleCompatMapFile_abandons (ext : Externals) (fuel : Nat) (info : CompatInfo)
    (file : XkbFile) (merge : merge_mode) (pre : List Stmt) (stmt : Stmt)
    (rest : List Stmt) :
    (∀ stmts : List Stmt,
      counters_within
        (HandleCompatMapFile.stmt ext (fun i f m => HandleCompatMapFile ext fuel i f m)
          (if merge = MERGE_DEFAULT then MERGE_AUGMENT else merge))
        { info with name := file.name } stmts = true →
      HandleCompatMapFile ext (fuel + 1) info { file with defs := stmts } merge
      = handle_all
          (HandleCompatMapFile.stmt ext (fun i f m => HandleCompatMapFile ext fuel i f m)
            (if merge = MERGE_DEFAULT then MERGE_AUGMENT else merge))
          { info with name := file.name } stmts) ∧
    (∀ mid : CompatInfo,
      counters_within
        (HandleCompatMapFile.stmt ext (fun i f m => HandleCompatMapFile ext fuel i f m)
          (if merge = MERGE_DEFAULT then MERGE_AUGMENT else merge))
        { info with name := file.name } pre = true →
      handle_all
        (HandleCompatMapFile.stmt ext (fun i f m => HandleCompatMapFile ext fuel i f m)
          (if merge = MERGE_DEFAULT then MERGE_AUGMENT else merge))
        { info with name := file.name } (pre ++ [stmt]) = some mid →
      mid.errorCount > 10 →
      HandleCompatMapFile ext (fuel + 1) info { file with defs := pre ++ stmt :: rest } merge
      = some (mid.log [log_entry.msg "err" "Abandoning compatibility map"])) ∧
    HandleCompatMapFile ext (fuel + 1) info { file with defs := pre ++ stmt :: rest } merge
    = (match HandleCompatMapFile ext (fuel + 1) info { file with defs := pre ++ [stmt] }
          merge with
       | none => none
       | some mid =>
         if mid.errorCount > 10 then some mid
         else
           HandleCompatMapFile.loop
             (HandleCompatMapFile.stmt ext (fun i f m => HandleCompatMapFile ext fuel i f m)
               (if merge = MERGE_DEFAULT then MERGE_AUGMENT else merge))
             mid rest) := by
  refine ⟨?_, ?_, ?_⟩
  · intro stmts h
    simp only [HandleCompatMapFile]
    have h2 := loop_all _ stmts [] _ h
    rw [List.append_nil] at h2
    rw [h2]
    cases handle_all
      (HandleCompatMapFile.stmt ext (fun i f m => HandleCompatMapFile ext fuel i f m)
        (if merge = MERGE_DEFAULT then MERGE_AUGMENT else merge))
      { info with name := file.name } stmts with
    | none => rfl
    | some mid => rfl
  · intro mid h hmid hgt
    simp only [HandleCompatMapFile]
    exact loop_abandons _ pre stmt rest _ mid h hmid hgt
  · simp only [HandleCompatMapFile]
    exact loop_split _ pre stmt rest _

/-- Example for C13: in a file of eleven failing statements followed by the
statements of `goodFile`, the counter is at most ten after each of the first
ten statements and 11 after the eleventh, and the file is abandoned there, with
no interpret recorded; with ten failing statements the counter stays at most
ten, every statement is handled, and the interpret of `goodFile` is recorded. -/
theorem HandleCompatMapFile_abandons_witness :
    (HandleCompatMapFile sampleExt 1 atomInfo (failingFile 10) MERGE_DEFAULT
      = handle_all
          (HandleCompatMapFile.stmt sampleExt (fun i f m => HandleCompatMapFile sampleExt 0 i f m)
            (if MERGE_DEFAULT = MERGE_DEFAULT then MERGE_AUGMENT else MERGE_DEFAULT))
          { atomInfo with name := (failingFile 10).name } (failingFile 10).defs) ∧
    (∀ mid : CompatInfo,
      handle_all
        (HandleCompatMapFile.stmt sampleExt (fun i f m => HandleCompatMapFile sampleExt 0 i f m)
          (if MERGE_DEFAULT = MERGE_DEFAULT then MERGE_AUGMENT else MERGE_DEFAULT))
        { atomInfo with name := (failingFile 11).name }
        (List.replicate 10 (Stmt.STMT_OTHER 99) ++ [Stmt.STMT_OTHER 99]) = some mid →
      mid.errorCount > 10 →
      HandleCompatMapFile sampleExt 1 atomInfo
        { failingFile 11 with defs := List.replicate 10 (Stmt.STMT_OTHER 99)
                                        ++ Stmt.STMT_OTHER 99 :: goodFile.defs }
        MERGE_DEFAULT
      = some (mid.log [log_entry.msg "err" "Abandoning compatibility map"])) ∧
    ((handle_all
        (HandleCompatMapFile.stmt sampleExt (fun i f m => HandleCompatMapFile sampleExt 0 i f m)
          (if MERGE_DEFAULT = MERGE_DEFAULT then MERGE_AUGMENT else MERGE_DEFAULT))
        { atomInfo with name := (failingFile 11).name }
        (List.replicate 10 (Stmt.STMT_OTHER 99) ++ [Stmt.STMT_OTHER 99])).map
        (fun i => i.errorCount) = some 11) ∧
    ((HandleCompatMapFile sampleExt 1 atomInfo (failingFile 11) MERGE_DEFAULT).map
        (fun i => (i.errorCount, i.interps.length - atomInfo.interps.length))
      = some (11, 0)) ∧
    ((HandleCompatMapFile sampleExt 1 atomInfo (failingFile 10) MERGE_DEFAULT).map
        (fun i => (i.errorCount, i.interps.length - atomInfo.interps.length))
      = some (10, 1)) :=
  ⟨(HandleCompatMapFile_abandons sampleExt 0 atomInfo (failingFile 10) MERGE_DEFAULT
      [] (Stmt.STMT_OTHER 99) []).1 (failingFile 10).defs (by decide),
   fun mid =>
     (HandleCompatMapFile_abandons sampleExt 0 atomInfo (failingFile 11) MERGE_DEFAULT
       (List.replicate 10 (Stmt.STMT_OTHER 99)) (Stmt.STMT_OTHER 99) goodFile.defs).2.1 mid
       (by decide),
   by decide, by decide, by decide⟩

theorem check_write_buf_failed (heap : Nat → Nat → Bool) (b : buf) (t : String)
    (h : b.failed) : check_write_buf heap b t = wresult.undefined := by
  unfold check_write_buf
  have h2 : b.buf = none ∧ b.alloc - b.size > 0 := ⟨h.1, Nat.sub_pos_of_lt h.2⟩
  simp only [h2, and_self, if_true]

theorem do_realloc_space (heap : Nat → Nat → Bool) (b : buf) (n : Nat)
    (hs : b.size ≤ b.alloc) :
    (do_realloc heap b n).2.size = b.size ∧
    n < (do_realloc heap b n).2.alloc - b.size ∧
    b.size < (do_realloc heap b n).2.alloc ∧
    ((do_realloc heap b n).1 = true → (do_realloc heap b n).2.buf = some b.content) := by
  unfold do_realloc BUF_CHUNK_SIZE buf.content
  simp only
  split_ifs <;> simp <;> omega

/-- The outcomes of `check_write_buf` on a buffer that holds a text: a success
leaves the buffer holding the text followed by the text written, a failure
leaves it freed with capacity left over. -/
theorem check_write_buf_holds (heap : Nat → Nat → Bool) (b : buf) (text t : String)
    (h : b.holds text) :
    (∃ b1, check_write_buf heap b t = wresult.done true b1 ∧ b1.holds (text ++ t) ∧
      b1.buf = some (text ++ t)) ∨
    (∃ b1, check_write_buf heap b t = wresult.done false b1 ∧ b1.failed ∧
      (do_realloc heap b t.utf8ByteSize).1 = false) := by
  obtain ⟨hs, hn, hc⟩ := h
  have hsp := do_realloc_space heap b t.utf8ByteSize hs
  unfold check_write_buf
  have hund : ¬ (b.buf = none ∧ b.alloc - b.size > 0) := by
    intro hh
    have := hn hh.1
    omega
  simp only [hund, if_false]
  by_cases hp : t.utf8ByteSize ≥ b.alloc - b.size
  · simp only [hp, if_true]
    by_cases hr : (do_realloc heap b t.utf8ByteSize).1 = true
    · left
      simp only [hr, not_true_eq_false, if_false]
      have hlt : ¬ (t.utf8ByteSize ≥ (do_realloc heap b t.utf8ByteSize).2.alloc
          - (do_realloc heap b t.utf8ByteSize).2.size) := by
        rw [hsp.1]; omega
      simp only [hlt, if_false]
      refine ⟨_, rfl, ⟨?_, ?_, ?_⟩, ?_⟩
      · simp only [hsp.1]; omega
      · intro hh; simp at hh
      · simp [buf.content, hsp.2.2.2 hr, ← hc]
      · simp [hsp.2.2.2 hr, ← hc]
    · right
      simp only [hr, if_true, not_false_eq_true]
      refine ⟨_, rfl, ⟨rfl, ?_⟩, trivial⟩
      simp only [hsp.1]
      exact hsp.2.2.1
  · left
    simp only [hp, if_false, not_true_eq_false, not_false_eq_true]
    refine ⟨_, rfl, ⟨?_, ?_, ?_⟩, ?_⟩
    · simp only; omega
    · intro hh; simp at hh
    · simp [buf.content, ← hc]
    · simp [buf.content, ← hc]

theorem do_realloc_heap_ok (b : buf) (n : Nat) : (do_realloc heap_ok b n).1 = true := by
  unfold do_realloc heap_ok
  simp

theorem check_write_buf_heap_ok (b : buf) (text t : String) (h : b.holds text) :
    ∃ b1, check_write_buf heap_ok b t = wresult.done true b1 ∧ b1.holds (text ++ t) ∧
      b1.buf = some (text ++ t) := by
  rcases check_write_buf_holds heap_ok b text t h with h1 | ⟨b1, _, _, hr⟩
  · exact h1
  · rw [do_realloc_heap_ok] at hr
    exact absurd hr (by simp)

theorem run_texts_holds (heap : Nat → Nat → Bool) (ts : List String) (b : buf)
    (text : String) (h : b.holds text) :
    (∃ b1, run_texts heap b ts = wresult.done true b1 ∧ b1.holds (text ++ texts_flat ts)) ∨
    (∃ b1, run_texts heap b ts = wresult.done false b1 ∧ b1.failed) := by
  induction ts generalizing b text with
  | nil =>
    left
    exact ⟨b, rfl, by simpa [texts_flat] using h⟩
  | cons t rest ih =>
    unfold run_texts
    rcases check_write_buf_holds heap b text t h with ⟨b1, h1, hh, _⟩ | ⟨b1, h1, hf, _⟩
    · rw [h1]
      simp only
      rcases ih b1 (text ++ t) hh with ⟨b2, h2, hh2⟩ | ⟨b2, h2, hf2⟩
      · left
        refine ⟨b2, h2, ?_⟩
        simpa [texts_flat, String.append_assoc] using hh2
      · right
        exact ⟨b2, h2, hf2⟩
    · right
      rw [h1]
      exact ⟨b1, rfl, hf⟩

theorem run_texts_heap_ok (ts : List String) (b : buf) (text : String) (h : b.holds text) :
    ∃ b1, run_texts heap_ok b ts = wresult.done true b1 ∧ b1.holds (text ++ texts_flat ts) := by
  induction ts generalizing b text with
  | nil => exact ⟨b, rfl, by simpa [texts_flat] using h⟩
  | cons t rest ih =>
    unfold run_texts
    obtain ⟨b1, h1, hh, _⟩ := check_write_buf_heap_ok b text t h
    rw [h1]
    simp only
    obtain ⟨b2, h2, hh2⟩ := ih b1 (text ++ t) hh
    refine ⟨b2, h2, ?_⟩
    simpa [texts_flat, String.append_assoc] using hh2

theorem run_texts_failed (heap : Nat → Nat → Bool) (ts : List String) (b : buf)
    (h : b.failed) :
    run_texts heap b ts = wresult.done true b ∨ run_texts heap b ts = wresult.undefined := by
  cases ts with
  | nil => left; rfl
  | cons t rest =>
    right
    unfold run_texts
    rw [check_write_buf_failed heap b t h]

/-- From a freed buffer no sequence of steps returns true with anything but the
freed buffer. -/
theorem run_failed (heap : Nat → Nat → Bool) (calls : List wcall) (b b2 : buf)
    (h : b.failed) (hr : run heap b calls = wresult.done true b2) : b2.failed := by
  induction calls generalizing b with
  | nil =>
    unfold run at hr
    cases hr
    exact h
  | cons c rest ih =>
    cases c with
    | text t =>
      unfold run at hr
      rw [check_write_buf_failed heap b t h] at hr
      cases hr
    | unchecked ts =>
      unfold run at hr
      rcases run_texts_failed heap ts b h with h1 | h1
      · rw [h1] at hr
        exact ih b h hr
      · rw [h1] at hr
        cases hr

/-- When a sequence of steps returns true on a buffer that holds a text, the
buffer afterwards holds that text followed by the texts of the steps, or it is
freed (an unchecked call has failed and no write followed). -/
theorem run_holds (heap : Nat → Nat → Bool) (calls : List wcall) (b b2 : buf)
    (text : String) (h : b.holds text) (hr : run heap b calls = wresult.done true b2) :
    b2.holds (text ++ wcall.flat calls) ∨ b2.failed := by
  induction calls generalizing b text with
  | nil =>
    unfold run at hr
    cases hr
    left
    simpa [wcall.flat] using h
  | cons c rest ih =>
    cases c with
    | text t =>
      unfold run at hr
      rcases check_write_buf_holds heap b text t h with ⟨b1, h1, hh, _⟩ | ⟨b1, h1, _, _⟩
      · rw [h1] at hr
        simp only at hr
        rcases ih b1 (text ++ t) hh hr with h3 | h3
        · left
          simpa [wcall.flat, String.append_assoc] using h3
        · right
          exact h3
      · rw [h1] at hr
        cases hr
    | unchecked ts =>
      unfold run at hr
      rcases run_texts_holds heap ts b text h with ⟨b1, h1, hh⟩ | ⟨b1, h1, hf⟩
      · rw [h1] at hr
        simp only at hr
        rcases ih b1 (text ++ texts_flat ts) hh hr with h3 | h3
        · left
          simpa [wcall.flat, String.append_assoc] using h3
        · right
          exact h3
      · rw [h1] at hr
        simp only at hr
        right
        exact run_failed heap rest b1 b2 hf hr

/-- With an allocator that never fails, a sequence of steps returns true and
leaves the buffer holding the text it held followed by the texts of the steps. -/
theorem run_heap_ok (calls : List wcall) (b : buf) (text : String) (h : b.holds text) :
    ∃ b1, run heap_ok b calls = wresult.done true b1 ∧
      b1.holds (text ++ wcall.flat calls) := by
  induction calls generalizing b text with
  | nil => exact ⟨b, rfl, by simpa [wcall.flat] using h⟩
  | cons c rest ih =>
    cases c with
    | text t =>
      unfold run
      obtain ⟨b1, h1, hh, _⟩ := check_write_buf_heap_ok b text t h
      rw [h1]
      simp only
      obtain ⟨b2, h2, hh2⟩ := ih b1 (text ++ t) hh
      exact ⟨b2, h2, by simpa [wcall.flat, String.append_assoc] using hh2⟩
    | unchecked ts =>
      unfold run
      obtain ⟨b1, h1, hh⟩ := run_texts_heap_ok ts b text h
      rw [h1]
      simp only
      obtain ⟨b2, h2, hh2⟩ := ih b1 (text ++ texts_flat ts) hh
      exact ⟨b2, h2, by simpa [wcall.flat, String.append_assoc] using hh2⟩

/-! ## Lemmas on `xkb_keymap_get_as_string` -/

theorem and_then_done (r : wresult) (next : buf → wresult) (b2 : buf)
    (h : r.and_then next = wresult.done true b2) :
    ∃ b1, r = wresult.done true b1 ∧ next b1 = wresult.done true b2 := by
  cases r with
  | undefined => cases h
  | done ok b1 =>
    cases ok with
    | false => cases h
    | true => exact ⟨b1, rfl, h⟩

theorem run_state (heap : Nat → Nat → Bool) (calls : List wcall) (b b2 : buf)
    (text : String) (h : b.holds text ∨ b.failed)
    (hr : run heap b calls = wresult.done true b2) :
    b2.holds (text ++ wcall.flat calls) ∨ b2.failed := by
  rcases h with h | h
  · exact run_holds heap calls b b2 text h hr
  · right
    exact run_failed heap calls b b2 h hr

theorem empty_buf_holds : ({ buf := none, size := 0, alloc := 0 } : buf).holds "" :=
  ⟨Nat.le_refl 0, fun _ => rfl, rfl⟩

/-- With an allocator that never fails and the effective format TEXT_V1,
`xkb_keymap_get_as_string` returns the text `keymap_text`. -/
theorem get_as_string_heap_ok (txt : TextExternals) (keymap : xkb_keymap) (format : Int)
    (hf : effective_format keymap format = XKB_KEYMAP_FORMAT_TEXT_V1) :
    xkb_keymap_get_as_string txt heap_ok keymap format
    = (dump_result.returned (some (keymap_text txt keymap)), keymap) := by
  unfold effective_format at hf
  unfold xkb_keymap_get_as_string
  simp only [hf, ne_eq, not_true_eq_false, if_false]
  obtain ⟨b1, h1, hh1, _⟩ := check_write_buf_heap_ok _ "" "xkb_keymap \x7b\n" empty_buf_holds
  obtain ⟨b2, h2, hh2⟩ := run_heap_ok (write_keycodes.calls txt keymap) b1 _ hh1
  obtain ⟨b3, h3, hh3⟩ := run_heap_ok (write_types.calls txt keymap) b2 _ hh2
  obtain ⟨b4, h4, hh4⟩ := run_heap_ok (write_compat.calls txt keymap) b3 _ hh3
  obtain ⟨b5, h5, hh5⟩ := run_heap_ok (write_symbols.calls txt keymap) b4 _ hh4
  obtain ⟨b6, h6, _, hb6⟩ := check_write_buf_heap_ok b5 _ "\x7d;\n" hh5
  simp only [h1, wresult.and_then, write_keycodes, h2, write_types, h3, write_compat, h4,
    write_symbols, h5, h6, if_true, hb6]
  simp [keymap_text, String.append_assoc]

/-- Whatever the allocator does, a text that `xkb_keymap_get_as_string` returns is
the text `keymap_text`. -/
theorem get_as_string_some (txt : TextExternals) (heap : Nat → Nat → Bool)
    (keymap : xkb_keymap) (format : Int) (s : String)
    (h : (xkb_keymap_get_as_string txt heap keymap format).1
      = dump_result.returned (some s)) :
    s = keymap_text txt keymap := by
  unfold xkb_keymap_get_as_string at h
  simp only at h
  by_cases hfmt : (if format = XKB_KEYMAP_USE_ORIGINAL_FORMAT then keymap.format else format)
      ≠ XKB_KEYMAP_FORMAT_TEXT_V1
  · rw [if_pos hfmt] at h
    cases h
  · rw [if_neg hfmt] at h
    revert h
    generalize hr : wresult.and_then _ _ = r
    intro h
    cases r with
    | undefined => cases h
    | done ok b6 =>
      cases ok with
      | false => simp at h
      | true =>
        simp only [if_true] at h
        have hb6 : b6.buf = some s := by
          injection h
        obtain ⟨b5, hr5, h6⟩ := and_then_done _ _ _ hr
        obtain ⟨b4, hr4, h5⟩ := and_then_done _ _ _ hr5
        obtain ⟨b3, hr3, h4⟩ := and_then_done _ _ _ hr4
        obtain ⟨b2, hr2, h3⟩ := and_then_done _ _ _ hr3
        obtain ⟨b1, h1, h2⟩ := and_then_done _ _ _ hr2
        have s1 : b1.holds ("" ++ "xkb_keymap \x7b\n") := by
          rcases check_write_buf_holds heap _ "" "xkb_keymap \x7b\n" empty_buf_holds with
            ⟨c, hc, hh, _⟩ | ⟨c, hc, _, _⟩
          · rw [hc] at h1
            cases h1
            exact hh
          · rw [hc] at h1
            cases h1
        have s2 := run_state heap _ b1 b2 _ (Or.inl s1) h2
        have s3 := run_state heap _ b2 b3 _ s2 h3
        have s4 := run_state heap _ b3 b4 _ s3 h4
        have s5 := run_state heap _ b4 b5 _ s4 h5
        rcases s5 with s5 | s5
        · rcases check_write_buf_holds heap b5 _ "\x7d;\n" s5 with
            ⟨c, hc, _, hbuf⟩ | ⟨c, hc, _, _⟩
          · rw [hc] at h6
            cases h6
            rw [hb6] at hbuf
            have hs := Option.some.inj hbuf
            rw [hs]
            simp [keymap_text, String.append_assoc]
          · rw [hc] at h6
            cases h6
        · rw [check_write_buf_failed heap b5 _ s5] at h6
          cases h6

theorem flat_append (a b : List wcall) :
    wcall.flat (a ++ b) = wcall.flat a ++ wcall.flat b := by
  induction a with
  | nil => simp [wcall.flat]
  | cons c rest ih =>
    cases c with
    | text t => simp [wcall.flat, ih, String.append_assoc]
    | unchecked ts => simp [wcall.flat, ih, String.append_assoc]

theorem flat_entries (txt : TextExternals) (keymap : xkb_keymap)
    (entries : List xkb_kt_map_entry) :
    wcall.flat (write_types.entries txt keymap entries)
    = map_entries_text txt keymap entries := by
  induction entries with
  | nil => rfl
  | cons e rest ih =>
    unfold write_types.entries
    unfold map_entries_text at ih ⊢
    by_cases h1 : e.level = 0 ∧ e.preserve.mods = 0
    · simp only [h1, and_self, if_true, not_true_eq_false, decide_False, List.filter_cons,
        Bool.false_eq_true, if_false]
      exact ih
    · have hd : decide (¬ (e.level = 0 ∧ e.preserve.mods = 0)) = true :=
        decide_eq_true h1
      rw [if_neg h1, List.filter_cons, if_pos hd, List.map_cons]
      by_cases h2 : e.preserve.mods = 0
      · simp only [h2, if_true, wcall.flat, texts_flat, map_entry_text, ne_eq,
          not_true_eq_false, if_false, String.append_empty]
        rw [ih]
      · simp only [h2, if_false, wcall.flat, texts_flat, map_entry_text, ne_eq,
          not_false_eq_true, if_true, String.append_assoc]
        rw [ih]

theorem flat_types (txt : TextExternals) (keymap : xkb_keymap) (types : List xkb_key_type) :
    wcall.flat (write_types.types txt keymap types)
    = texts_flat (types.map (fun t => wcall.flat (write_types.type txt keymap t))) := by
  induction types with
  | nil => rfl
  | cons t rest ih =>
    unfold write_types.types
    rw [flat_append, ih]
    rfl

/-! ## Properties of the serializer -/

/-- C18, counterexample: the request `XKB_KEYMAP_USE_ORIGINAL_FORMAT` is a format
tag other than TEXT_V1, and for the keymap `dumpKeymap`, whose own format is
TEXT_V1, `xkb_keymap_get_as_string` answers it with a text, not with NULL. -/
theorem get_as_string_original_format :
    XKB_KEYMAP_USE_ORIGINAL_FORMAT ≠ XKB_KEYMAP_FORMAT_TEXT_V1 ∧
    (xkb_keymap_get_as_string sampleTxt heap_ok dumpKeymap XKB_KEYMAP_USE_ORIGINAL_FORMAT).1
      = dump_result.returned (some (keymap_text sampleTxt dumpKeymap)) ∧
    (xkb_keymap_get_as_string sampleTxt heap_ok dumpKeymap XKB_KEYMAP_USE_ORIGINAL_FORMAT).1
      ≠ dump_result.returned none := by
  have h := get_as_string_heap_ok sampleTxt dumpKeymap XKB_KEYMAP_USE_ORIGINAL_FORMAT
    (by decide)
  refine ⟨by decide, ?_, ?_⟩
  · rw [h]
  · rw [h]
    intro hx
    cases hx

/-- C18, amended: `xkb_keymap_get_as_string` supports only the format TEXT_V1,
where a request for `XKB_KEYMAP_USE_ORIGINAL_FORMAT` stands for the format of the
keymap itself. When the effective format is not TEXT_V1 it fails: it returns
NULL, writes no text and logs an error, whatever the allocator does. When the
effective format is TEXT_V1 and no allocation fails it returns a text. -/
theorem get_as_string_format (txt : TextExternals) (heap : Nat → Nat → Bool)
    (keymap : xkb_keymap) (format : Int) :
    (effective_format keymap format ≠ XKB_KEYMAP_FORMAT_TEXT_V1 →
      xkb_keymap_get_as_string txt heap keymap format
        = (dump_result.returned none,
           { keymap with ctx := { keymap.ctx with
               log := keymap.ctx.log ++
                 [log_entry.msg "err"
                   "Trying to get a keymap as a string in an unsupported format"] } })) ∧
    (effective_format keymap format = XKB_KEYMAP_FORMAT_TEXT_V1 →
      xkb_keymap_get_as_string txt heap_ok keymap format
        = (dump_result.returned (some (keymap_text txt keymap)), keymap)) := by
  constructor
  · intro h
    unfold effective_format at h
    unfold xkb_keymap_get_as_string
    simp only [h, ne_eq, not_false_eq_true, if_true]
  · intro h
    exact get_as_string_heap_ok txt keymap format h

/-- Witness of the amended C18: the keymap `otherFormatKeymap` (format 2) asked
for its original format gives NULL; the keymap `dumpKeymap` asked for TEXT_V1
gives its text. -/
theorem get_as_string_format_witness :
    effective_format otherFormatKeymap XKB_KEYMAP_USE_ORIGINAL_FORMAT
      ≠ XKB_KEYMAP_FORMAT_TEXT_V1 ∧
    effective_format dumpKeymap XKB_KEYMAP_FORMAT_TEXT_V1 = XKB_KEYMAP_FORMAT_TEXT_V1 ∧
    (xkb_keymap_get_as_string sampleTxt heap_ok otherFormatKeymap
        XKB_KEYMAP_USE_ORIGINAL_FORMAT).1
      = dump_result.returned none ∧
    (xkb_keymap_get_as_string sampleTxt heap_ok dumpKeymap XKB_KEYMAP_FORMAT_TEXT_V1).1
      = dump_result.returned (some (keymap_text sampleTxt dumpKeymap)) :=
  ⟨by decide, by decide,
   congrArg Prod.fst
      ((get_as_string_format sampleTxt heap_ok otherFormatKeymap
        XKB_KEYMAP_USE_ORIGINAL_FORMAT).1 (by decide)),
   congrArg Prod.fst
      ((get_as_string_format sampleTxt heap_ok dumpKeymap XKB_KEYMAP_FORMAT_TEXT_V1).2
        (by decide))⟩

/-- C19: a text that `xkb_keymap_get_as_string` returns is the line
`xkb_keymap {`, then the text of `write_keycodes`, of `write_types`, of
`write_compat` and of `write_symbols`, in this order and once each, then the
closing line; it depends on the keymap (and the text functions) alone, not
on the allocator nor on the format requested. The text of each of the four
functions is what it appends to a buffer when no allocation fails. -/
theorem get_as_string_sections (txt : TextExternals) (heap : Nat → Nat → Bool)
    (keymap : xkb_keymap) (format : Int) (s : String)
    (h : (xkb_keymap_get_as_string txt heap keymap format).1
      = dump_result.returned (some s)) :
    s = "xkb_keymap \x7b\n" ++
          (wcall.flat (write_keycodes.calls txt keymap) ++
          (wcall.flat (write_types.calls txt keymap) ++
          (wcall.flat (write_compat.calls txt keymap) ++
          (wcall.flat (write_symbols.calls txt keymap) ++ "\x7d;\n")))) ∧
    (∀ (b : buf) (text : String), b.holds text →
      (∃ b1, write_keycodes txt heap_ok keymap b = wresult.done true b1 ∧
        b1.holds (text ++ wcall.flat (write_keycodes.calls txt keymap))) ∧
      (∃ b1, write_types txt heap_ok keymap b = wresult.done true b1 ∧
        b1.holds (text ++ wcall.flat (write_types.calls txt keymap))) ∧
      (∃ b1, write_compat txt heap_ok keymap b = wresult.done true b1 ∧
        b1.holds (text ++ wcall.flat (write_compat.calls txt keymap))) ∧
      (∃ b1, write_symbols txt heap_ok keymap b = wresult.done true b1 ∧
        b1.holds (text ++ wcall.flat (write_symbols.calls txt keymap)))) := by
  constructor
  · exact get_as_string_some txt heap keymap format s h
  · intro b text hb
    exact ⟨run_heap_ok _ b text hb, run_heap_ok _ b text hb, run_heap_ok _ b text hb,
      run_heap_ok _ b text hb⟩

/-- Witness of C19: the keymap `dumpKeymap`, serialized in the format TEXT_V1
with an allocator that never fails. -/
theorem get_as_string_sections_witness :
    (xkb_keymap_get_as_string sampleTxt heap_ok dumpKeymap XKB_KEYMAP_FORMAT_TEXT_V1).1
      = dump_result.returned (some (keymap_text sampleTxt dumpKeymap)) ∧
    keymap_text sampleTxt dumpKeymap
      = "xkb_keymap \x7b\n" ++
          (wcall.flat (write_keycodes.calls sampleTxt dumpKeymap) ++
          (wcall.flat (write_types.calls sampleTxt dumpKeymap) ++
          (wcall.flat (write_compat.calls sampleTxt dumpKeymap) ++
          (wcall.flat (write_symbols.calls sampleTxt dumpKeymap) ++ "\x7d;\n")))) :=
  ⟨congrArg Prod.fst
      (get_as_string_heap_ok sampleTxt dumpKeymap XKB_KEYMAP_FORMAT_TEXT_V1 (by decide)),
   (get_as_string_sections sampleTxt heap_ok dumpKeymap XKB_KEYMAP_FORMAT_TEXT_V1
      (keymap_text sampleTxt dumpKeymap)
      (congrArg Prod.fst
        (get_as_string_heap_ok sampleTxt dumpKeymap XKB_KEYMAP_FORMAT_TEXT_V1 (by decide)))).1⟩

/-- C20: for every key type, the text `write_types` writes for the type is the
line of its name, the line of its modifiers, then for exactly the map entries
that are not (level 0 and preserve mask 0), in the order of the map, the line
`map[<mods>]= Level<level+1>;`, immediately followed by the line
`preserve[<mods>]= <mask>;` exactly when the preserve mask of the entry is
nonzero (the text `map_entry_text` of the entry), then the level names and the
closing line. The text of `write_types` is
the text of its first two steps (section header and virtual modifiers), the
texts of the types in the order of the type table, and the closing line; it is
what `write_types` appends to a buffer when no allocation fails. -/
theorem write_types_map_entries (txt : TextExternals) (keymap : xkb_keymap) :
    (∀ type : xkb_key_type,
      wcall.flat (write_types.type txt keymap type)
      = "\t\ttype \"" ++ fmt_s (xkb_atom_text keymap.ctx type.name) ++ "\" \x7b\n" ++
        ("\t\t\tmodifiers= " ++ txt.ModMaskText keymap type.mods.mods ++ ";\n" ++
        (texts_flat
          ((type.map.filter (fun e => decide (¬ (e.level = 0 ∧ e.preserve.mods = 0)))).map
            (map_entry_text txt keymap)) ++
        (wcall.flat
          (match type.level_names with
           | some names =>
             write_types.level_names keymap names (List.range type.num_levels)
           | none => []) ++
        "\t\t\x7d;\n")))) ∧
    wcall.flat (write_types.calls txt keymap)
      = wcall.flat ((write_types.calls txt keymap).take 2) ++
        (texts_flat (keymap.types.map (fun t => wcall.flat (write_types.type txt keymap t))) ++
        "\t\x7d;\n\n") ∧
    (∀ (b : buf) (text : String), b.holds text →
      ∃ b1, write_types txt heap_ok keymap b = wresult.done true b1 ∧
        b1.holds (text ++ wcall.flat (write_types.calls txt keymap))) := by
  refine ⟨?_, ?_, ?_⟩
  · intro type
    unfold write_types.type
    rw [flat_append, flat_append, flat_append, flat_entries]
    simp only [wcall.flat, String.append_assoc, String.append_empty, map_entries_text]
  · unfold write_types.calls
    rw [flat_append, flat_append, flat_types]
    simp only [List.cons_append, List.nil_append, List.take_succ_cons, List.take_zero,
      wcall.flat, String.append_assoc, String.append_empty]
  · intro b text hb
    exact run_heap_ok _ b text hb

/-- Witness of C20: the type `sampleType` has three map entries; the first (level
0, no preserve) is not printed, the second is printed as Level2, the third (level
0 with a preserve mask) as Level1 followed by its preserve line. -/
theorem write_types_map_entries_witness :
    wcall.flat (write_types.type sampleTxt dumpKeymap sampleType)
      = "\t\ttype \"Shift\" \x7b\n\t\t\tmodifiers= m1;\n\t\t\tmap[m1]= Level2;\n" ++
        "\t\t\tmap[m2]= Level1;\n\t\t\tpreserve[m2]= m2;\n\t\t\x7d;\n" :=
  ((write_types_map_entries sampleTxt dumpKeymap).1 sampleType).trans (by decide)

/-! ## Properties of `write_action` -/

/-- C22: for every MOD_SET, MOD_LATCH or MOD_LOCK action, `write_action` makes one
write, of the prefix, the name of the action type, and between parentheses
`modifiers=modMapMods` exactly when the flag LOOKUP_MODMAP is set and otherwise
`modifiers=` with the text of the modifier mask, then `,clearLocks` exactly when
the action is SET or LATCH and LOCK_CLEAR is set, then `,latchToLock` exactly
when the action is SET or LATCH and LATCH_TO_LOCK is set, then the suffix; for
MOD_LOCK the arguments are the modifiers alone; and this text is what
`write_action` appends to a buffer when no allocation fails. -/
theorem write_action_mods (txt : TextExternals) (keymap : xkb_keymap) (action : xkb_action)
    (pfx sfx : Option String)
    (h : action.type = ACTION_TYPE_MOD_SET ∨ action.type = ACTION_TYPE_MOD_LATCH ∨
      action.type = ACTION_TYPE_MOD_LOCK) :
    write_action.calls txt keymap action pfx sfx
      = [ pfx.getD "" ++ (txt.ActionTypeText action.type ++
          ("(" ++ (mod_action_args txt keymap action ++ (")" ++ sfx.getD "")))) ] ∧
    (action.type = ACTION_TYPE_MOD_LOCK →
      mod_action_args txt keymap action
        = "modifiers=" ++
          ((if action.flags &&& ACTION_MODS_LOOKUP_MODMAP ≠ 0 then "modMapMods"
            else txt.ModMaskText keymap action.mods.mods) ++ "")) ∧
    (∀ (b : buf) (text : String), b.holds text →
      ∃ b1, write_action txt heap_ok keymap b action pfx sfx = wresult.done true b1 ∧
        b1.holds (text ++ (pfx.getD "" ++ (txt.ActionTypeText action.type ++
          ("(" ++ (mod_action_args txt keymap action ++ (")" ++ sfx.getD ""))))))) := by
  have hcalls : write_action.calls txt keymap action pfx sfx
      = [ pfx.getD "" ++ (txt.ActionTypeText action.type ++
          ("(" ++ (mod_action_args txt keymap action ++ (")" ++ sfx.getD "")))) ] := by
    unfold write_action.calls mod_action_args
    simp only [h, if_true]
    have hlock : (action.type ≠ ACTION_TYPE_MOD_LOCK) ↔
        (action.type = ACTION_TYPE_MOD_SET ∨ action.type = ACTION_TYPE_MOD_LATCH) := by
      rcases h with h | h | h <;> rw [h] <;> decide
    simp only [hlock, String.append_assoc]
    rfl
  refine ⟨hcalls, ?_, ?_⟩
  · intro hl
    unfold mod_action_args
    have hno : ¬ (action.type = ACTION_TYPE_MOD_SET ∨ action.type = ACTION_TYPE_MOD_LATCH) := by
      rw [hl]
      decide
    simp only [hno, false_and, if_false, String.append_empty]
  · intro b text hb
    unfold write_action
    rw [hcalls]
    obtain ⟨b1, h1, h2⟩ := run_texts_heap_ok _ b text hb
    refine ⟨b1, h1, ?_⟩
    simpa [texts_flat] using h2

/-- Witness of C22: a MOD_SET action with LOCK_CLEAR and LATCH_TO_LOCK and the
mask 5, written with the prefix and the suffix of an interpret. -/
theorem write_action_mods_witness :
    (setModsAction.type = ACTION_TYPE_MOD_SET ∨ setModsAction.type = ACTION_TYPE_MOD_LATCH ∨
      setModsAction.type = ACTION_TYPE_MOD_LOCK) ∧
    write_action.calls sampleTxt dumpKeymap setModsAction (some "\t\t\taction= ") (some ";\n")
      = [ "\t\t\taction= Action1(modifiers=m5,clearLocks,latchToLock);\n" ] :=
  ⟨by decide,
   (write_action_mods sampleTxt dumpKeymap setModsAction (some "\t\t\taction= ") (some ";\n")
      (by decide)).1.trans (by decide)⟩

/-- C23, at the failing input: a GROUP_SET action that is relative (the flag
ABSOLUTE_SWITCH is clear) with the group offset 0 is written as `group=0`,
without the sign `+`; the relative offset 1 is written `group=+1`, the relative
offset -1 `group=-1`, and the absolute group 0 `group=1`. A relative pointer
move by 0 is written with the sign (`x=+0`). -/
theorem write_action_relative_group_zero :
    write_action.calls sampleTxt dumpKeymap (relativeGroupAction 0) none none
      = [ "Action4(group=0)" ] ∧
    write_action.calls sampleTxt dumpKeymap (relativeGroupAction 1) none none
      = [ "Action4(group=+1)" ] ∧
    write_action.calls sampleTxt dumpKeymap (relativeGroupAction (-1)) none none
      = [ "Action4(group=-1)" ] ∧
    write_action.calls sampleTxt dumpKeymap (absoluteGroupAction 0) none none
      = [ "Action4(group=1)" ] ∧
    write_action.calls sampleTxt dumpKeymap relativeMoveAction none none
      = [ "Action7(x=+0,y=+0)" ] := by
  decide

/-! ## Properties of `write_symbols` and `write_keycodes` on single keys -/

/-- C21, at the failing inputs: for a key of one group without explicit type,
explicit repeat or explicit actions, `write_symbols` writes the one-line form
`[ ... ] };` after the line `virtualMods= ...,` of an explicit
virtual-modifier map, and after the line `groupsClamp,` of an out-of-range group
policy; the same key with an explicit repeat is written in the form
`symbols[Group1]= [ ... ]`. -/
theorem write_symbols_simple_after_attribute :
    wcall.flat (write_symbols.key sampleTxt dumpKeymap vmodmapKey)
      = "\t\tkey <repeat>             \x7b\n\t\t\tvirtualMods= m1," ++
        "\t[             k97,             k65 ] \x7d;\n" ∧
    wcall.flat (write_symbols.key sampleTxt dumpKeymap clampKey)
      = "\t\tkey <repeat>             \x7b\n\t\t\tgroupsClamp," ++
        "\t[             k97,             k65 ] \x7d;\n" ∧
    wcall.flat (write_symbols.key sampleTxt dumpKeymap repeatKey)
      = "\t\tkey <repeat>             \x7b\n\t\t\trepeat= Yes," ++
        "\n\t\t\tsymbols[Group1]= [             k97,             k65 ]\n\t\t\x7d;\n" := by
  decide

/-- C26, at the failing inputs: for a key with the keycode 2^31 `write_keycodes`
writes the number -2147483648, and for the keycode 2^32 - 1 the number -1 (the
keycode is handed to the conversion `%d`); the keycode 10 is written 10. -/
theorem write_keycodes_high_keycode :
    write_keycodes.keys sampleTxt dumpKeymap [highKey, lastKey, vmodmapKey]
      = [ wcall.text "\t\t<Bogus>              = -2147483648;\n",
          wcall.text "\t\t<Bogus>              = -1;\n",
          wcall.text "\t\t<repeat>             = 10;\n" ] := by
  decide

/-! ## Failing writes whose result is not looked at -/

/-- C24, at the failing input: the keymap `longVmodKeymap` and an allocator
whose second call fails. In `write_types` the buffer holds 48 bytes of 4096
when `write_vmods` is called; the write of the name of the virtual modifier asks
for a larger allocation, fails and frees the buffer, and `write_vmods` returns
false; `write_types` does not look at this result and makes its next write on
the freed buffer, where `check_write_buf` hands the NULL pointer to `vsnprintf`
with room left: `xkb_keymap_get_as_string` does not return NULL, its behaviour
is undefined. With an allocator whose first call fails it returns NULL. -/
theorem get_as_string_write_vmods_fails :
    xkb_keymap_get_as_string sampleTxt (heap_first 1) longVmodKeymap XKB_KEYMAP_FORMAT_TEXT_V1
      = (dump_result.undefined, longVmodKeymap) ∧
    run (heap_first 1) { buf := none, size := 0, alloc := 0 }
        ([wcall.text "xkb_keymap \x7b\n"] ++ write_keycodes.calls sampleTxt longVmodKeymap ++
          (write_types.calls sampleTxt longVmodKeymap).take 1)
      = wresult.done true
          { buf := some "xkb_keymap \x7b\n\txkb_keycodes \x7b\n\t\x7d;\n\n\txkb_types \x7b\n\n",
            size := 48, alloc := 4096, reallocs := 1 } ∧
    write_vmods (heap_first 1) longVmodKeymap
        { buf := some "xkb_keymap \x7b\n\txkb_keycodes \x7b\n\t\x7d;\n\n\txkb_types \x7b\n\n",
          size := 48, alloc := 4096, reallocs := 1 }
      = wresult.done false { buf := none, size := 68, alloc := 12288, reallocs := 2 } ∧
    check_write_buf (heap_first 1) { buf := none, size := 68, alloc := 12288, reallocs := 2 }
        "\t\x7d;\n\n"
      = wresult.undefined ∧
    xkb_keymap_get_as_string sampleTxt (heap_first 0) longVmodKeymap XKB_KEYMAP_FORMAT_TEXT_V1
      = (dump_result.returned none, longVmodKeymap) := by
  refine ⟨?_, ?_, ?_, ?_, ?_⟩
  · decide!
  · decide
  · decide!
  · decide
  · decide!

/-! ## Failing assignments in the body of an interpret -/

/-- C28, at the failing inputs: in `interpret a { Bogus = ...; repeat = ...; }`
the first assignment fails (an interpret has no field "Bogus") and the second
succeeds; `HandleInterpDef` returns true, appends the interpret to the list and
leaves the error counter as it was. The same holds when the first assignment is
an attempt to set a global default (`Shift.repeat = ...`). With the two
assignments in the other order `HandleInterpDef` returns false, leaves the list
as it was and increments the counter. -/
theorem HandleInterpDef_failure_forgotten :
    (HandleInterpDef sampleExt atomInfo (interpretWith [bogusAssignment, repeatAssignment])
        MERGE_AUGMENT).1 = true ∧
    (HandleInterpDef sampleExt atomInfo (interpretWith [bogusAssignment, repeatAssignment])
        MERGE_AUGMENT).2.interps.length = atomInfo.interps.length + 1 ∧
    (HandleInterpDef sampleExt atomInfo (interpretWith [bogusAssignment, repeatAssignment])
        MERGE_AUGMENT).2.errorCount = atomInfo.errorCount ∧
    (HandleInterpDef sampleExt atomInfo (interpretWith [defaultAssignment, repeatAssignment])
        MERGE_AUGMENT).1 = true ∧
    (HandleInterpDef sampleExt atomInfo (interpretWith [defaultAssignment, repeatAssignment])
        MERGE_AUGMENT).2.interps.length = atomInfo.interps.length + 1 ∧
    (HandleInterpDef sampleExt atomInfo (interpretWith [repeatAssignment, bogusAssignment])
        MERGE_AUGMENT).1 = false ∧
    (HandleInterpDef sampleExt atomInfo (interpretWith [repeatAssignment, bogusAssignment])
        MERGE_AUGMENT).2.interps = atomInfo.interps ∧
    (HandleInterpDef sampleExt atomInfo (interpretWith [repeatAssignment, bogusAssignment])
        MERGE_AUGMENT).2.errorCount = atomInfo.errorCount + 1 := by
  decide

/-! ## Lemmas on `HandleIndicatorMapDef` -/

theorem log_leds (info : CompatInfo) (msgs : List log_entry) :
    (info.log msgs).leds = info.leds ∧ (info.log msgs).ledDflt = info.ledDflt :=
  ⟨rfl, rfl⟩

theorem SetIndicatorMapField_info (ext : Externals) (info : CompatInfo) (led : LEDInfo)
    (field : String) (arrayNdx value : Option ExprDef) :
    (SetIndicatorMapField ext info led field arrayNdx value).2.1.leds = info.leds ∧
    (SetIndicatorMapField ext info led field arrayNdx value).2.1.ledDflt = info.ledDflt := by
  unfold SetIndicatorMapField
  split_ifs <;> (try split) <;> exact ⟨rfl, rfl⟩

theorem indicator_loop_info (ext : Externals) (body : List VarDef) (info : CompatInfo)
    (led : LEDInfo) (ok : Bool) :
    (HandleIndicatorMapDef.loop ext info led ok body).2.1.leds = info.leds ∧
    (HandleIndicatorMapDef.loop ext info led ok body).2.1.ledDflt = info.ledDflt := by
  induction body generalizing info led ok with
  | nil => exact ⟨rfl, rfl⟩
  | cons var rest ih =>
    unfold HandleIndicatorMapDef.loop
    split
    · exact ih info led false
    · split_ifs
      · exact ih _ led false
      · rename_i elem field arrayNdx _ _
        have h1 := ih (SetIndicatorMapField ext info led field arrayNdx var.value).2.1
          (SetIndicatorMapField ext info led field arrayNdx var.value).2.2
          ((SetIndicatorMapField ext info led field arrayNdx var.value).1 && ok)
        have h2 := SetIndicatorMapField_info ext info led field arrayNdx var.value
        exact ⟨h1.1.trans h2.1, h1.2.trans h2.2⟩

theorem indicator_loop_false (ext : Externals) (body : List VarDef) (info : CompatInfo)
    (led : LEDInfo) :
    (HandleIndicatorMapDef.loop ext info led false body).1 = false := by
  induction body generalizing info led with
  | nil => rfl
  | cons var rest ih =>
    unfold HandleIndicatorMapDef.loop
    split
    · exact ih info led
    · split_ifs
      · exact ih _ led
      · simp only [Bool.and_false]
        exact ih _ _

theorem indicator_loop_append (ext : Externals) (pre rest : List VarDef) (info : CompatInfo)
    (led : LEDInfo) (ok : Bool) :
    HandleIndicatorMapDef.loop ext info led ok (pre ++ rest)
    = HandleIndicatorMapDef.loop ext
        (HandleIndicatorMapDef.loop ext info led ok pre).2.1
        (HandleIndicatorMapDef.loop ext info led ok pre).2.2
        (HandleIndicatorMapDef.loop ext info led ok pre).1 rest := by
  induction pre generalizing info led ok with
  | nil => rfl
  | cons var more ih =>
    rw [List.cons_append]
    cases h : ext.ExprResolveLhs info.keymap.ctx var.name with
    | none =>
      simp only [HandleIndicatorMapDef.loop, h]
      exact ih info led false
    | some t =>
      obtain ⟨elem, field, arrayNdx⟩ := t
      by_cases he : elem.isSome = true
      · simp only [HandleIndicatorMapDef.loop, h, he, if_true]
        exact ih _ led false
      · simp only [HandleIndicatorMapDef.loop, h, he, if_false]
        exact ih _ _ _

theorem indicator_loop_fails (ext : Externals) (var : VarDef) (post : List VarDef)
    (info : CompatInfo) (led : LEDInfo) (ok : Bool)
    (hf : indicator_assignment_fails ext info led var = true) :
    (HandleIndicatorMapDef.loop ext info led ok (var :: post)).1 = false := by
  unfold indicator_assignment_fails at hf
  unfold HandleIndicatorMapDef.loop
  split
  · exact indicator_loop_false ext post info led
  · rename_i elem field arrayNdx heq
    rw [heq] at hf
    simp only at hf
    split_ifs with he
    · exact indicator_loop_false ext post _ led
    · have hr : (SetIndicatorMapField ext info led field arrayNdx var.value).1 = false := by
        simpa [he] using hf
      simp only [hr, Bool.false_and]
      exact indicator_loop_false ext post _ _

/-! ## Properties of `HandleIndicatorMapDef` -/

/-- C29: if a field assignment `var` of the body of an indicator-map statement
fails when it is reached (after the assignments `pre` before it were handled),
whatever follows it, `HandleIndicatorMapDef` returns false, and the LED list and
the default LED template of the compat-info are as they were. -/
theorem HandleIndicatorMapDef_assignment_fails (ext : Externals) (info : CompatInfo)
    (d : IndicatorMapDef) (merge : merge_mode) (pre post : List VarDef) (var : VarDef)
    (hb : d.body = pre ++ var :: post)
    (hf : indicator_assignment_fails ext
      (HandleIndicatorMapDef.loop ext info (HandleIndicatorMapDef.start info d merge) true pre).2.1
      (HandleIndicatorMapDef.loop ext info (HandleIndicatorMapDef.start info d merge) true pre).2.2
      var = true) :
    (HandleIndicatorMapDef ext info d merge).1 = false ∧
    (HandleIndicatorMapDef ext info d merge).2.leds = info.leds ∧
    (HandleIndicatorMapDef ext info d merge).2.ledDflt = info.ledDflt := by
  have hloop : (HandleIndicatorMapDef.loop ext info (HandleIndicatorMapDef.start info d merge)
      true d.body).1 = false := by
    rw [hb, indicator_loop_append]
    exact indicator_loop_fails ext var post _ _ _ hf
  have hinfo := indicator_loop_info ext d.body info (HandleIndicatorMapDef.start info d merge) true
  have hdef : HandleIndicatorMapDef ext info d merge
      = (false, (HandleIndicatorMapDef.loop ext info (HandleIndicatorMapDef.start info d merge)
          true d.body).2.1) := by
    unfold HandleIndicatorMapDef
    unfold HandleIndicatorMapDef.start at hloop
    simp only [hloop, Bool.false_eq_true, if_false]
    rfl
  rw [hdef]
  exact ⟨rfl, hinfo.1, hinfo.2⟩

/-- Witness of C29: the statement `badIndicator`, whose second assignment of
three is to the unknown field "Bogus". -/
theorem HandleIndicatorMapDef_assignment_fails_witness :
    badIndicator.body = [groupsAssignment] ++ bogusAssignment :: [groupsAssignment] ∧
    (HandleIndicatorMapDef sampleExt atomInfo badIndicator MERGE_AUGMENT).1 = false ∧
    (HandleIndicatorMapDef sampleExt atomInfo badIndicator MERGE_AUGMENT).2.leds
      = atomInfo.leds ∧
    (HandleIndicatorMapDef sampleExt atomInfo badIndicator MERGE_AUGMENT).2.ledDflt
      = atomInfo.ledDflt :=
  ⟨rfl,
   HandleIndicatorMapDef_assignment_fails sampleExt atomInfo badIndicator MERGE_AUGMENT
     [groupsAssignment] [groupsAssignment] bogusAssignment rfl (by decide)⟩

/-! ## Lemmas on the error counter -/

theorem SetInterpField_errorCount (ext : Externals) (info : CompatInfo) (si : SymInterpInfo)
    (field : String) (arrayNdx value : Option ExprDef) :
    (SetInterpField ext info si field arrayNdx value).2.1.errorCount = info.errorCount := by
  unfold SetInterpField
  simp only
  split_ifs <;> (try split) <;> rfl

theorem SetIndicatorMapField_errorCount (ext : Externals) (info : CompatInfo) (led : LEDInfo)
    (field : String) (arrayNdx value : Option ExprDef) :
    (SetIndicatorMapField ext info led field arrayNdx value).2.1.errorCount
    = info.errorCount := by
  unfold SetIndicatorMapField
  split_ifs <;> (try split) <;> rfl

theorem AddInterp_errorCount (info : CompatInfo) (new : SymInterpInfo) :
    (AddInterp info new).1 = true ∧ (AddInterp info new).2.errorCount = info.errorCount := by
  unfold AddInterp
  split
  · simp only
    split_ifs <;> exact ⟨rfl, rfl⟩
  · exact ⟨rfl, rfl⟩

theorem AddIndicatorMap_errorCount (info : CompatInfo) (new : LEDInfo) :
    (AddIndicatorMap info new).2.errorCount = info.errorCount := by
  unfold AddIndicatorMap
  split <;> rfl

theorem ResolveStateAndPredicate_errorCount (ext : Externals) (expr : Option ExprDef)
    (info : CompatInfo) :
    (ResolveStateAndPredicate ext expr info).2.errorCount = info.errorCount := by
  unfold ResolveStateAndPredicate
  split
  · rfl
  · simp only
    split <;> rfl
  · simp only
    split_ifs <;> rfl
  · rfl

theorem interp_loop_errorCount (ext : Externals) (body : List VarDef) (info : CompatInfo)
    (si : SymInterpInfo) (ok : Bool) :
    (HandleInterpBody.loop ext info si ok body).2.1.errorCount = info.errorCount := by
  induction body generalizing info si ok with
  | nil => rfl
  | cons d rest ih =>
    unfold HandleInterpBody.loop
    split_ifs
    · exact ih _ si false
    · split
      · exact ih info si false
      · rename_i _ field arrayNdx _
        exact (ih _ _ _).trans (SetInterpField_errorCount ext info si field arrayNdx d.value)

theorem indicator_loop_errorCount (ext : Externals) (body : List VarDef) (info : CompatInfo)
    (led : LEDInfo) (ok : Bool) :
    (HandleIndicatorMapDef.loop ext info led ok body).2.1.errorCount = info.errorCount := by
  induction body generalizing info led ok with
  | nil => rfl
  | cons var rest ih =>
    unfold HandleIndicatorMapDef.loop
    split
    · exact ih info led false
    · split_ifs
      · exact ih _ led false
      · rename_i _ field arrayNdx _ _
        exact (ih _ _ _).trans
          (SetIndicatorMapField_errorCount ext info led field arrayNdx var.value)

theorem HandleIndicatorMapDef_eq (ext : Externals) (info : CompatInfo)
    (d : IndicatorMapDef) (merge : merge_mode) :
    HandleIndicatorMapDef ext info d merge
    = if (HandleIndicatorMapDef.loop ext info (HandleIndicatorMapDef.start info d merge) true
          d.body).1 then
        AddIndicatorMap
          (HandleIndicatorMapDef.loop ext info (HandleIndicatorMapDef.start info d merge) true
            d.body).2.1
          (HandleIndicatorMapDef.loop ext info (HandleIndicatorMapDef.start info d merge) true
            d.body).2.2
      else
        (false, (HandleIndicatorMapDef.loop ext info (HandleIndicatorMapDef.start info d merge)
          true d.body).2.1) :=
  rfl

theorem HandleIndicatorMapDef_errorCount (ext : Externals) (info : CompatInfo)
    (d : IndicatorMapDef) (merge : merge_mode) :
    (HandleIndicatorMapDef ext info d merge).2.errorCount = info.errorCount := by
  rw [HandleIndicatorMapDef_eq]
  split_ifs
  · exact (AddIndicatorMap_errorCount _ _).trans (indicator_loop_errorCount ext _ info _ true)
  · exact indicator_loop_errorCount ext _ info _ true

theorem HandleGlobalVar_errorCount (ext : Externals) (info : CompatInfo) (stmt : VarDef) :
    (HandleGlobalVar ext info stmt).2.errorCount = info.errorCount := by
  unfold HandleGlobalVar
  split
  · rfl
  · split_ifs
    · exact SetInterpField_errorCount ext info info.dflt _ _ _
    · exact SetIndicatorMapField_errorCount ext info info.ledDflt _ _ _
    · rfl

theorem HandleInterpDef_unresolved (ext : Externals) (info : CompatInfo) (d : InterpDef)
    (merge : merge_mode)
    (h : (ResolveStateAndPredicate ext d.match_ info).1 = none ∨ ext.LookupKeysym d.sym = none) :
    (HandleInterpDef ext info d merge).1 = false ∧
    (HandleInterpDef ext info d merge).2.errorCount = info.errorCount := by
  unfold HandleInterpDef
  cases hres : (ResolveStateAndPredicate ext d.match_ info).1 with
  | none =>
    refine ⟨?_, ?_⟩
    · simp only [hres]
    · simp only [hres]
      exact ResolveStateAndPredicate_errorCount ext d.match_ info
  | some pm =>
    rcases h with h | h
    · rw [hres] at h
      cases h
    · refine ⟨?_, ?_⟩
      · simp only [hres, h]
      · simp only [hres, h]
        exact ResolveStateAndPredicate_errorCount ext d.match_ info

theorem HandleInterpDef_ok_errorCount (ext : Externals) (info : CompatInfo) (d : InterpDef)
    (merge : merge_mode) (h : (HandleInterpDef ext info d merge).1 = true) :
    (HandleInterpDef ext info d merge).2.errorCount = info.errorCount := by
  cases hres : (ResolveStateAndPredicate ext d.match_ info).1 with
  | none =>
    rw [(HandleInterpDef_unresolved ext info d merge (Or.inl hres)).1] at h
    cases h
  | some pm =>
    cases hsym : ext.LookupKeysym d.sym with
    | none =>
      rw [(HandleInterpDef_unresolved ext info d merge (Or.inr hsym)).1] at h
      cases h
    | some sym =>
      unfold HandleInterpDef at h ⊢
      simp only [hres, hsym] at h ⊢
      by_cases hb : (HandleInterpBody ext (ResolveStateAndPredicate ext d.match_ info).2 d.def_
          { (ResolveStateAndPredicate ext d.match_ info).2.dflt with
            merge := if d.merge = MERGE_DEFAULT then merge else d.merge,
            interp := { (ResolveStateAndPredicate ext d.match_ info).2.dflt.interp with
                        sym := sym, match_ := pm.1, mods := pm.2 } }).1 = true
      · simp only [hb, not_true_eq_false, if_false, (AddInterp_errorCount _ _).1]
        exact ((AddInterp_errorCount _ _).2.trans (interp_loop_errorCount ext _ _ _ true)).trans
          (ResolveStateAndPredicate_errorCount ext d.match_ info)
      · simp only [hb, not_false_eq_true, if_true] at h
        cases h

theorem file_loop_single (handle : CompatInfo → Stmt → Option (Bool × CompatInfo))
    (info info1 : CompatInfo) (stmt : Stmt) (ok : Bool)
    (h : handle info stmt = some (ok, info1)) :
    ∃ info2, HandleCompatMapFile.loop handle info [stmt] = some info2 ∧
      info2.errorCount = if ok then info1.errorCount else info1.errorCount + 1 := by
  cases ok with
  | true =>
    by_cases hc : info1.errorCount > 10
    · refine ⟨info1.log [log_entry.msg "err" "Abandoning compatibility map"], ?_, rfl⟩
      simp [HandleCompatMapFile.loop, h, hc]
    · refine ⟨info1, ?_, rfl⟩
      simp [HandleCompatMapFile.loop, h, hc]
  | false =>
    by_cases hc : info1.errorCount + 1 > 10
    · refine ⟨({ info1 with errorCount := info1.errorCount + 1 }).log
        [log_entry.msg "err" "Abandoning compatibility map"], ?_, rfl⟩
      simp [HandleCompatMapFile.loop, h, hc]
    · refine ⟨{ info1 with errorCount := info1.errorCount + 1 }, ?_, rfl⟩
      simp [HandleCompatMapFile.loop, h, hc]


theorem include_unprocessed (ext : Externals)
    (handleFile : CompatInfo → XkbFile → merge_mode → Option CompatInfo)
    (info : CompatInfo) (s : IncludeStmt) (next : List IncludeStmt)
    (h : ext.ProcessIncludeFile info.keymap.ctx s = none) :
    ∃ info1, HandleIncludeCompatMap ext handleFile info s next = some (false, info1) ∧
      info1.errorCount = info.errorCount + 10 := by
  unfold HandleIncludeCompatMap
  cases hs : s.stmt with
  | none =>
    simp only [HandleIncludeCompatMap.loop]
    have h2 : ext.ProcessIncludeFile
        (InitCompatInfo info.keymap info.file_id info.actions).keymap.ctx s = none := h
    rw [h2]
    exact ⟨_, rfl, rfl⟩
  | some name =>
    simp only [HandleIncludeCompatMap.loop]
    have h2 : ext.ProcessIncludeFile
        ({ InitCompatInfo info.keymap info.file_id info.actions with
           name := some name }).keymap.ctx s = none := h
    rw [h2]
    exact ⟨_, rfl, rfl⟩

/-! ## Properties of the error counter of `HandleCompatMapFile` -/

/-- C30, counterexample: the statement `include "missing"`, whose file cannot be
processed, fails, and the error counter after it is the counter before it plus
eleven, not plus one; the file is abandoned at this first failing statement
(the statements that follow it are not handled). -/
theorem HandleCompatMapFile_include_adds_eleven :
    (sampleHandle atomInfo includeStmt).map (fun r => r.1) = some false ∧
    (HandleCompatMapFile.loop sampleHandle atomInfo [includeStmt]).map (fun i => i.errorCount)
      = some (atomInfo.errorCount + 11) ∧
    atomInfo.errorCount + 11 ≠ atomInfo.errorCount + 1 ∧
    HandleCompatMapFile.loop sampleHandle atomInfo (includeStmt :: goodFile.defs)
      = HandleCompatMapFile.loop sampleHandle atomInfo [includeStmt] := by
  decide

/-- C30, amended: for every statement handled by `HandleCompatMapFile` that is
neither an include nor an interpret, the error counter after the statement is
the counter before it plus one when the statement fails and the counter before
it when the statement succeeds. The same holds for an interpret statement that
succeeds, and for one that fails because its predicate or its keysym cannot be
resolved. An include statement whose file cannot be processed adds eleven (ten
for the include, one for the statement), so that the file is abandoned at this
statement. -/
theorem HandleCompatMapFile_counts (ext : Externals)
    (handleFile : CompatInfo → XkbFile → merge_mode → Option CompatInfo)
    (merge : merge_mode) (info : CompatInfo) (stmt : Stmt) :
    (∀ (ok : Bool) (info1 : CompatInfo),
      (∀ s next, stmt ≠ Stmt.STMT_INCLUDE s next) → (∀ d, stmt ≠ Stmt.STMT_INTERP d) →
      HandleCompatMapFile.stmt ext handleFile merge info stmt = some (ok, info1) →
      ∃ info2,
        HandleCompatMapFile.loop (HandleCompatMapFile.stmt ext handleFile merge) info [stmt]
          = some info2 ∧
        info2.errorCount = if ok then info.errorCount else info.errorCount + 1) ∧
    (∀ d, stmt = Stmt.STMT_INTERP d →
      ((HandleInterpDef ext info d merge).1 = true ∨
        (ResolveStateAndPredicate ext d.match_ info).1 = none ∨
        ext.LookupKeysym d.sym = none) →
      ∃ info2,
        HandleCompatMapFile.loop (HandleCompatMapFile.stmt ext handleFile merge) info [stmt]
          = some info2 ∧
        info2.errorCount = if (HandleInterpDef ext info d merge).1 then info.errorCount
          else info.errorCount + 1) ∧
    (∀ s next rest, stmt = Stmt.STMT_INCLUDE s next →
      ext.ProcessIncludeFile info.keymap.ctx s = none → 0 ≤ info.errorCount →
      ∃ info2,
        HandleCompatMapFile.loop (HandleCompatMapFile.stmt ext handleFile merge) info
          (stmt :: rest) = some info2 ∧
        info2.errorCount = info.errorCount + 11) := by
  refine ⟨?_, ?_, ?_⟩
  · intro ok info1 hni hnt h
    obtain ⟨info2, h2, hc⟩ := file_loop_single _ info info1 stmt ok h
    refine ⟨info2, h2, ?_⟩
    have hsame : info1.errorCount = info.errorCount := by
      cases stmt with
      | STMT_INCLUDE s next => exact absurd rfl (hni s next)
      | STMT_INTERP d => exact absurd rfl (hnt d)
      | STMT_GROUP_COMPAT =>
        simp only [HandleCompatMapFile.stmt, Option.some.injEq, Prod.mk.injEq] at h
        rw [← h.2]
        rfl
      | STMT_INDICATOR_MAP d =>
        simp only [HandleCompatMapFile.stmt, Option.some.injEq] at h
        have h3 := HandleIndicatorMapDef_errorCount ext info d merge
        rw [h] at h3
        exact h3
      | STMT_VAR d =>
        simp only [HandleCompatMapFile.stmt, Option.some.injEq] at h
        have h3 := HandleGlobalVar_errorCount ext info d
        rw [h] at h3
        exact h3
      | STMT_VMOD d =>
        simp only [HandleCompatMapFile.stmt, Option.some.injEq, Prod.mk.injEq] at h
        rw [← h.2]
      | STMT_OTHER t =>
        simp only [HandleCompatMapFile.stmt, Option.some.injEq, Prod.mk.injEq] at h
        rw [← h.2]
        rfl
    rw [hc, hsame]
  · intro d hd hcase
    subst hd
    have h : HandleCompatMapFile.stmt ext handleFile merge info (Stmt.STMT_INTERP d)
        = some ((HandleInterpDef ext info d merge).1, (HandleInterpDef ext info d merge).2) := rfl
    obtain ⟨info2, h2, hc⟩ := file_loop_single _ info _ _ _ h
    refine ⟨info2, h2, ?_⟩
    rcases hcase with hok | hun
    · rw [hc, hok, HandleInterpDef_ok_errorCount ext info d merge hok]
    · have hu := HandleInterpDef_unresolved ext info d merge hun
      rw [hc, hu.1, hu.2]
  · intro s next rest hs hp hpos
    subst hs
    obtain ⟨info1, h1, hc⟩ := include_unprocessed ext handleFile info s next hp
    have h : HandleCompatMapFile.stmt ext handleFile merge info (Stmt.STMT_INCLUDE s next)
        = some (false, info1) := h1
    have hgt : info1.errorCount + 1 > 10 := by omega
    refine ⟨({ info1 with errorCount := info1.errorCount + 1 }).log
      [log_entry.msg "err" "Abandoning compatibility map"], ?_, ?_⟩
    · simp [HandleCompatMapFile.loop, h, hgt]
    · show info1.errorCount + 1 = info.errorCount + 11
      omega

/-- Witness of the amended C30: the statement of a type that a compat file may
not hold fails and adds one; the indicator-map statement of `goodFile` succeeds
and adds nothing; the statement `include "missing"` adds eleven. -/
theorem HandleCompatMapFile_counts_witness :
    (HandleCompatMapFile.loop sampleHandle atomInfo [Stmt.STMT_OTHER 99]).map
        (fun i => i.errorCount) = some (atomInfo.errorCount + 1) ∧
    (∃ info2,
      HandleCompatMapFile.loop sampleHandle atomInfo (includeStmt :: goodFile.defs)
        = some info2 ∧
      info2.errorCount = atomInfo.errorCount + 11) :=
  ⟨by decide,
   (HandleCompatMapFile_counts sampleExt (fun _ _ _ => none) MERGE_AUGMENT atomInfo
      includeStmt).2.2 _ _ goodFile.defs rfl rfl (by decide)⟩

/-! ## Properties of the consumed modifiers -/

theorem testBit_remove (m c i : Nat) :
    (m ^^^ (m &&& c)).testBit i = (m.testBit i && !c.testBit i) := by
  rw [Nat.testBit_xor, Nat.testBit_and]
  cases m.testBit i <;> cases c.testBit i <;> rfl

/-- C27: for every state, keycode and modifier mask `m`, the mask
`xkb_state_mod_mask_remove_consumed state kc m` is a subset of `m`, and it
differs from `m` exactly by the consumed modifiers of the key: a modifier is in
it exactly when it is in `m` and not consumed, so it shares no modifier with the
consumed mask and `m` is it together with the consumed modifiers of `m`. -/
theorem remove_consumed_subset (state : xkb_state) (kc m : Nat) :
    xkb_state_mod_mask_remove_consumed state kc m &&& m
      = xkb_state_mod_mask_remove_consumed state kc m ∧
    (∀ i : Nat, (xkb_state_mod_mask_remove_consumed state kc m).testBit i
      = (m.testBit i && !(key_get_consumed state kc).testBit i)) ∧
    xkb_state_mod_mask_remove_consumed state kc m &&& key_get_consumed state kc = 0 ∧
    xkb_state_mod_mask_remove_consumed state kc m ||| (m &&& key_get_consumed state kc) = m := by
  unfold xkb_state_mod_mask_remove_consumed
  generalize key_get_consumed state kc = c
  refine ⟨?_, ?_, ?_, ?_⟩
  · apply Nat.eq_of_testBit_eq
    intro i
    rw [Nat.testBit_and, testBit_remove]
    cases m.testBit i <;> cases c.testBit i <;> rfl
  · intro i
    exact testBit_remove m c i
  · apply Nat.eq_of_testBit_eq
    intro i
    rw [Nat.testBit_and, testBit_remove, Nat.zero_testBit]
    cases m.testBit i <;> cases c.testBit i <;> rfl
  · apply Nat.eq_of_testBit_eq
    intro i
    rw [Nat.testBit_or, Nat.testBit_and, testBit_remove]
    cases m.testBit i <;> cases c.testBit i <;> rfl

/-- The scenario of the test `test_consume` (C27): with Alt and Shift depressed
the effective mask is Alt|Shift, the key KEY_EQUAL consumes Shift, and removing
the consumed modifiers from Alt|Shift for this key leaves Alt alone. -/
theorem remove_consumed_subset_witness :
    consumeState.mods = 2 ^ 3 ||| 2 ^ 0 ∧
    key_get_consumed consumeState KEY_EQUAL_keycode = 2 ^ 0 ∧
    xkb_state_mod_mask_remove_consumed consumeState KEY_EQUAL_keycode (2 ^ 3 ||| 2 ^ 0) = 2 ^ 3 ∧
    xkb_state_mod_mask_remove_consumed consumeState KEY_EQUAL_keycode (2 ^ 3 ||| 2 ^ 0)
        &&& (2 ^ 3 ||| 2 ^ 0)
      = xkb_state_mod_mask_remove_consumed consumeState KEY_EQUAL_keycode (2 ^ 3 ||| 2 ^ 0) :=
  ⟨by decide, by decide, by decide,
   (remove_consumed_subset consumeState KEY_EQUAL_keycode (2 ^ 3 ||| 2 ^ 0)).1⟩

/-! ## More properties of `write_action` and of the buffer -/

/-- C37, at the failing inputs: for a SWITCH_VT action whose flag SAME_SCREEN is
set `write_action` writes the negated `!same`, and for one whose flag is clear
it writes `same`. The screen number has the sign `+` when the action is relative
and the number is not negative (also 0), and no sign when it is absolute. -/
theorem write_action_same_screen_negated :
    write_action.calls sampleTxt dumpKeymap (switchAction ACTION_SAME_SCREEN 1) none none
      = [ "Action12(screen=+1,!same)" ] ∧
    write_action.calls sampleTxt dumpKeymap (switchAction 0 1) none none
      = [ "Action12(screen=+1,same)" ] ∧
    write_action.calls sampleTxt dumpKeymap (switchAction 0 0) none none
      = [ "Action12(screen=+0,same)" ] ∧
    write_action.calls sampleTxt dumpKeymap (switchAction 0 (-1)) none none
      = [ "Action12(screen=-1,same)" ] ∧
    write_action.calls sampleTxt dumpKeymap (switchAction ACTION_ABSOLUTE_SWITCH 2) none none
      = [ "Action12(screen=2,same)" ] := by
  decide

/-- C31: for every buffer with size <= alloc and every text of `n` bytes:
when `do_realloc` is called for `n` (with `n >= alloc - size`) and succeeds, the
capacity has grown by 4096 bytes, plus `n` when `n >= 4096`, the size is as it
was, and the free space is strictly greater than `n`; so once the capacity is
there (no reallocation needed, or `do_realloc` succeeded) `check_write_buf`
succeeds on a buffer it may be called on; and after every successful write the
size has grown by exactly `n`, it is below the capacity, and the buffer holds
the earlier content followed by the text. -/
theorem check_write_buf_growth (heap : Nat → Nat → Bool) (b : buf) (t : String)
    (hs : b.size ≤ b.alloc) :
    (t.utf8ByteSize ≥ b.alloc - b.size → (do_realloc heap b t.utf8ByteSize).1 = true →
      (do_realloc heap b t.utf8ByteSize).2.alloc
        = b.alloc + 4096 + (if t.utf8ByteSize ≥ 4096 then t.utf8ByteSize else 0) ∧
      (do_realloc heap b t.utf8ByteSize).2.size = b.size ∧
      (do_realloc heap b t.utf8ByteSize).2.alloc - b.size > t.utf8ByteSize) ∧
    (¬ (b.buf = none ∧ b.alloc - b.size > 0) →
      (t.utf8ByteSize < b.alloc - b.size ∨ (do_realloc heap b t.utf8ByteSize).1 = true) →
      ∃ b1, check_write_buf heap b t = wresult.done true b1) ∧
    (∀ b1, check_write_buf heap b t = wresult.done true b1 →
      b1.size = b.size + t.utf8ByteSize ∧ b1.size < b1.alloc ∧
      b1.buf = some (b.content ++ t)) := by
  have hsp := do_realloc_space heap b t.utf8ByteSize hs
  refine ⟨?_, ?_, ?_⟩
  · intro _ _
    refine ⟨?_, hsp.1, hsp.2.1⟩
    unfold do_realloc BUF_CHUNK_SIZE
    simp only
    split_ifs <;> simp
  · intro hund hroom
    unfold check_write_buf
    simp only [hund, if_false]
    by_cases hp : t.utf8ByteSize ≥ b.alloc - b.size
    · have hr : (do_realloc heap b t.utf8ByteSize).1 = true := by
        rcases hroom with h | h
        · omega
        · exact h
      have hlt : ¬ (t.utf8ByteSize ≥ (do_realloc heap b t.utf8ByteSize).2.alloc
          - (do_realloc heap b t.utf8ByteSize).2.size) := by
        rw [hsp.1]; omega
      simp only [hp, if_true, hr, not_true_eq_false, if_false, hlt]
      exact ⟨_, rfl⟩
    · simp only [hp, if_false, not_true_eq_false, not_false_eq_true]
      exact ⟨_, rfl⟩
  · intro b1 h
    unfold check_write_buf at h
    by_cases hund : b.buf = none ∧ b.alloc - b.size > 0
    · simp only [hund, and_self, if_true] at h
      cases h
    · simp only [hund, if_false] at h
      by_cases hp : t.utf8ByteSize ≥ b.alloc - b.size
      · simp only [hp, if_true] at h
        by_cases hr : (do_realloc heap b t.utf8ByteSize).1 = true
        · have hlt : ¬ (t.utf8ByteSize ≥ (do_realloc heap b t.utf8ByteSize).2.alloc
              - (do_realloc heap b t.utf8ByteSize).2.size) := by
            rw [hsp.1]; omega
          simp only [hr, not_true_eq_false, if_false, hlt] at h
          have hb := wresult.done.inj h
          rw [← hb.2]
          refine ⟨?_, ?_, ?_⟩
          · simp only [hsp.1]
          · simp only [hsp.1]; omega
          · simp only [hsp.2.2.2 hr, Option.getD_some]
        · simp only [hr, not_false_eq_true, if_true] at h
          have hb := wresult.done.inj h
          exact absurd hb.1 (by simp)
      · simp only [hp, if_false, not_true_eq_false, not_false_eq_true] at h
        have hb := wresult.done.inj h
        rw [← hb.2]
        refine ⟨rfl, ?_, rfl⟩
        simp only
        omega

/-- Witness of C31: a buffer of 4096 bytes holding 4090 bytes, and a write of 13
bytes: the capacity grows to 8192 and the write succeeds with the size 4103. -/
theorem check_write_buf_growth_witness :
    nearlyFullBuf.size ≤ nearlyFullBuf.alloc ∧
    (do_realloc heap_ok nearlyFullBuf 13).2.alloc = 8192 ∧
    (∃ b1, check_write_buf heap_ok nearlyFullBuf "xkb_keymap \x7b\n" = wresult.done true b1) :=
  ⟨by decide, by decide,
   (check_write_buf_growth heap_ok nearlyFullBuf "xkb_keymap \x7b\n" (by decide)).2.1
     (by decide) (Or.inr (by decide))⟩

/-! ## The copy of interprets loses and duplicates nothing -/

theorem count_bucketOf (info : CompatInfo) (k : Bool × xkb_match_operation)
    (a : xkb_sym_interpret) :
    (bucketOf info k).count a
    = if inBucket k.1 k.2 a then (info.interps.map (fun si => si.interp)).count a else 0 := by
  unfold bucketOf
  by_cases h : inBucket k.1 k.2 a = true
  · rw [if_pos h, List.count_filter h]
  · rw [if_neg h, List.count_eq_zero]
    intro hmem
    exact h (List.mem_filter.mp hmem).2

theorem copyOrder_perm (info : CompatInfo) :
    (copyOrder.flatMap (bucketOf info)).Perm (info.interps.map (fun si => si.interp)) := by
  rw [List.perm_iff_count]
  intro a
  simp only [copyOrder, List.flatMap_cons, List.flatMap_nil, List.count_append,
    List.append_nil, count_bucketOf, List.count_nil, Nat.add_zero]
  unfold inBucket
  cases hm : a.match_ <;> by_cases hs : a.sym = XKB_KEY_NoSymbol <;> simp [hs]

/-- C33: for every compat-info, the keymap's `sym_interprets` after
`CopyCompatToKeymap` are the entries it had before, unchanged, followed by a
permutation of the interprets of the compat-info list (each record once); with
an empty compat-info list `sym_interprets` is unchanged. -/
theorem CopyCompatToKeymap_permutation (info : CompatInfo) :
    (CopyCompatToKeymap info).2.keymap.sym_interprets.take info.keymap.sym_interprets.length
      = info.keymap.sym_interprets ∧
    ((CopyCompatToKeymap info).2.keymap.sym_interprets.drop
        info.keymap.sym_interprets.length).Perm
      (info.interps.map (fun si => si.interp)) ∧
    (info.interps = [] →
      (CopyCompatToKeymap info).2.keymap.sym_interprets = info.keymap.sym_interprets) := by
  rw [CopyCompatToKeymap_sym_interprets]
  refine ⟨?_, ?_, ?_⟩
  · simp
  · simp only [List.drop_left]
    exact copyOrder_perm info
  · intro h
    have hp := copyOrder_perm info
    rw [h] at hp
    simp only [List.map_nil] at hp
    rw [List.perm_nil.mp hp, List.append_nil]

/-! ## The `defined` mask after a merge of interprets -/

/-- C39: when `AddInterp` merges the record `new`, whose merge mode is not
REPLACE, into the existing record `old` (the first with its key), the record
`merged` that takes the place of `old` has all four field bits in its `defined`
mask, whatever the two masks were; each field that `old` did not define has the
value of `new`, also when `new` did not define it either; and a later merge
under AUGMENT into `merged` leaves the list as it is. -/
theorem AddInterp_merge_defines_all (info : CompatInfo) (new old : SymInterpInfo)
    (pre post : List SymInterpInfo)
    (hl : info.interps = pre ++ old :: post)
    (hpre : ∀ x ∈ pre, SameInterpKey x new = false)
    (hold : SameInterpKey old new = true)
    (hm : new.merge ≠ MERGE_REPLACE) :
    ∃ merged : SymInterpInfo,
      (AddInterp info new).2.interps = pre ++ merged :: post ∧
      merged.defined &&& SI_FIELD_VIRTUAL_MOD ≠ 0 ∧
      merged.defined &&& SI_FIELD_ACTION ≠ 0 ∧
      merged.defined &&& SI_FIELD_AUTO_REPEAT ≠ 0 ∧
      merged.defined &&& SI_FIELD_LEVEL_ONE_ONLY ≠ 0 ∧
      (old.defined &&& SI_FIELD_VIRTUAL_MOD = 0 →
        merged.interp.virtual_mod = new.interp.virtual_mod) ∧
      (old.defined &&& SI_FIELD_ACTION = 0 → merged.interp.action = new.interp.action) ∧
      (old.defined &&& SI_FIELD_AUTO_REPEAT = 0 →
        merged.interp.repeat_ = new.interp.repeat_) ∧
      (old.defined &&& SI_FIELD_LEVEL_ONE_ONLY = 0 →
        merged.interp.level_one_only = new.interp.level_one_only) ∧
      (∀ (info2 : CompatInfo) (later : SymInterpInfo),
        info2.interps = pre ++ merged :: post →
        later.merge = MERGE_AUGMENT →
        (∀ x ∈ pre, SameInterpKey x later = false) →
        SameInterpKey merged later = true →
        (AddInterp info2 later).2.interps = info2.interps) := by
  obtain ⟨report, hres⟩ := AddInterp_merge_split info new old pre post hl hpre hold hm
  have hd := mergeFields_defined old new report
  have huse : ∀ f : Nat, old.defined &&& f = 0 →
      useNew f old.defined new.defined new.merge = true := by
    intro f hf
    unfold useNew
    exact decide_eq_true (Or.inl hf)
  refine ⟨(AddInterp.mergeFields old new report).1, hres, hd.1, hd.2.1, hd.2.2.1, hd.2.2.2,
    ?_, ?_, ?_, ?_, ?_⟩
  · intro h
    rw [mergeFields_fst]
    simp only [huse _ h, if_true]
  · intro h
    rw [mergeFields_fst]
    simp only [huse _ h, if_true]
  · intro h
    rw [mergeFields_fst]
    simp only [huse _ h, if_true]
  · intro h
    rw [mergeFields_fst]
    simp only [huse _ h, if_true]
  · intro info2 later hl2 hla hpre2 hkey2
    have hrep : later.merge ≠ MERGE_REPLACE := by rw [hla]; decide
    obtain ⟨report2, hres2⟩ := AddInterp_merge_split info2 later _ pre post hl2 hpre2 hkey2 hrep
    rw [hres2, mergeFields_augment_fixed _ later report2 hla hd.1 hd.2.1 hd.2.2.1 hd.2.2.2, hl2]

/-- Witness of C39: on `sampleInfo`, the record `mergeInterp MERGE_OVERRIDE` is
merged into the third record, which defines the virtual modifier and the action
(mask 3): the merged record has the mask 15 and the repeat value of the new
record, which neither record defined. -/
theorem AddInterp_merge_defines_all_witness :
    sampleInfo.interps = sampleInfo.interps.take 2 ++ sampleThird :: [] ∧
    sampleThird.defined &&& SI_FIELD_AUTO_REPEAT = 0 ∧
    (mergeInterp MERGE_OVERRIDE).defined &&& SI_FIELD_AUTO_REPEAT = 0 ∧
    ((AddInterp sampleInfo (mergeInterp MERGE_OVERRIDE)).2.interps.map
        (fun si => (si.defined, si.interp.repeat_)) = [(2, false), (2, false), (15, false)]) ∧
    (∃ merged : SymInterpInfo,
      (AddInterp sampleInfo (mergeInterp MERGE_OVERRIDE)).2.interps
        = sampleInfo.interps.take 2 ++ merged :: [] ∧
      merged.defined &&& SI_FIELD_VIRTUAL_MOD ≠ 0 ∧
      merged.defined &&& SI_FIELD_ACTION ≠ 0 ∧
      merged.defined &&& SI_FIELD_AUTO_REPEAT ≠ 0 ∧
      merged.defined &&& SI_FIELD_LEVEL_ONE_ONLY ≠ 0) :=
  ⟨by decide, by decide, by decide, by decide,
   (AddInterp_merge_defines_all sampleInfo (mergeInterp MERGE_OVERRIDE) sampleThird
      (sampleInfo.interps.take 2) [] (by decide) (by decide) (by decide) (by decide)).imp
     (fun _ h => ⟨h.1, h.2.1, h.2.2.1, h.2.2.2.1, h.2.2.2.2.1⟩)⟩

/-! ## The dump of the indicator maps that `CopyIndicatorMapDefs` stores -/

theorem leds_append (txt : TextExternals) (keymap : xkb_keymap)
    (pre rest : List xkb_indicator_map) :
    write_compat.leds txt keymap (pre ++ rest)
    = write_compat.leds txt keymap pre ++ write_compat.leds txt keymap rest := by
  induction pre with
  | nil => rfl
  | cons led tl ih =>
    simp only [List.cons_append, write_compat.leds]
    split_ifs
    · simp only [List.append_eq, ih, List.cons_append]
    · simpa only [List.append_eq] using ih

/-- One iteration of the loop of `CopyIndicatorMapDefs` puts the stored value of
the LED into a slot of the table, unless the table is full. -/
theorem step_stores (keymap : xkb_keymap) (led : LEDInfo) :
    (∃ pre post,
      (CopyIndicatorMapDefs.step keymap led).indicators
        = pre ++ CopyIndicatorMapDefs.stored led.im :: post ∧
      pre.length ≤ keymap.indicators.length) ∨
    (XKB_MAX_LEDS ≤ keymap.indicators.length ∧
      (CopyIndicatorMapDefs.step keymap led).indicators = keymap.indicators) := by
  unfold CopyIndicatorMapDefs.step
  simp only
  by_cases h1 : keymap.indicators.findIdx (fun im => im.name == led.im.name)
      ≥ keymap.indicators.length
  · rw [if_pos h1]
    by_cases h2 : keymap.indicators.findIdx (fun im => im.name == XKB_ATOM_NONE)
        ≥ keymap.indicators.length
    · rw [if_pos h2]
      have h3 : keymap.indicators.findIdx (fun im => im.name == XKB_ATOM_NONE)
          = keymap.indicators.length :=
        Nat.le_antisymm (List.findIdx_le_length _) h2
      by_cases h4 : keymap.indicators.findIdx (fun im => im.name == XKB_ATOM_NONE)
          ≥ XKB_MAX_LEDS
      · rw [if_pos h4]
        right
        exact ⟨h3 ▸ h4, rfl⟩
      · rw [if_neg h4]
        left
        exact ⟨keymap.indicators, [], rfl, Nat.le_refl _⟩
    · rw [if_neg h2]
      left
      refine ⟨keymap.indicators.take
          (keymap.indicators.findIdx (fun im => im.name == XKB_ATOM_NONE)),
        keymap.indicators.drop
          (keymap.indicators.findIdx (fun im => im.name == XKB_ATOM_NONE) + 1), ?_, ?_⟩
      · exact List.set_eq_take_cons_drop _ (Nat.lt_of_not_ge h2)
      · rw [List.length_take]
        exact Nat.min_le_right _ _
  · rw [if_neg h1]
    left
    refine ⟨keymap.indicators.take
        (keymap.indicators.findIdx (fun im => im.name == led.im.name)),
      keymap.indicators.drop
        (keymap.indicators.findIdx (fun im => im.name == led.im.name) + 1), ?_, ?_⟩
    · exact List.set_eq_take_cons_drop _ (Nat.lt_of_not_ge h1)
    · rw [List.length_take]
      exact Nat.min_le_right _ _

/-- C36: for every LED record `L`, with `CopyIndicatorMapDefs.stored L.im` the
value `CopyIndicatorMapDefs` writes into the slot: (1) when one of the five
fields of `L` is nonzero, `write_compat` does not skip the slot (it calls
`write_indicator_map` for it); (2), (3) `write_indicator_map` writes the line
`groups=` of the groups of `L` when they are nonzero and the line `modifiers=`
of the modifiers of `L` when they are nonzero; (4) its writes are the header,
then for a nonzero `which_groups` the line `whichGroupState=`, left out exactly
when the stored value is the EFFECTIVE default, and the line `groups=`, then
the same for `which_mods` with `whichModState=` and `modifiers=`, then the
controls when nonzero, and the closing line; (5) when no allocation fails,
`write_indicator_map` returns true and has appended these lines to the buffer;
(6) when no allocation fails, `write_compat` on a keymap whose indicator table
holds the slot, one of the five fields of `L` being nonzero, returns true and
has appended to the buffer the text of the section with these lines in it,
after the header, the interprets and the indicators before the slot, and before
the indicators after the slot and the closing line; (7) one iteration of the
loop of `CopyIndicatorMapDefs` for `L` leaves a table that holds this slot,
unless the table was full. -/
theorem write_indicator_map_stored (txt : TextExternals) (keymap : xkb_keymap) (L : LEDInfo) :
    ((L.im.which_groups ≠ 0 ∨ L.im.groups ≠ 0 ∨ L.im.which_mods ≠ 0 ∨ L.im.mods.mods ≠ 0 ∨
        L.im.ctrls ≠ 0) →
      ∀ rest, write_compat.leds txt keymap (CopyIndicatorMapDefs.stored L.im :: rest)
        = wcall.unchecked
            (write_indicator_map.calls txt keymap (CopyIndicatorMapDefs.stored L.im)) ::
          write_compat.leds txt keymap rest) ∧
    (L.im.groups ≠ 0 →
      ("\t\t\tgroups= " ++ fmt_02x L.im.groups ++ ";\n")
        ∈ write_indicator_map.calls txt keymap (CopyIndicatorMapDefs.stored L.im)) ∧
    (L.im.mods.mods ≠ 0 →
      ("\t\t\tmodifiers= " ++ txt.ModMaskText keymap L.im.mods.mods ++ ";\n")
        ∈ write_indicator_map.calls txt keymap (CopyIndicatorMapDefs.stored L.im)) ∧
    write_indicator_map.calls txt keymap (CopyIndicatorMapDefs.stored L.im)
      = [ "\t\tindicator \"" ++ fmt_s (xkb_atom_text keymap.ctx L.im.name) ++ "\" \x7b\n" ] ++
        (if (CopyIndicatorMapDefs.stored L.im).which_groups = 0 then []
         else
           (if (CopyIndicatorMapDefs.stored L.im).which_groups = XKB_STATE_LAYOUT_EFFECTIVE
            then []
            else [ "\t\t\twhichGroupState= " ++
                   txt.IndicatorStateText keymap.ctx
                     (CopyIndicatorMapDefs.stored L.im).which_groups ++ ";\n" ]) ++
           [ "\t\t\tgroups= " ++ fmt_02x L.im.groups ++ ";\n" ]) ++
        (if (CopyIndicatorMapDefs.stored L.im).which_mods = 0 then []
         else
           (if (CopyIndicatorMapDefs.stored L.im).which_mods = XKB_STATE_MODS_EFFECTIVE
            then []
            else [ "\t\t\twhichModState= " ++
                   txt.IndicatorStateText keymap.ctx
                     (CopyIndicatorMapDefs.stored L.im).which_mods ++ ";\n" ]) ++
           [ "\t\t\tmodifiers= " ++ txt.ModMaskText keymap L.im.mods.mods ++ ";\n" ]) ++
        (if L.im.ctrls = 0 then []
         else [ "\t\t\tcontrols= " ++ txt.ControlMaskText keymap.ctx L.im.ctrls ++ ";\n" ]) ++
        [ "\t\t\x7d;\n" ] ∧
    (∀ (b : buf) (text : String), b.holds text →
      ∃ b1, write_indicator_map txt heap_ok keymap b (CopyIndicatorMapDefs.stored L.im)
          = wresult.done true b1 ∧
        b1.holds (text ++ texts_flat
          (write_indicator_map.calls txt keymap (CopyIndicatorMapDefs.stored L.im)))) ∧
    ((L.im.which_groups ≠ 0 ∨ L.im.groups ≠ 0 ∨ L.im.which_mods ≠ 0 ∨ L.im.mods.mods ≠ 0 ∨
        L.im.ctrls ≠ 0) →
      ∀ pre post, keymap.indicators = pre ++ CopyIndicatorMapDefs.stored L.im :: post →
      ∀ (b : buf) (text : String), b.holds text →
      ∃ b1, write_compat txt heap_ok keymap b = wresult.done true b1 ∧
        b1.holds (text ++
          (wcall.flat ((write_compat.calls txt keymap).take 4 ++
              write_compat.interps txt keymap keymap.sym_interprets ++
              write_compat.leds txt keymap pre) ++
            (texts_flat
              (write_indicator_map.calls txt keymap (CopyIndicatorMapDefs.stored L.im)) ++
            (wcall.flat (write_compat.leds txt keymap post) ++ "\t\x7d;\n\n"))))) ∧
    (∀ table : xkb_keymap,
      (∃ pre post,
        (CopyIndicatorMapDefs.step table L).indicators
          = pre ++ CopyIndicatorMapDefs.stored L.im :: post ∧
        pre.length ≤ table.indicators.length) ∨
      (XKB_MAX_LEDS ≤ table.indicators.length ∧
        (CopyIndicatorMapDefs.step table L).indicators = table.indicators)) := by
  have hkeep : (L.im.which_groups ≠ 0 ∨ L.im.groups ≠ 0 ∨ L.im.which_mods ≠ 0 ∨
      L.im.mods.mods ≠ 0 ∨ L.im.ctrls ≠ 0) →
      ∀ rest, write_compat.leds txt keymap (CopyIndicatorMapDefs.stored L.im :: rest)
        = wcall.unchecked
            (write_indicator_map.calls txt keymap (CopyIndicatorMapDefs.stored L.im)) ::
          write_compat.leds txt keymap rest := by
    intro h rest
    have hs : (CopyIndicatorMapDefs.stored L.im).which_groups ≠ 0 ∨
        (CopyIndicatorMapDefs.stored L.im).groups ≠ 0 ∨
        (CopyIndicatorMapDefs.stored L.im).which_mods ≠ 0 ∨
        (CopyIndicatorMapDefs.stored L.im).mods.mods ≠ 0 ∨
        (CopyIndicatorMapDefs.stored L.im).ctrls ≠ 0 := by
      unfold CopyIndicatorMapDefs.stored
      simp only
      split_ifs <;> simp_all [XKB_STATE_LAYOUT_EFFECTIVE, XKB_STATE_MODS_EFFECTIVE]
    rw [write_compat.leds, if_pos hs]
  refine ⟨hkeep, ?_, ?_, ?_, ?_, ?_, ?_⟩
  · intro h
    have hw : (CopyIndicatorMapDefs.stored L.im).which_groups ≠ 0 := by
      unfold CopyIndicatorMapDefs.stored
      simp only
      split_ifs <;> simp_all [XKB_STATE_LAYOUT_EFFECTIVE, XKB_STATE_MODS_EFFECTIVE]
    have hg : (CopyIndicatorMapDefs.stored L.im).groups = L.im.groups := by
      unfold CopyIndicatorMapDefs.stored
      simp only
      split_ifs <;> rfl
    unfold write_indicator_map.calls
    simp [hw, hg]
  · intro h
    have hw : (CopyIndicatorMapDefs.stored L.im).which_mods ≠ 0 := by
      unfold CopyIndicatorMapDefs.stored
      simp only
      split_ifs <;> simp_all [XKB_STATE_LAYOUT_EFFECTIVE, XKB_STATE_MODS_EFFECTIVE]
    have hg : (CopyIndicatorMapDefs.stored L.im).mods = L.im.mods := by
      unfold CopyIndicatorMapDefs.stored
      simp only
      split_ifs <;> rfl
    unfold write_indicator_map.calls
    simp [hw, hg]
  · have hn : (CopyIndicatorMapDefs.stored L.im).name = L.im.name := by
      unfold CopyIndicatorMapDefs.stored
      simp only
      split_ifs <;> rfl
    have hg : (CopyIndicatorMapDefs.stored L.im).groups = L.im.groups := by
      unfold CopyIndicatorMapDefs.stored
      simp only
      split_ifs <;> rfl
    have hm : (CopyIndicatorMapDefs.stored L.im).mods = L.im.mods := by
      unfold CopyIndicatorMapDefs.stored
      simp only
      split_ifs <;> rfl
    have hc : (CopyIndicatorMapDefs.stored L.im).ctrls = L.im.ctrls := by
      unfold CopyIndicatorMapDefs.stored
      simp only
      split_ifs <;> rfl
    unfold write_indicator_map.calls
    rw [hn, hg, hm, hc]
    by_cases h1 : (CopyIndicatorMapDefs.stored L.im).which_groups = 0 <;>
    by_cases h2 : (CopyIndicatorMapDefs.stored L.im).which_groups = XKB_STATE_LAYOUT_EFFECTIVE <;>
    by_cases h3 : (CopyIndicatorMapDefs.stored L.im).which_mods = 0 <;>
    by_cases h4 : (CopyIndicatorMapDefs.stored L.im).which_mods = XKB_STATE_MODS_EFFECTIVE <;>
    by_cases h5 : L.im.ctrls = 0 <;>
    simp [h1, h2, h3, h4, h5]
  · intro b text hb
    exact run_texts_heap_ok _ b text hb
  · intro h pre post hl b text hb
    obtain ⟨b1, h1, hh⟩ := run_heap_ok (write_compat.calls txt keymap) b text hb
    refine ⟨b1, h1, ?_⟩
    have hflat : wcall.flat (write_compat.calls txt keymap)
        = wcall.flat ((write_compat.calls txt keymap).take 4 ++
              write_compat.interps txt keymap keymap.sym_interprets ++
              write_compat.leds txt keymap pre) ++
            (texts_flat
              (write_indicator_map.calls txt keymap (CopyIndicatorMapDefs.stored L.im)) ++
            (wcall.flat (write_compat.leds txt keymap post) ++ "\t\x7d;\n\n")) := by
      unfold write_compat.calls
      rw [hl, leds_append, hkeep h post]
      rcases hn : keymap.compat_section_name with _ | name <;>
      simp only [List.cons_append, List.nil_append, List.take_succ_cons, List.take_zero,
        List.append_eq, flat_append, wcall.flat, String.append_assoc, String.append_empty]
    rw [← hflat]
    exact hh
  · intro table
    exact step_stores table L

/-- Witness of C36: the LED `openLed` configures groups and modifiers and leaves
the state components open; the stored slot has the EFFECTIVE components, it is
not skipped, its lines are the header, `groups=`, `modifiers=` and the closing
line, and `write_indicator_map` appends them to the empty buffer; the iteration
of `CopyIndicatorMapDefs` for `openLed` on `dumpKeymap` leaves the slot as the
one indicator, and `write_compat` on that keymap appends the section with
these lines to the empty buffer. -/
theorem write_indicator_map_stored_witness :
    openLed.im.groups ≠ 0 ∧
    write_compat.leds sampleTxt dumpKeymap [CopyIndicatorMapDefs.stored openLed.im]
      = [ wcall.unchecked
            [ "\t\tindicator \"Caps Lock\" \x7b\n", "\t\t\tgroups= 0x03;\n",
              "\t\t\tmodifiers= m2;\n", "\t\t\x7d;\n" ] ] ∧
    ("\t\t\tgroups= " ++ fmt_02x openLed.im.groups ++ ";\n")
      ∈ write_indicator_map.calls sampleTxt dumpKeymap
          (CopyIndicatorMapDefs.stored openLed.im) ∧
    (∃ b1, write_indicator_map sampleTxt heap_ok dumpKeymap
          { buf := none, size := 0, alloc := 0 } (CopyIndicatorMapDefs.stored openLed.im)
        = wresult.done true b1 ∧
      b1.holds ("" ++ texts_flat
        (write_indicator_map.calls sampleTxt dumpKeymap
          (CopyIndicatorMapDefs.stored openLed.im)))) ∧
    texts_flat
        (write_indicator_map.calls sampleTxt dumpKeymap (CopyIndicatorMapDefs.stored openLed.im))
      = "\t\tindicator \"Caps Lock\" \x7b\n\t\t\tgroups= 0x03;\n\t\t\tmodifiers= m2;\n\t\t\x7d;\n" ∧
    (CopyIndicatorMapDefs.step dumpKeymap openLed).indicators
      = [CopyIndicatorMapDefs.stored openLed.im] ∧
    (∃ b1, write_compat sampleTxt heap_ok (CopyIndicatorMapDefs.step dumpKeymap openLed)
          { buf := none, size := 0, alloc := 0 } = wresult.done true b1 ∧
      b1.holds ("" ++
        (wcall.flat
            ((write_compat.calls sampleTxt (CopyIndicatorMapDefs.step dumpKeymap openLed)).take 4 ++
              write_compat.interps sampleTxt (CopyIndicatorMapDefs.step dumpKeymap openLed)
                (CopyIndicatorMapDefs.step dumpKeymap openLed).sym_interprets ++
              write_compat.leds sampleTxt (CopyIndicatorMapDefs.step dumpKeymap openLed) []) ++
          (texts_flat
            (write_indicator_map.calls sampleTxt (CopyIndicatorMapDefs.step dumpKeymap openLed)
              (CopyIndicatorMapDefs.stored openLed.im)) ++
          (wcall.flat
            (write_compat.leds sampleTxt (CopyIndicatorMapDefs.step dumpKeymap openLed) []) ++
            "\t\x7d;\n\n"))))) :=
  ⟨by decide, by decide,
   (write_indicator_map_stored sampleTxt dumpKeymap openLed).2.1 (by decide),
   (write_indicator_map_stored sampleTxt dumpKeymap openLed).2.2.2.2.1
     { buf := none, size := 0, alloc := 0 } "" empty_buf_holds,
   by decide, by decide,
   (write_indicator_map_stored sampleTxt (CopyIndicatorMapDefs.step dumpKeymap openLed)
      openLed).2.2.2.2.2.1 (by decide) [] [] (by decide)
     { buf := none, size := 0, alloc := 0 } "" empty_buf_holds⟩

/-! ## Lemmas on the keys of the accumulating lists -/

theorem SameInterpKey_key (a b : SymInterpInfo) :
    SameInterpKey a b = true ↔ interp_key a = interp_key b := by
  rw [SameInterpKey_iff]
  unfold interp_key
  simp only [Prod.mk.injEq]

theorem AddInterp_keys (info : CompatInfo) (new : SymInterpInfo) :
    (AddInterp info new).2.interps.map interp_key = info.interps.map interp_key ∨
    ((AddInterp info new).2.interps.map interp_key
        = info.interps.map interp_key ++ [interp_key new] ∧
      interp_key new ∉ info.interps.map interp_key) := by
  cases hf : FindMatchingInterp info new with
  | none =>
    right
    have hpre := scan_none_mem new info.interps hf
    constructor
    · unfold AddInterp
      rw [hf]
      simp
    · intro hmem
      obtain ⟨x, hx, hk⟩ := List.mem_map.mp hmem
      have h1 := hpre x hx
      have h2 := (SameInterpKey_key x new).mpr hk
      rw [h1] at h2
      cases h2
  | some r =>
    left
    obtain ⟨pre, post, hl, hi, hpre, hold⟩ := scan_some new info.interps r.1 r.2 hf
    have hkey : interp_key new = interp_key r.2 := ((SameInterpKey_key r.2 new).mp hold).symm
    by_cases hm : new.merge = MERGE_REPLACE
    · have hres : (AddInterp info new).2.interps = pre ++ new :: post := by
        unfold AddInterp
        rw [hf]
        simp only [if_pos hm]
        split_ifs <;> simp [CompatInfo.log, hl, hi, set_split]
      rw [hres, hl]
      simp [hkey]
    · obtain ⟨report, hres⟩ := AddInterp_merge_split info new r.2 pre post hl hpre hold hm
      have hk2 : interp_key (AddInterp.mergeFields r.2 new report).1 = interp_key r.2 := by
        rw [mergeFields_fst]
        rfl
      rw [hres, hl]
      simp [hk2]

theorem led_loop_names (verbosity : Int) (new : LEDInfo) (l : List LEDInfo)
    (r : List LEDInfo × List log_entry)
    (h : AddIndicatorMap.loop verbosity new l = some r) :
    r.1.map (fun led => led.im.name) = l.map (fun led => led.im.name) := by
  induction l generalizing r with
  | nil => simp [AddIndicatorMap.loop] at h
  | cons old rest ih =>
    unfold AddIndicatorMap.loop at h
    by_cases hn : old.im.name ≠ new.im.name
    · rw [if_pos hn] at h
      cases hr : AddIndicatorMap.loop verbosity new rest with
      | none => rw [hr] at h; simp at h
      | some r1 =>
        rw [hr] at h
        have h2 := Option.some.inj h
        rw [← h2]
        simp [ih r1 hr]
    · rw [if_neg hn] at h
      have hn2 : new.im.name = old.im.name := by
        by_contra hc
        exact hn (fun h3 => hc h3.symm)
      by_cases hs : SameLEDFields old new = true
      · rw [if_pos hs] at h
        rw [← Option.some.inj h]
        rfl
      · rw [if_neg hs] at h
        simp only at h
        by_cases hm : new.merge = MERGE_REPLACE
        · rw [if_pos hm] at h
          rw [← Option.some.inj h]
          simp [hn2]
        · rw [if_neg hm] at h
          rw [← Option.some.inj h]
          simp [ledMergeFields_fst]

theorem led_loop_none_mem (verbosity : Int) (new : LEDInfo) (l : List LEDInfo)
    (h : AddIndicatorMap.loop verbosity new l = none) :
    ∀ x ∈ l, x.im.name ≠ new.im.name := by
  induction l with
  | nil => simp
  | cons old rest ih =>
    unfold AddIndicatorMap.loop at h
    by_cases hn : old.im.name ≠ new.im.name
    · rw [if_pos hn] at h
      have hr : AddIndicatorMap.loop verbosity new rest = none := by
        cases hr : AddIndicatorMap.loop verbosity new rest with
        | none => rfl
        | some r1 => rw [hr] at h; simp at h
      intro x hx
      rcases List.mem_cons.mp hx with hx | hx
      · rw [hx]; exact hn
      · exact ih hr x hx
    · rw [if_neg hn] at h
      split_ifs at h

theorem AddIndicatorMap_names (info : CompatInfo) (new : LEDInfo) :
    (AddIndicatorMap info new).2.leds.map (fun led => led.im.name)
        = info.leds.map (fun led => led.im.name) ∨
    ((AddIndicatorMap info new).2.leds.map (fun led => led.im.name)
        = info.leds.map (fun led => led.im.name) ++ [new.im.name] ∧
      new.im.name ∉ info.leds.map (fun led => led.im.name)) := by
  unfold AddIndicatorMap
  cases hl : AddIndicatorMap.loop info.keymap.ctx.log_verbosity new info.leds with
  | none =>
    right
    constructor
    · simp
    · intro hmem
      obtain ⟨x, hx, hk⟩ := List.mem_map.mp hmem
      exact led_loop_none_mem _ new info.leds hl x hx hk
  | some r =>
    left
    exact led_loop_names _ new info.leds r hl

theorem pairwise_ne_of_keys {α β : Type} (f : α → β) (l1 l2 : List α) (k : β)
    (h : l2.map f = l1.map f ∨ (l2.map f = l1.map f ++ [k] ∧ k ∉ l1.map f))
    (hp : l1.Pairwise (fun a b => f a ≠ f b)) :
    l2.Pairwise (fun a b => f a ≠ f b) := by
  have hp1 : (l1.map f).Pairwise (fun a b => a ≠ b) := List.pairwise_map.mpr hp
  apply List.pairwise_map.mp
  rcases h with h | ⟨h, hk⟩
  · rw [h]
    exact hp1
  · rw [h, List.pairwise_append]
    refine ⟨hp1, List.pairwise_singleton _ _, ?_⟩
    intro a ha b hb
    rw [List.mem_singleton.mp hb]
    intro hab
    exact hk (hab ▸ ha)

theorem take_of_keys {β : Type} (k1 k2 : List β) (k : β)
    (h : k2 = k1 ∨ (k2 = k1 ++ [k] ∧ k ∉ k1)) :
    k2.take k1.length = k1 := by
  rcases h with h | ⟨h, _⟩
  · rw [h, List.take_length]
  · rw [h, List.take_left]

/-! ## The keys of the accumulating lists stay distinct -/

/-- C34: `AddInterp`, with any record and merge mode, leaves the keys (sym,
mods, match) of the records that were in the list as they were, in their
places, and if no two records of the list had the same key before, no two have
the same key after; likewise `AddIndicatorMap` leaves the names of the LEDs of
the list as they were, and names that were pairwise distinct stay so. -/
theorem Add_keeps_keys_distinct (info : CompatInfo) (new : SymInterpInfo) (led : LEDInfo) :
    ((AddInterp info new).2.interps.map interp_key).take info.interps.length
      = info.interps.map interp_key ∧
    (info.interps.Pairwise (fun a b => interp_key a ≠ interp_key b) →
      (AddInterp info new).2.interps.Pairwise (fun a b => interp_key a ≠ interp_key b)) ∧
    ((AddIndicatorMap info led).2.leds.map (fun l => l.im.name)).take info.leds.length
      = info.leds.map (fun l => l.im.name) ∧
    (info.leds.Pairwise (fun a b => a.im.name ≠ b.im.name) →
      (AddIndicatorMap info led).2.leds.Pairwise (fun a b => a.im.name ≠ b.im.name)) := by
  refine ⟨?_, ?_, ?_, ?_⟩
  · have h := take_of_keys _ _ _ (AddInterp_keys info new)
    rw [List.length_map] at h
    exact h
  · exact pairwise_ne_of_keys interp_key _ _ _ (AddInterp_keys info new)
  · have h := take_of_keys _ _ _ (AddIndicatorMap_names info led)
    rw [List.length_map] at h
    exact h
  · exact pairwise_ne_of_keys (fun l : LEDInfo => l.im.name) _ _ _
      (AddIndicatorMap_names info led)

/-- Witness of C34: the three interprets of `sampleInfo` have distinct keys; they
still have after `AddInterp` with `augmentInterp` (appended), and the LED names
stay distinct after `AddIndicatorMap` with `freshLed`. -/
theorem Add_keeps_keys_distinct_witness :
    sampleInfo.interps.Pairwise (fun a b => interp_key a ≠ interp_key b) ∧
    (AddInterp sampleInfo augmentInterp).2.interps.Pairwise
      (fun a b => interp_key a ≠ interp_key b) ∧
    (AddIndicatorMap sampleInfo freshLed).2.leds.Pairwise
      (fun a b => a.im.name ≠ b.im.name) :=
  ⟨by decide,
   (Add_keeps_keys_distinct sampleInfo augmentInterp freshLed).2.1 (by decide),
   (Add_keeps_keys_distinct sampleInfo augmentInterp freshLed).2.2.2 (by decide)⟩

/-! ## Lemmas on a second `AddIndicatorMap` with the same record -/

theorem or_if_absorb (d k : Nat) (c : Bool) (h : d &&& 2 ^ k ≠ 0) :
    d ||| (if c then 2 ^ k else 0) = d := by
  cases c with
  | true => exact or_two_pow_of_and_ne_zero d k h
  | false => exact Nat.or_zero d

theorem testBit_of_and_ne_zero (d k : Nat) (h : d &&& 2 ^ k ≠ 0) : d.testBit k = true := by
  rw [Nat.and_two_pow] at h
  cases hk : d.testBit k with
  | true => rfl
  | false => rw [hk] at h; simp at h

theorem or_absorb_fields (d nd : Nat)
    (h1 : d &&& LED_FIELD_MODS ≠ 0) (h2 : d &&& LED_FIELD_GROUPS ≠ 0)
    (h4 : d &&& LED_FIELD_CTRLS ≠ 0) (hw : nd &&& LED_FIELD_ALL = nd) :
    d ||| nd = d := by
  have b0 := testBit_of_and_ne_zero d 0 h1
  have b1 := testBit_of_and_ne_zero d 1 h2
  have b2 := testBit_of_and_ne_zero d 2 h4
  apply Nat.eq_of_testBit_eq
  intro i
  rw [Nat.testBit_or]
  have hn : nd.testBit i = (nd.testBit i && (7 : Nat).testBit i) := by
    have h := congrArg (fun n => Nat.testBit n i) hw
    simp only [Nat.testBit_and] at h
    exact h.symm
  have h7 : (7 : Nat).testBit i = decide (i < 3) := Nat.testBit_two_pow_sub_one 3 i
  rw [h7] at hn
  by_cases hi : i < 3
  · have hd : d.testBit i = true := by
      rcases (by omega : i = 0 ∨ i = 1 ∨ i = 2) with h | h | h <;> rw [h] <;> assumption
    rw [hd, Bool.true_or]
  · rw [hn]
    simp [hi]

theorem ledMergeFields_defined (old new : LEDInfo) (report : Bool) :
    (AddIndicatorMap.mergeFields old new report).1.defined &&& LED_FIELD_MODS ≠ 0 ∧
    (AddIndicatorMap.mergeFields old new report).1.defined &&& LED_FIELD_GROUPS ≠ 0 ∧
    (AddIndicatorMap.mergeFields old new report).1.defined &&& LED_FIELD_CTRLS ≠ 0 := by
  rw [ledMergeFields_fst]
  simp only
  have key : ∀ f : Nat, f &&& f ≠ 0 →
      (old.defined ||| (if useNew f old.defined new.defined new.merge then f else 0))
        &&& f ≠ 0 := by
    intro f hf
    cases hu : useNew f old.defined new.defined new.merge with
    | true =>
      rw [if_pos rfl]
      exact or_and_ne_zero_right _ _ _ hf
    | false =>
      apply or_and_ne_zero_left
      unfold useNew at hu
      have h := of_decide_eq_false hu
      exact fun h0 => h (Or.inl h0)
  refine ⟨?_, ?_, ?_⟩
  · apply or_and_ne_zero_left
    apply or_and_ne_zero_left
    exact key LED_FIELD_MODS (by decide)
  · apply or_and_ne_zero_left
    apply or_and_ne_zero_insert
    exact key LED_FIELD_GROUPS (by decide)
  · apply or_and_ne_zero_insert
    apply or_and_ne_zero_insert
    exact key LED_FIELD_CTRLS (by decide)

theorem useNew_again (f d d2 nd : Nat) (m : merge_mode) (h2 : d2 &&& f ≠ 0)
    (h : useNew f d2 nd m = true) : useNew f d nd m = true := by
  unfold useNew at h ⊢
  rcases of_decide_eq_true h with h | h
  · exact absurd h h2
  · exact decide_eq_true (Or.inr h)

/-- A second field-by-field merge of the same record into the merged LED leaves
it as it is. -/
theorem ledMergeFields_twice (old new : LEDInfo) (r r2 : Bool) :
    (AddIndicatorMap.mergeFields (AddIndicatorMap.mergeFields old new r).1 new r2).1
    = (AddIndicatorMap.mergeFields old new r).1 := by
  have hd := ledMergeFields_defined old new r
  have hm : ∀ f, (AddIndicatorMap.mergeFields old new r).1.defined &&& f ≠ 0 →
      useNew f (AddIndicatorMap.mergeFields old new r).1.defined new.defined new.merge = true →
      useNew f old.defined new.defined new.merge = true :=
    fun f h2 h => useNew_again f _ _ _ _ h2 h
  have h1 := hm _ hd.1
  have h2 := hm _ hd.2.1
  have h4 := hm _ hd.2.2
  rw [ledMergeFields_fst (AddIndicatorMap.mergeFields old new r).1 new r2]
  have e1 := or_if_absorb (AddIndicatorMap.mergeFields old new r).1.defined 0
    (useNew LED_FIELD_MODS (AddIndicatorMap.mergeFields old new r).1.defined new.defined
      new.merge) hd.1
  have e2 := or_if_absorb (AddIndicatorMap.mergeFields old new r).1.defined 1
    (useNew LED_FIELD_GROUPS (AddIndicatorMap.mergeFields old new r).1.defined new.defined
      new.merge) hd.2.1
  have e4 := or_if_absorb (AddIndicatorMap.mergeFields old new r).1.defined 2
    (useNew LED_FIELD_CTRLS (AddIndicatorMap.mergeFields old new r).1.defined new.defined
      new.merge) hd.2.2
  have e1b : (AddIndicatorMap.mergeFields old new r).1.defined |||
      (if useNew LED_FIELD_MODS (AddIndicatorMap.mergeFields old new r).1.defined new.defined
        new.merge = true then LED_FIELD_MODS else 0)
      = (AddIndicatorMap.mergeFields old new r).1.defined := e1
  have e2b : (AddIndicatorMap.mergeFields old new r).1.defined |||
      (if useNew LED_FIELD_GROUPS (AddIndicatorMap.mergeFields old new r).1.defined new.defined
        new.merge = true then LED_FIELD_GROUPS else 0)
      = (AddIndicatorMap.mergeFields old new r).1.defined := e2
  have e4b : (AddIndicatorMap.mergeFields old new r).1.defined |||
      (if useNew LED_FIELD_CTRLS (AddIndicatorMap.mergeFields old new r).1.defined new.defined
        new.merge = true then LED_FIELD_CTRLS else 0)
      = (AddIndicatorMap.mergeFields old new r).1.defined := e4
  rw [e1b, e2b, e4b]
  revert h1 h2 h4
  generalize useNew LED_FIELD_MODS (AddIndicatorMap.mergeFields old new r).1.defined
    new.defined new.merge = v1
  generalize useNew LED_FIELD_GROUPS (AddIndicatorMap.mergeFields old new r).1.defined
    new.defined new.merge = v2
  generalize useNew LED_FIELD_CTRLS (AddIndicatorMap.mergeFields old new r).1.defined
    new.defined new.merge = v4
  intro h1 h2 h4
  rw [ledMergeFields_fst old new r]
  cases v1 <;> cases v2 <;> cases v4 <;> simp_all


theorem SameLEDFields_self (new : LEDInfo) : SameLEDFields new new = true := by
  rw [SameLEDFields_iff]
  exact ⟨rfl, rfl, rfl, rfl, rfl⟩

theorem led_loop_self (verbosity : Int) (new : LEDInfo) (rest : List LEDInfo) :
    AddIndicatorMap.loop verbosity new (new :: rest) = some (new :: rest, []) := by
  unfold AddIndicatorMap.loop
  simp only [ne_eq, not_true_eq_false, if_false, SameLEDFields_self, if_true, Nat.or_self]

/-- A second pass of the loop of `AddIndicatorMap` with the same record over
the LEDs the first pass left returns the same LEDs. -/
theorem led_loop_twice (v v2 : Int) (new : LEDInfo)
    (hw : new.defined &&& LED_FIELD_ALL = new.defined) (l : List LEDInfo)
    (r : List LEDInfo × List log_entry) (h : AddIndicatorMap.loop v new l = some r) :
    ∃ logs, AddIndicatorMap.loop v2 new r.1 = some (r.1, logs) := by
  induction l generalizing r with
  | nil => simp [AddIndicatorMap.loop] at h
  | cons old rest ih =>
    unfold AddIndicatorMap.loop at h
    by_cases hn : old.im.name ≠ new.im.name
    · rw [if_pos hn] at h
      cases hr : AddIndicatorMap.loop v new rest with
      | none => rw [hr] at h; simp at h
      | some r1 =>
        rw [hr] at h
        obtain ⟨logs, h2⟩ := ih r1 hr
        rw [← Option.some.inj h]
        refine ⟨logs, ?_⟩
        simp only [Option.map_some']
        unfold AddIndicatorMap.loop
        rw [if_pos hn, h2]
        rfl
    · rw [if_neg hn] at h
      have hn2 : old.im.name = new.im.name := by
        by_contra hc
        exact hn hc
      by_cases hs : SameLEDFields old new = true
      · rw [if_pos hs] at h
        rw [← Option.some.inj h]
        refine ⟨[], ?_⟩
        have hs2 : SameLEDFields { old with defined := old.defined ||| new.defined } new
            = true := hs
        unfold AddIndicatorMap.loop
        simp only [hn2, ne_eq, not_true_eq_false, if_false, hs2, if_true, Nat.or_assoc,
          Nat.or_self]
      · rw [if_neg hs] at h
        simp only at h
        by_cases hm : new.merge = MERGE_REPLACE
        · rw [if_pos hm] at h
          rw [← Option.some.inj h]
          exact ⟨[], led_loop_self v2 new rest⟩
        · rw [if_neg hm] at h
          rw [← Option.some.inj h]
          simp only
          have hname : (AddIndicatorMap.mergeFields old new
              (old.file_id == new.file_id && decide (v > 0) || decide (v > 9))).1.im.name
              = new.im.name := by
            rw [ledMergeFields_fst]
            exact hn2
          have hd := ledMergeFields_defined old new
            (old.file_id == new.file_id && decide (v > 0) || decide (v > 9))
          by_cases hs3 : SameLEDFields (AddIndicatorMap.mergeFields old new
              (old.file_id == new.file_id && decide (v > 0) || decide (v > 9))).1 new = true
          · refine ⟨[], ?_⟩
            unfold AddIndicatorMap.loop
            simp only [hname, ne_eq, not_true_eq_false, if_false, hs3, if_true,
              or_absorb_fields _ _ hd.1 hd.2.1 hd.2.2 hw]
          · have hstep : ∃ logs r2,
                AddIndicatorMap.loop v2 new
                  ((AddIndicatorMap.mergeFields old new
                    (old.file_id == new.file_id && decide (v > 0) || decide (v > 9))).1 :: rest)
                = some ((AddIndicatorMap.mergeFields
                    (AddIndicatorMap.mergeFields old new
                      (old.file_id == new.file_id && decide (v > 0) || decide (v > 9))).1
                    new r2).1 :: rest, logs) := by
              unfold AddIndicatorMap.loop
              simp only [hname, ne_eq, not_true_eq_false, if_false, hs3, Bool.false_eq_true, hm]
              exact ⟨_, _, rfl⟩
            obtain ⟨logs, r2, hstep⟩ := hstep
            rw [ledMergeFields_twice] at hstep
            exact ⟨logs, hstep⟩

/-! ## A second `AddIndicatorMap` with the same record -/

/-- C35: for every LED list, every merge mode and every LED record whose
`defined` mask is made of LED field bits, calling `AddIndicatorMap` twice with
the record leaves the same LED list (fields and `defined` masks) as calling it
once. -/
theorem AddIndicatorMap_twice (info : CompatInfo) (new : LEDInfo)
    (hw : new.defined &&& LED_FIELD_ALL = new.defined) :
    (AddIndicatorMap (AddIndicatorMap info new).2 new).2.leds
    = (AddIndicatorMap info new).2.leds := by
  cases hl : AddIndicatorMap.loop info.keymap.ctx.log_verbosity new info.leds with
  | none =>
    have hnames := led_loop_none_mem _ new info.leds hl
    have h1 : AddIndicatorMap info new = (true, { info with leds := info.leds ++ [new] }) := by
      unfold AddIndicatorMap
      rw [hl]
    rw [h1]
    unfold AddIndicatorMap
    simp only
    rw [loop_skip _ new info.leds [new] hnames, led_loop_self]
    rfl
  | some r =>
    have h1 : AddIndicatorMap info new = (true, ({ info with leds := r.1 }).log r.2) := by
      unfold AddIndicatorMap
      rw [hl]
    obtain ⟨logs, h2⟩ := led_loop_twice info.keymap.ctx.log_verbosity
      info.keymap.ctx.log_verbosity new hw info.leds r hl
    rw [h1]
    unfold AddIndicatorMap
    have h3 : AddIndicatorMap.loop
        (({ info with leds := r.1 }).log r.2).keymap.ctx.log_verbosity new
        (({ info with leds := r.1 }).log r.2).leds = some (r.1, logs) := h2
    simp only [h3]
    rfl

/-- Witness of C35: on `sampleInfo`, the record `mergeLed MERGE_OVERRIDE` is
merged field by field into the LED of the list, and `freshLed` is appended; a
second call with the same record changes nothing. -/
theorem AddIndicatorMap_twice_witness :
    (mergeLed MERGE_OVERRIDE).defined &&& LED_FIELD_ALL = (mergeLed MERGE_OVERRIDE).defined ∧
    (AddIndicatorMap (AddIndicatorMap sampleInfo (mergeLed MERGE_OVERRIDE)).2
        (mergeLed MERGE_OVERRIDE)).2.leds
      = (AddIndicatorMap sampleInfo (mergeLed MERGE_OVERRIDE)).2.leds ∧
    (AddIndicatorMap (AddIndicatorMap sampleInfo freshLed).2 freshLed).2.leds
      = sampleInfo.leds ++ [freshLed] :=
  ⟨by decide,
   AddIndicatorMap_twice sampleInfo (mergeLed MERGE_OVERRIDE) (by decide),
   (AddIndicatorMap_twice sampleInfo freshLed (by decide)).trans (by decide)⟩

/-! ## Lemmas on the compat tables of the keymap while a file is handled -/

theorem SetInterpField_tables (ext : Externals) (info : CompatInfo) (si : SymInterpInfo)
    (field : String) (arrayNdx value : Option ExprDef) :
    compat_tables (SetInterpField ext info si field arrayNdx value).2.1.keymap
    = compat_tables info.keymap := by
  unfold SetInterpField
  simp only
  split_ifs <;> (try split) <;> rfl

theorem SetIndicatorMapField_tables (ext : Externals) (info : CompatInfo) (led : LEDInfo)
    (field : String) (arrayNdx value : Option ExprDef) :
    compat_tables (SetIndicatorMapField ext info led field arrayNdx value).2.1.keymap
    = compat_tables info.keymap := by
  unfold SetIndicatorMapField
  split_ifs <;> (try split) <;> rfl

theorem AddInterp_tables (info : CompatInfo) (new : SymInterpInfo) :
    compat_tables (AddInterp info new).2.keymap = compat_tables info.keymap := by
  unfold AddInterp
  split
  · simp only
    split_ifs <;> rfl
  · rfl

theorem AddIndicatorMap_tables (info : CompatInfo) (new : LEDInfo) :
    compat_tables (AddIndicatorMap info new).2.keymap = compat_tables info.keymap := by
  unfold AddIndicatorMap
  split <;> rfl

theorem ResolveStateAndPredicate_tables (ext : Externals) (expr : Option ExprDef)
    (info : CompatInfo) :
    compat_tables (ResolveStateAndPredicate ext expr info).2.keymap
    = compat_tables info.keymap := by
  unfold ResolveStateAndPredicate
  split
  · rfl
  · simp only
    split <;> rfl
  · simp only
    split_ifs <;> rfl
  · rfl

theorem interp_loop_tables (ext : Externals) (body : List VarDef) (info : CompatInfo)
    (si : SymInterpInfo) (ok : Bool) :
    compat_tables (HandleInterpBody.loop ext info si ok body).2.1.keymap
    = compat_tables info.keymap := by
  induction body generalizing info si ok with
  | nil => rfl
  | cons d rest ih =>
    unfold HandleInterpBody.loop
    split_ifs
    · exact ih _ si false
    · split
      · exact ih info si false
      · rename_i _ field arrayNdx _
        exact (ih _ _ _).trans (SetInterpField_tables ext info si field arrayNdx d.value)

theorem indicator_loop_tables (ext : Externals) (body : List VarDef) (info : CompatInfo)
    (led : LEDInfo) (ok : Bool) :
    compat_tables (HandleIndicatorMapDef.loop ext info led ok body).2.1.keymap
    = compat_tables info.keymap := by
  induction body generalizing info led ok with
  | nil => rfl
  | cons var rest ih =>
    unfold HandleIndicatorMapDef.loop
    split
    · exact ih info led false
    · split_ifs
      · exact ih _ led false
      · rename_i _ field arrayNdx _ _
        exact (ih _ _ _).trans
          (SetIndicatorMapField_tables ext info led field arrayNdx var.value)

theorem HandleIndicatorMapDef_tables (ext : Externals) (info : CompatInfo)
    (d : IndicatorMapDef) (merge : merge_mode) :
    compat_tables (HandleIndicatorMapDef ext info d merge).2.keymap
    = compat_tables info.keymap := by
  rw [HandleIndicatorMapDef_eq]
  split_ifs
  · exact (AddIndicatorMap_tables _ _).trans (indicator_loop_tables ext _ info _ true)
  · exact indicator_loop_tables ext _ info _ true

theorem HandleGlobalVar_tables (ext : Externals) (info : CompatInfo) (stmt : VarDef) :
    compat_tables (HandleGlobalVar ext info stmt).2.keymap = compat_tables info.keymap := by
  unfold HandleGlobalVar
  split
  · rfl
  · split_ifs
    · exact SetInterpField_tables ext info info.dflt _ _ _
    · exact SetIndicatorMapField_tables ext info info.ledDflt _ _ _
    · rfl

theorem HandleInterpDef_tables (ext : Externals) (info : CompatInfo) (d : InterpDef)
    (merge : merge_mode) :
    compat_tables (HandleInterpDef ext info d merge).2.keymap = compat_tables info.keymap := by
  have hr := ResolveStateAndPredicate_tables ext d.match_ info
  unfold HandleInterpDef
  cases hres : (ResolveStateAndPredicate ext d.match_ info).1 with
  | none =>
    simp only [hres]
    exact hr
  | some pm =>
    cases hsym : ext.LookupKeysym d.sym with
    | none =>
      simp only [hres, hsym]
      exact hr
    | some sym =>
      simp only [hres, hsym]
      split_ifs <;>
        first
        | exact (interp_loop_tables ext _ _ _ true).trans hr
        | exact ((AddInterp_tables _ _).trans (interp_loop_tables ext _ _ _ true)).trans hr


theorem foldl_tables {α : Type} (f : CompatInfo → α → CompatInfo)
    (hf : ∀ acc a, compat_tables (f acc a).keymap = compat_tables acc.keymap)
    (l : List α) (acc : CompatInfo) :
    compat_tables (l.foldl f acc).keymap = compat_tables acc.keymap := by
  induction l generalizing acc with
  | nil => rfl
  | cons a rest ih => rw [List.foldl_cons, ih, hf]

theorem MergeIncludedCompatMaps_tables (into from_ : CompatInfo) (merge : merge_mode) :
    compat_tables (MergeIncludedCompatMaps into from_ merge).keymap
    = compat_tables into.keymap := by
  unfold MergeIncludedCompatMaps
  by_cases he : from_.errorCount > 0
  · rw [if_pos he]
  · rw [if_neg he]
    simp only
    refine (foldl_tables _ ?_ _ _).trans ((foldl_tables _ ?_ _ _).trans ?_)
    · intro acc led
      split_ifs <;> exact AddIndicatorMap_tables _ _
    · intro acc si
      split_ifs <;> exact AddInterp_tables _ _
    · split_ifs <;> rfl

theorem include_loop_tables (ext : Externals)
    (handleFile : CompatInfo → XkbFile → merge_mode → Option CompatInfo)
    (hH : ∀ i f m r, handleFile i f m = some r →
      compat_tables r.keymap = compat_tables i.keymap)
    (stmts : List IncludeStmt) (info included : CompatInfo) (merge : merge_mode)
    (r : Bool × CompatInfo)
    (h : HandleIncludeCompatMap.loop ext handleFile info included merge stmts = some r) :
    compat_tables r.2.keymap = compat_tables included.keymap := by
  induction stmts generalizing included merge with
  | nil =>
    unfold HandleIncludeCompatMap.loop at h
    rw [← Option.some.inj h]
    exact MergeIncludedCompatMaps_tables _ _ _
  | cons stmt rest ih =>
    unfold HandleIncludeCompatMap.loop at h
    cases hp : ext.ProcessIncludeFile included.keymap.ctx stmt with
    | none =>
      simp only [hp] at h
      rw [← Option.some.inj h]
    | some fm =>
      simp only [hp] at h
      cases hh : handleFile
          { InitCompatInfo included.keymap fm.1.id included.actions with
            file_id := fm.1.id,
            dflt := { info.dflt with file_id := fm.1.id, merge := fm.2 },
            ledDflt :=
              { (InitCompatInfo included.keymap fm.1.id included.actions).ledDflt with
                file_id := fm.1.id, merge := fm.2 } }
          fm.1 MERGE_OVERRIDE with
      | none =>
        simp only [hh] at h
        cases h
      | some next =>
        simp only [hh] at h
        have h1 := hH _ _ _ _ hh
        have h2 := ih _ _ h
        rw [h2, MergeIncludedCompatMaps_tables]
        exact h1

theorem HandleIncludeCompatMap_tables (ext : Externals)
    (handleFile : CompatInfo → XkbFile → merge_mode → Option CompatInfo)
    (hH : ∀ i f m r, handleFile i f m = some r →
      compat_tables r.keymap = compat_tables i.keymap)
    (info : CompatInfo) (stmt : IncludeStmt) (next : List IncludeStmt) (r : Bool × CompatInfo)
    (h : HandleIncludeCompatMap ext handleFile info stmt next = some r) :
    compat_tables r.2.keymap = compat_tables info.keymap := by
  unfold HandleIncludeCompatMap at h
  rw [include_loop_tables ext handleFile hH _ _ _ _ r h]
  cases stmt.stmt <;> rfl

theorem stmt_tables (ext : Externals)
    (handleFile : CompatInfo → XkbFile → merge_mode → Option CompatInfo)
    (hH : ∀ i f m r, handleFile i f m = some r →
      compat_tables r.keymap = compat_tables i.keymap)
    (merge : merge_mode) (info : CompatInfo) (stmt : Stmt) (r : Bool × CompatInfo)
    (h : HandleCompatMapFile.stmt ext handleFile merge info stmt = some r) :
    compat_tables r.2.keymap = compat_tables info.keymap := by
  cases stmt with
  | STMT_INCLUDE s next => exact HandleIncludeCompatMap_tables ext handleFile hH info s next r h
  | STMT_INTERP d =>
    simp only [HandleCompatMapFile.stmt, Option.some.injEq] at h
    rw [← h]
    exact HandleInterpDef_tables ext info d merge
  | STMT_GROUP_COMPAT =>
    simp only [HandleCompatMapFile.stmt, Option.some.injEq] at h
    rw [← h]
    rfl
  | STMT_INDICATOR_MAP d =>
    simp only [HandleCompatMapFile.stmt, Option.some.injEq] at h
    rw [← h]
    exact HandleIndicatorMapDef_tables ext info d merge
  | STMT_VAR d =>
    simp only [HandleCompatMapFile.stmt, Option.some.injEq] at h
    rw [← h]
    exact HandleGlobalVar_tables ext info d
  | STMT_VMOD d =>
    simp only [HandleCompatMapFile.stmt, Option.some.injEq] at h
    rw [← h]
    rfl
  | STMT_OTHER t =>
    simp only [HandleCompatMapFile.stmt, Option.some.injEq] at h
    rw [← h]
    rfl

theorem file_loop_tables (handle : CompatInfo → Stmt → Option (Bool × CompatInfo))
    (hh : ∀ i s r, handle i s = some r → compat_tables r.2.keymap = compat_tables i.keymap)
    (stmts : List Stmt) (info r : CompatInfo)
    (h : HandleCompatMapFile.loop handle info stmts = some r) :
    compat_tables r.keymap = compat_tables info.keymap := by
  induction stmts generalizing info with
  | nil =>
    unfold HandleCompatMapFile.loop at h
    rw [← Option.some.inj h]
  | cons stmt rest ih =>
    unfold HandleCompatMapFile.loop at h
    cases hs : handle info stmt with
    | none =>
      simp only [hs] at h
      cases h
    | some oi =>
      have h1 := hh info stmt oi hs
      simp only [hs] at h
      split_ifs at h with hok hgt hgt
      · rw [← Option.some.inj h]
        exact h1
      · exact (ih _ h).trans h1
      · rw [← Option.some.inj h]
        exact h1
      · exact (ih _ h).trans h1

theorem HandleCompatMapFile_tables (ext : Externals) (fuel : Nat) (info : CompatInfo)
    (file : XkbFile) (merge : merge_mode) (r : CompatInfo)
    (h : HandleCompatMapFile ext fuel info file merge = some r) :
    compat_tables r.keymap = compat_tables info.keymap := by
  induction fuel generalizing info file merge r with
  | zero =>
    unfold HandleCompatMapFile at h
    cases h
  | succ n ih =>
    unfold HandleCompatMapFile at h
    have hh := fun i s r0 => stmt_tables ext (fun i f m => HandleCompatMapFile ext n i f m)
      (fun i f m r1 h1 => ih i f m r1 h1)
      (if merge = MERGE_DEFAULT then MERGE_AUGMENT else merge) i s r0
    exact file_loop_tables _ hh file.defs { info with name := file.name } r h

/-! ## A failed compilation leaves the compat tables of the keymap alone -/

/-- C38: whenever `CompileCompatMap` returns false, the `sym_interprets` list,
the indicator table and the compat section name of the keymap are the same as
before the call. -/
theorem CompileCompatMap_failure_atomic (ext : Externals) (fuel : Nat) (file : XkbFile)
    (keymap keymap1 : xkb_keymap) (merge : merge_mode)
    (h : CompileCompatMap ext fuel file keymap merge = some (false, keymap1)) :
    keymap1.sym_interprets = keymap.sym_interprets ∧
    keymap1.indicators = keymap.indicators ∧
    keymap1.compat_section_name = keymap.compat_section_name := by
  have goal : compat_tables keymap1 = compat_tables keymap := by
    unfold CompileCompatMap at h
    cases hn : ext.NewActionsInfo with
    | none =>
      simp only [hn, Option.some.injEq, Prod.mk.injEq, true_and] at h
      rw [h]
    | some actions =>
      simp only [hn] at h
      cases hf : HandleCompatMapFile ext fuel (CompileCompatMap.start file keymap merge actions)
          file merge with
      | none =>
        simp only [hf] at h
        cases h
      | some info =>
        have ht := HandleCompatMapFile_tables ext fuel _ file merge info hf
        simp only [hf] at h
        by_cases he : info.errorCount ≠ 0
        · rw [if_pos he] at h
          have h2 := congrArg Prod.snd (Option.some.inj h)
          simp only at h2
          rw [← h2, ht]
          rfl
        · have hc : (CopyCompatToKeymap info).1 = true := rfl
          rw [if_neg he] at h
          simp only [hc, not_true_eq_false, if_false] at h
          have h1 := congrArg Prod.fst (Option.some.inj h)
          simp at h1
  unfold compat_tables at goal
  simp only [Prod.mk.injEq] at goal
  exact goal

/-- Witness of C38: the compilation of `badFile` on `atomKeymap` fails (its
first statement is of a type that a compat file may not hold) and returns a
keymap with the tables of `atomKeymap`. -/
theorem CompileCompatMap_failure_atomic_witness :
    (CompileCompatMap sampleExt 2 badFile atomKeymap MERGE_DEFAULT).map (fun r => r.1)
      = some false ∧
    (∀ keymap1, CompileCompatMap sampleExt 2 badFile atomKeymap MERGE_DEFAULT
        = some (false, keymap1) →
      keymap1.sym_interprets = atomKeymap.sym_interprets ∧
      keymap1.indicators = atomKeymap.indicators ∧
      keymap1.compat_section_name = atomKeymap.compat_section_name) :=
  ⟨by decide,
   fun keymap1 h =>
     CompileCompatMap_failure_atomic sampleExt 2 badFile atomKeymap keymap1 MERGE_DEFAULT h⟩

/-! ## Lemmas on the merge mode of the record of a statement -/

theorem SetInterpField_merge (ext : Externals) (info : CompatInfo) (si : SymInterpInfo)
    (field : String) (arrayNdx value : Option ExprDef) :
    (SetInterpField ext info si field arrayNdx value).2.2.merge = si.merge := by
  unfold SetInterpField
  simp only
  split_ifs <;> (try split) <;> rfl

theorem SetIndicatorMapField_merge (ext : Externals) (info : CompatInfo) (led : LEDInfo)
    (field : String) (arrayNdx value : Option ExprDef) :
    (SetIndicatorMapField ext info led field arrayNdx value).2.2.merge = led.merge := by
  unfold SetIndicatorMapField
  split_ifs <;> (try split) <;> rfl

theorem interp_loop_merge (ext : Externals) (body : List VarDef) (info : CompatInfo)
    (si : SymInterpInfo) (ok : Bool) :
    (HandleInterpBody.loop ext info si ok body).2.2.merge = si.merge := by
  induction body generalizing info si ok with
  | nil => rfl
  | cons d rest ih =>
    unfold HandleInterpBody.loop
    split_ifs
    · exact ih _ si false
    · split
      · exact ih info si false
      · rename_i _ field arrayNdx _
        exact (ih _ _ _).trans (SetInterpField_merge ext info si field arrayNdx d.value)

theorem indicator_loop_merge (ext : Externals) (body : List VarDef) (info : CompatInfo)
    (led : LEDInfo) (ok : Bool) :
    (HandleIndicatorMapDef.loop ext info led ok body).2.2.merge = led.merge := by
  induction body generalizing info led ok with
  | nil => rfl
  | cons var rest ih =>
    unfold HandleIndicatorMapDef.loop
    split
    · exact ih info led false
    · split_ifs
      · exact ih _ led false
      · rename_i _ field arrayNdx _ _
        exact (ih _ _ _).trans
          (SetIndicatorMapField_merge ext info led field arrayNdx var.value)

theorem HandleInterpDef_eq (ext : Externals) (info : CompatInfo) (d : InterpDef)
    (merge : merge_mode) (pred : xkb_match_operation) (mods sym : Nat)
    (hres : (ResolveStateAndPredicate ext d.match_ info).1 = some (pred, mods))
    (hsym : ext.LookupKeysym d.sym = some sym)
    (hb : (HandleInterpBody ext (ResolveStateAndPredicate ext d.match_ info).2 d.def_
      (HandleInterpDef.start (ResolveStateAndPredicate ext d.match_ info).2 d merge pred mods
        sym)).1 = true) :
    HandleInterpDef ext info d merge
    = AddInterp
        (HandleInterpBody ext (ResolveStateAndPredicate ext d.match_ info).2 d.def_
          (HandleInterpDef.start (ResolveStateAndPredicate ext d.match_ info).2 d merge pred
            mods sym)).2.1
        (HandleInterpBody ext (ResolveStateAndPredicate ext d.match_ info).2 d.def_
          (HandleInterpDef.start (ResolveStateAndPredicate ext d.match_ info).2 d merge pred
            mods sym)).2.2 := by
  unfold HandleInterpDef.start at hb ⊢
  unfold HandleInterpDef
  simp only [hres, hsym, hb, not_true_eq_false, if_false, (AddInterp_errorCount _ _).1]
  exact Prod.ext (AddInterp_errorCount _ _).1.symm rfl

/-! ## The merge mode of the records that reach `AddInterp` and `AddIndicatorMap` -/

/-- C32: `HandleCompatMapFile` treats the file merge mode DEFAULT as AUGMENT: (1)
its result is the same for both; (2) it runs the loop over the statements with
the handlers given the normalised mode `HandleCompatMapFile.mode merge` (AUGMENT
for DEFAULT, the file mode otherwise), which is never DEFAULT. (3) Handled with
the normalised mode, an interpret statement whose predicate and keysym resolve
and whose body is handled without error calls `AddInterp` with a record whose
merge mode is the one of the statement when that is not DEFAULT and the
normalised mode otherwise, so never DEFAULT; (4) an indicator-map statement
whose body is handled without error calls `AddIndicatorMap` with a record whose
merge mode is chosen the same way, so never DEFAULT. (5), (6) For a file of one
such statement the result of `HandleCompatMapFile` is the compat-info
`AddInterp`, or `AddIndicatorMap`, leaves for that record (with the message of
abandoning when the error counter exceeds ten). -/
theorem HandleCompatMapFile_merge_default (ext : Externals) :
    (∀ fuel info file,
      HandleCompatMapFile ext fuel info file MERGE_DEFAULT
        = HandleCompatMapFile ext fuel info file MERGE_AUGMENT) ∧
    (∀ fuel info file merge,
      HandleCompatMapFile ext (fuel + 1) info file merge
        = HandleCompatMapFile.loop
            (HandleCompatMapFile.stmt ext (fun i f m => HandleCompatMapFile ext fuel i f m)
              (HandleCompatMapFile.mode merge))
            { info with name := file.name } file.defs ∧
      HandleCompatMapFile.mode merge = (if merge = MERGE_DEFAULT then MERGE_AUGMENT else merge) ∧
      HandleCompatMapFile.mode merge ≠ MERGE_DEFAULT) ∧
    (∀ handleFile merge info d pred mods sym,
      (ResolveStateAndPredicate ext d.match_ info).1 = some (pred, mods) →
      ext.LookupKeysym d.sym = some sym →
      (HandleInterpDef.body ext info d (HandleCompatMapFile.mode merge) pred mods sym).1
        = true →
      HandleCompatMapFile.stmt ext handleFile (HandleCompatMapFile.mode merge) info
          (Stmt.STMT_INTERP d)
        = some (AddInterp
            (HandleInterpDef.body ext info d (HandleCompatMapFile.mode merge) pred mods sym).2.1
            (HandleInterpDef.body ext info d (HandleCompatMapFile.mode merge) pred mods
              sym).2.2) ∧
      (HandleInterpDef.body ext info d (HandleCompatMapFile.mode merge) pred mods
          sym).2.2.merge
        = (if d.merge = MERGE_DEFAULT then HandleCompatMapFile.mode merge else d.merge) ∧
      (HandleInterpDef.body ext info d (HandleCompatMapFile.mode merge) pred mods
          sym).2.2.merge ≠ MERGE_DEFAULT) ∧
    (∀ handleFile merge info d,
      (HandleIndicatorMapDef.body ext info d (HandleCompatMapFile.mode merge)).1 = true →
      HandleCompatMapFile.stmt ext handleFile (HandleCompatMapFile.mode merge) info
          (Stmt.STMT_INDICATOR_MAP d)
        = some (AddIndicatorMap
            (HandleIndicatorMapDef.body ext info d (HandleCompatMapFile.mode merge)).2.1
            (HandleIndicatorMapDef.body ext info d (HandleCompatMapFile.mode merge)).2.2) ∧
      (HandleIndicatorMapDef.body ext info d (HandleCompatMapFile.mode merge)).2.2.merge
        = (if d.merge ≠ MERGE_DEFAULT then d.merge else HandleCompatMapFile.mode merge) ∧
      (HandleIndicatorMapDef.body ext info d (HandleCompatMapFile.mode merge)).2.2.merge
        ≠ MERGE_DEFAULT) ∧
    (∀ (fuel : Nat) (merge : merge_mode) (info : CompatInfo) (file : XkbFile) (d : InterpDef)
        (pred : xkb_match_operation) (mods sym : Nat),
      (ResolveStateAndPredicate ext d.match_ { info with name := file.name }).1
        = some (pred, mods) →
      ext.LookupKeysym d.sym = some sym →
      (HandleInterpDef.body ext { info with name := file.name } d
        (HandleCompatMapFile.mode merge) pred mods sym).1 = true →
      HandleCompatMapFile ext (fuel + 1) info { file with defs := [Stmt.STMT_INTERP d] } merge
        = some
            (if (AddInterp
                  (HandleInterpDef.body ext { info with name := file.name } d
                    (HandleCompatMapFile.mode merge) pred mods sym).2.1
                  (HandleInterpDef.body ext { info with name := file.name } d
                    (HandleCompatMapFile.mode merge) pred mods sym).2.2).2.errorCount > 10
             then
               (AddInterp
                  (HandleInterpDef.body ext { info with name := file.name } d
                    (HandleCompatMapFile.mode merge) pred mods sym).2.1
                  (HandleInterpDef.body ext { info with name := file.name } d
                    (HandleCompatMapFile.mode merge) pred mods sym).2.2).2.log
                 [log_entry.msg "err" "Abandoning compatibility map"]
             else
               (AddInterp
                  (HandleInterpDef.body ext { info with name := file.name } d
                    (HandleCompatMapFile.mode merge) pred mods sym).2.1
                  (HandleInterpDef.body ext { info with name := file.name } d
                    (HandleCompatMapFile.mode merge) pred mods sym).2.2).2)) ∧
    (∀ (fuel : Nat) (merge : merge_mode) (info : CompatInfo) (file : XkbFile)
        (d : IndicatorMapDef),
      (HandleIndicatorMapDef.body ext { info with name := file.name } d
        (HandleCompatMapFile.mode merge)).1 = true →
      HandleCompatMapFile ext (fuel + 1) info
          { file with defs := [Stmt.STMT_INDICATOR_MAP d] } merge
        = some
            (if (AddIndicatorMap
                  (HandleIndicatorMapDef.body ext { info with name := file.name } d
                    (HandleCompatMapFile.mode merge)).2.1
                  (HandleIndicatorMapDef.body ext { info with name := file.name } d
                    (HandleCompatMapFile.mode merge)).2.2).2.errorCount > 10
             then
               (AddIndicatorMap
                  (HandleIndicatorMapDef.body ext { info with name := file.name } d
                    (HandleCompatMapFile.mode merge)).2.1
                  (HandleIndicatorMapDef.body ext { info with name := file.name } d
                    (HandleCompatMapFile.mode merge)).2.2).2.log
                 [log_entry.msg "err" "Abandoning compatibility map"]
             else
               (AddIndicatorMap
                  (HandleIndicatorMapDef.body ext { info with name := file.name } d
                    (HandleCompatMapFile.mode merge)).2.1
                  (HandleIndicatorMapDef.body ext { info with name := file.name } d
                    (HandleCompatMapFile.mode merge)).2.2).2)) := by
  have hN : ∀ merge : merge_mode, HandleCompatMapFile.mode merge ≠ MERGE_DEFAULT := by
    intro merge
    unfold HandleCompatMapFile.mode
    split_ifs with h
    · decide
    · exact h
  have h3 : ∀ (handleFile : CompatInfo → XkbFile → merge_mode → Option CompatInfo)
      (N : merge_mode) (info : CompatInfo) (d : InterpDef) (pred : xkb_match_operation)
      (mods sym : Nat),
      (ResolveStateAndPredicate ext d.match_ info).1 = some (pred, mods) →
      ext.LookupKeysym d.sym = some sym →
      (HandleInterpDef.body ext info d N pred mods sym).1 = true →
      HandleCompatMapFile.stmt ext handleFile N info (Stmt.STMT_INTERP d)
        = some (AddInterp (HandleInterpDef.body ext info d N pred mods sym).2.1
            (HandleInterpDef.body ext info d N pred mods sym).2.2) := by
    intro handleFile N info d pred mods sym hres hsym hb
    simp only [HandleCompatMapFile.stmt]
    rw [HandleInterpDef_eq ext info d _ pred mods sym hres hsym hb]
    rfl
  have h4 : ∀ (handleFile : CompatInfo → XkbFile → merge_mode → Option CompatInfo)
      (N : merge_mode) (info : CompatInfo) (d : IndicatorMapDef),
      (HandleIndicatorMapDef.body ext info d N).1 = true →
      HandleCompatMapFile.stmt ext handleFile N info (Stmt.STMT_INDICATOR_MAP d)
        = some (AddIndicatorMap (HandleIndicatorMapDef.body ext info d N).2.1
            (HandleIndicatorMapDef.body ext info d N).2.2) := by
    intro handleFile N info d hb
    simp only [HandleCompatMapFile.stmt]
    unfold HandleIndicatorMapDef.body at hb ⊢
    rw [HandleIndicatorMapDef_eq, if_pos hb]
  refine ⟨?_, ?_, ?_, ?_, ?_, ?_⟩
  · intro fuel info file
    cases fuel with
    | zero => rfl
    | succ n => rfl
  · intro fuel info file merge
    exact ⟨rfl, rfl, hN merge⟩
  · intro handleFile merge info d pred mods sym hres hsym hb
    have hmerge : (HandleInterpDef.body ext info d (HandleCompatMapFile.mode merge) pred mods
          sym).2.2.merge
        = (if d.merge = MERGE_DEFAULT then HandleCompatMapFile.mode merge else d.merge) :=
      interp_loop_merge ext d.def_ _ _ true
    refine ⟨h3 handleFile _ info d pred mods sym hres hsym hb, hmerge, ?_⟩
    rw [hmerge]
    split_ifs with h1
    · exact hN merge
    · exact h1
  · intro handleFile merge info d hb
    have hmerge : (HandleIndicatorMapDef.body ext info d
          (HandleCompatMapFile.mode merge)).2.2.merge
        = (if d.merge ≠ MERGE_DEFAULT then d.merge else HandleCompatMapFile.mode merge) :=
      indicator_loop_merge ext d.body info _ true
    refine ⟨h4 handleFile _ info d hb, hmerge, ?_⟩
    rw [hmerge]
    split_ifs with h1
    · exact h1
    · exact hN merge
  · intro fuel merge info file d pred mods sym hres hsym hb
    have hstep := h3 (fun i f m => HandleCompatMapFile ext fuel i f m)
      (HandleCompatMapFile.mode merge) { info with name := file.name } d pred mods sym hres
      hsym hb
    have hfile : HandleCompatMapFile ext (fuel + 1) info
          { file with defs := [Stmt.STMT_INTERP d] } merge
        = HandleCompatMapFile.loop
            (HandleCompatMapFile.stmt ext (fun i f m => HandleCompatMapFile ext fuel i f m)
              (HandleCompatMapFile.mode merge))
            { info with name := file.name } [Stmt.STMT_INTERP d] := rfl
    rw [hfile]
    simp only [HandleCompatMapFile.loop]
    rw [hstep]
    simp only [(AddInterp_errorCount _ _).1, not_true_eq_false, if_false]
    split_ifs <;> rfl
  · intro fuel merge info file d hb
    have hok : ∀ (i : CompatInfo) (l : LEDInfo), (AddIndicatorMap i l).1 = true := by
      intro i l
      unfold AddIndicatorMap
      split <;> rfl
    have hstep := h4 (fun i f m => HandleCompatMapFile ext fuel i f m)
      (HandleCompatMapFile.mode merge) { info with name := file.name } d hb
    have hfile : HandleCompatMapFile ext (fuel + 1) info
          { file with defs := [Stmt.STMT_INDICATOR_MAP d] } merge
        = HandleCompatMapFile.loop
            (HandleCompatMapFile.stmt ext (fun i f m => HandleCompatMapFile ext fuel i f m)
              (HandleCompatMapFile.mode merge))
            { info with name := file.name } [Stmt.STMT_INDICATOR_MAP d] := rfl
    rw [hfile]
    simp only [HandleCompatMapFile.loop]
    rw [hstep]
    simp only [hok, not_true_eq_false, if_false]
    split_ifs <;> rfl

/-- Witness of C32: with the file mode DEFAULT, the statement
`replace interpret a ...` reaches `AddInterp` with the merge mode REPLACE, the
statement `interpret a ...` with the merge mode AUGMENT, and the statement
`indicator "Caps Lock" ...` reaches `AddIndicatorMap` with the merge mode
AUGMENT; the file of the one statement `interpret a ...` leaves a list with the
record of the keysym 97 added, with the merge mode AUGMENT. -/
theorem HandleCompatMapFile_merge_default_witness :
    (HandleInterpDef.body sampleExt atomInfo replaceInterpret
      (HandleCompatMapFile.mode MERGE_DEFAULT) MATCH_ANY_OR_NONE MOD_REAL_MASK_ALL
      97).2.2.merge = MERGE_REPLACE ∧
    (HandleInterpDef.body sampleExt atomInfo (interpretWith [repeatAssignment])
      (HandleCompatMapFile.mode MERGE_DEFAULT) MATCH_ANY_OR_NONE MOD_REAL_MASK_ALL
      97).2.2.merge = MERGE_AUGMENT ∧
    (HandleIndicatorMapDef.body sampleExt atomInfo plainIndicator
      (HandleCompatMapFile.mode MERGE_DEFAULT)).2.2.merge = MERGE_AUGMENT ∧
    HandleCompatMapFile.stmt sampleExt (fun _ _ _ => none)
        (HandleCompatMapFile.mode MERGE_DEFAULT) atomInfo
        (Stmt.STMT_INDICATOR_MAP plainIndicator)
      = some (AddIndicatorMap
          (HandleIndicatorMapDef.body sampleExt atomInfo plainIndicator
            (HandleCompatMapFile.mode MERGE_DEFAULT)).2.1
          (HandleIndicatorMapDef.body sampleExt atomInfo plainIndicator
            (HandleCompatMapFile.mode MERGE_DEFAULT)).2.2) ∧
    (HandleCompatMapFile sampleExt 1 atomInfo
        { goodFile with defs := [Stmt.STMT_INTERP (interpretWith [repeatAssignment])] }
        MERGE_DEFAULT).map
        (fun i => i.interps.map (fun si : SymInterpInfo => (si.interp.sym, si.merge)))
      = some (atomInfo.interps.map (fun si : SymInterpInfo => (si.interp.sym, si.merge))
              ++ [(97, MERGE_AUGMENT)]) :=
  ⟨((HandleCompatMapFile_merge_default sampleExt).2.2.1 (fun _ _ _ => none) MERGE_DEFAULT
      atomInfo replaceInterpret MATCH_ANY_OR_NONE MOD_REAL_MASK_ALL 97 rfl (by decide)
      (by decide)).2.1.trans (by decide),
   ((HandleCompatMapFile_merge_default sampleExt).2.2.1 (fun _ _ _ => none) MERGE_DEFAULT
      atomInfo (interpretWith [repeatAssignment]) MATCH_ANY_OR_NONE MOD_REAL_MASK_ALL 97 rfl
      (by decide) (by decide)).2.1.trans (by decide),
   ((HandleCompatMapFile_merge_default sampleExt).2.2.2.1 (fun _ _ _ => none) MERGE_DEFAULT
      atomInfo plainIndicator (by decide)).2.1.trans (by decide),
   ((HandleCompatMapFile_merge_default sampleExt).2.2.2.1 (fun _ _ _ => none) MERGE_DEFAULT
      atomInfo plainIndicator (by decide)).1,
   by decide⟩

end Xkb
